import Mathlib

/-!
# Temporal relationship transaction engine (`api/entity_operations.go`)

A shallow embedding of the transaction operations of the organisation chart
engine, and theorems about them.

Conventions of the embedding.

* A Go `string` that holds a text is a Lean `String`, and its bytes are those of
  the UTF-8 encoding of the text. A byte slice that cuts a character, and the
  lower-casing of a character outside ASCII, are strings that the embedding does
  not represent: a call that hands such a string to the store has the outcome
  `Result.unmodelled`, and nothing is stated about the remainder of that call.
* A Go `int` is an `Int` kept in the 64-bit two's complement range by `wrapInt`.
* A Go call that returns `(value, error)` and may panic is an `Op`: a function
  from the state before the call to a `Result` and the state after the call.
  The state survives an error: nothing is rolled back.
* The state (`World`) is the remote entity store reached through the client,
  the sequence of requests sent to it, and the caller's counter table (a Go map,
  shared by reference).
-/

namespace OrgChart

/-! ## Data model

The `models` package is not part of the sources: the types below follow section 3
of the specification, with the fields that `entity_operations.go` reads and writes. -/

/-- Modelled from the spec: `models.Kind` (section 3), the kind of an entity: a
major category and a minor sub-type. -/
structure Kind where
  major : String
  minor : String
  deriving DecidableEq, Repr, Inhabited

/-- Modelled from the spec: `models.TimeBasedValue` (section 3), a value paired
with the time from which it holds. -/
structure TimeBasedValue where
  startTime : String
  value : String
  deriving DecidableEq, Repr, Inhabited

/-- Modelled from the spec: `models.MetadataEntry` (section 3); the engine never
fills one in. -/
structure MetadataEntry where
  key : String
  value : String
  deriving DecidableEq, Repr, Inhabited

/-- Modelled from the spec: `models.AttributeEntry` (section 3); the engine never
fills one in. -/
structure AttributeEntry where
  key : String
  value : String
  deriving DecidableEq, Repr, Inhabited

/-- Modelled from the spec: `models.Relationship` (section 3), a directed, typed,
time-bounded edge, owned by its source entity. -/
structure Relationship where
  relatedEntityID : String
  startTime : String
  endTime : String
  id : String
  name : String
  deriving DecidableEq, Repr, Inhabited

/-- Modelled from the spec: `models.RelationshipEntry` (section 3), an entry of
the relationship collection of an entity. -/
structure RelationshipEntry where
  key : String
  value : Relationship
  deriving DecidableEq, Repr, Inhabited

/-- Modelled from the spec: `models.Entity` (section 3), a node of the graph. -/
structure Entity where
  id : String
  kind : Kind
  created : String
  terminated : String
  name : TimeBasedValue
  metadata : List MetadataEntry
  attributes : List AttributeEntry
  relationships : List RelationshipEntry
  deriving DecidableEq, Repr, Inhabited

/-- Modelled from the spec: `models.SearchCriteria` (section 6); an empty field,
or an absent kind, is a wildcard. -/
structure SearchCriteria where
  id : String
  kind : Option Kind
  name : String
  deriving DecidableEq, Repr, Inhabited

/-- Modelled from the spec: item of a search response (section 6); the source
reads its `ID` and its `Name`, the plain current name. -/
structure SearchResult where
  id : String
  kind : Kind
  name : String
  created : String
  terminated : String
  deriving DecidableEq, Repr, Inhabited

/-! ## Transactions and counters -/

/-- Value held in the untyped field bag `map[string]interface{}`. -/
inductive Value where
  | str (s : String)
  | nil
  | other
  deriving DecidableEq, Repr, Inhabited

/-- Transaction: the field bag handed to an operation. -/
abbrev Transaction := List (String × Value)

/-- Map index `transaction[key]`: a missing key reads as the nil interface. -/
def Transaction.get (tx : Transaction) (key : String) : Value :=
  match tx.lookup key with
  | some v => v
  | none => Value.nil

/-- Counter table `map[string]int`. -/
abbrev Counters := List (String × Int)

/-- Width of the Go type `int` on the 64-bit platforms. -/
def intBits : Nat := 64

/-- Largest value of the Go type `int`. -/
def maxInt : Int := 2 ^ (intBits - 1) - 1

/-- Smallest value of the Go type `int`. -/
def minInt : Int := -(2 ^ (intBits - 1))

/-- Two's complement wrap-around of integer arithmetic on `int`. -/
def wrapInt (x : Int) : Int :=
  (x + 2 ^ (intBits - 1)) % 2 ^ intBits - 2 ^ (intBits - 1)

/-- Comma-ok map read `v, exists := counters[key]`. -/
def Counters.find (cs : Counters) (key : String) : Option Int :=
  cs.lookup key

/-- Plain map read `counters[key]`: a missing key reads as zero. -/
def Counters.read (cs : Counters) (key : String) : Int :=
  match cs.lookup key with
  | some v => v
  | none => 0

/-- Map write `counters[key] = v`. -/
def Counters.write : Counters → String → Int → Counters
  | [], key, v => [(key, v)]
  | (k, x) :: rest, key, v =>
    if k = key then (k, v) :: rest else (k, x) :: Counters.write rest key v

/-! ## Strings, dates -/

/-- White space in the sense of `unicode.IsSpace`. -/
def isSpace (c : Char) : Bool :=
  c = '\t' || c = '\n' || c.toNat = 11 || c.toNat = 12 || c = '\r' || c = ' '
    || c.toNat = 0x85 || c.toNat = 0xA0 || c.toNat = 0x1680
    || (0x2000 ≤ c.toNat && c.toNat ≤ 0x200A)
    || c.toNat = 0x2028 || c.toNat = 0x2029 || c.toNat = 0x202F
    || c.toNat = 0x205F || c.toNat = 0x3000

/-- Go `strings.TrimSpace`: leading and trailing white space removed. -/
def TrimSpace (s : String) : String :=
  String.mk (((s.data.dropWhile isSpace).reverse.dropWhile isSpace).reverse)

/-- Characters of ASCII, the single bytes of UTF-8. -/
def isASCII (c : Char) : Bool := c.toNat < 0x80

/-- Go `strings.ToLower` on a text of ASCII characters, where it lowers the
letters `A` to `Z` and is independent of the Unicode tables of the standard
library; on any other text the embedding gives no value. -/
def ToLower (s : String) : Option String :=
  if s.data.all isASCII then some (String.mk (s.data.map Char.toLower)) else none

/-- Number of bytes of a character in UTF-8 (`utf8.RuneLen`). -/
def runeLen (c : Char) : Nat :=
  if c.toNat < 0x80 then 1
  else if c.toNat < 0x800 then 2
  else if c.toNat < 0x10000 then 3
  else 4

/-- Go `len(s)`: the number of bytes of the string. -/
def byteLen (s : String) : Nat := (s.data.map runeLen).sum

/-- Value of a slice expression `s[:n]` on a text: the index is out of range, or
the slice is the text of the first `n` bytes, or the slice ends inside a
character and is not a text. -/
inductive Sliced where
  | outOfRange
  | text (s : String)
  | notText
  deriving DecidableEq, Repr

/-- The first `n` bytes of the UTF-8 encoding of a list of characters. -/
def sliceChars : List Char → Nat → Sliced
  | _, 0 => Sliced.text ""
  | [], _ + 1 => Sliced.outOfRange
  | c :: cs, n + 1 =>
    if runeLen c ≤ n + 1 then
      match sliceChars cs (n + 1 - runeLen c) with
      | Sliced.text t => Sliced.text (String.mk (c :: t.data))
      | r => r
    else Sliced.notText

/-- Slice expression `s[:n]`, which cuts bytes: out of range when `s` has fewer
than `n` bytes. -/
def sliceTo (s : String) (n : Nat) : Sliced := sliceChars s.data n

/-- Calendar date produced by `time.Parse` with the layout `2006-01-02`. -/
structure Date where
  year : Nat
  month : Nat
  day : Nat
  deriving DecidableEq, Repr, Inhabited

/-- Value of a decimal digit. -/
def digitVal (c : Char) : Nat := c.toNat - 48

/-- Decimal digit of a value below ten. -/
def digitChar (n : Nat) : Char := Char.ofNat (n + 48)

/-- Leap years of the Gregorian calendar. -/
def isLeap (year : Nat) : Bool :=
  year % 4 = 0 && (year % 100 ≠ 0 || year % 400 = 0)

/-- Number of days of a month. -/
def daysIn (month year : Nat) : Nat :=
  if month = 2 then (if isLeap year then 29 else 28)
  else if month = 4 || month = 6 || month = 9 || month = 11 then 30
  else 31

/-- Go `time.Parse("2006-01-02", s)`: four digits, two digits, two digits,
separated by hyphens, nothing else, and a day that exists. -/
def timeParse (s : String) : Option Date :=
  match s.data with
  | [y1, y2, y3, y4, h1, m1, m2, h2, d1, d2] =>
    if h1 = '-' ∧ h2 = '-' ∧ y1.isDigit ∧ y2.isDigit ∧ y3.isDigit ∧ y4.isDigit
        ∧ m1.isDigit ∧ m2.isDigit ∧ d1.isDigit ∧ d2.isDigit then
      let year := 1000 * digitVal y1 + 100 * digitVal y2 + 10 * digitVal y3 + digitVal y4
      let month := 10 * digitVal m1 + digitVal m2
      let day := 10 * digitVal d1 + digitVal d2
      if 1 ≤ month ∧ month ≤ 12 ∧ 1 ≤ day ∧ day ≤ daysIn month year then
        some { year := year, month := month, day := day }
      else none
    else none
  | _ => none

/-- Go `date.Format(time.RFC3339)` of a date parsed by `timeParse` (midnight, UTC). -/
def formatRFC3339 (d : Date) : String :=
  String.mk [digitChar (d.year / 1000 % 10), digitChar (d.year / 100 % 10),
    digitChar (d.year / 10 % 10), digitChar (d.year % 10), '-',
    digitChar (d.month / 10 % 10), digitChar (d.month % 10), '-',
    digitChar (d.day / 10 % 10), digitChar (d.day % 10)] ++ "T00:00:00Z"

/-- Text of the error of `time.Parse` (the standard library words it; the
engine only wraps it). -/
def timeParseError (s : String) : String :=
  "parsing time " ++ s ++ " as 2006-01-02: cannot parse"

/-- Go `strings.Trim(s, cutset)`: leading and trailing characters of the cutset removed. -/
def Trim (s : String) (cutset : List Char) : String :=
  String.mk (((s.data.dropWhile (fun c => cutset.contains c)).reverse.dropWhile
    (fun c => cutset.contains c)).reverse)

/-- Fields of a character list cut at every separator character. -/
def splitChars (sep : Char) : List Char → List (List Char)
  | [] => [[]]
  | c :: rest =>
    if c = sep then [] :: splitChars sep rest
    else
      match splitChars sep rest with
      | [] => [[c]]
      | field :: fields => (c :: field) :: fields

/-- Go `strings.Split(s, sep)` for a separator of one character. -/
def Split (s : String) (sep : Char) : List String :=
  (splitChars sep s.data).map String.mk

/-- Order of two timestamps written in the same fixed-width format. -/
def timeLE : List Char → List Char → Bool
  | [], _ => true
  | _ :: _, [] => false
  | a :: s, b :: t => a.toNat < b.toNat || (a.toNat = b.toNat && timeLE s t)

/-! ## State, results, sequencing -/

/-- Request sent to the entity store. -/
inductive StoreCall where
  | createEntity (e : Entity)
  | updateEntity (id : String) (e : Entity)
  | searchEntities (c : SearchCriteria)
  | getRelatedEntities (id : String) (q : Relationship)
  | getAllRelatedEntities (id : String)
  deriving DecidableEq, Repr

/-- State an operation runs in: the contents of the remote store, the way the
store reads the start time of a relation query (the specification names the
filter and leaves its meaning to the store), the requests sent so far, and the
counter table of the caller. -/
structure World where
  entities : List Entity
  startTimeMatches : String → Relationship → Bool
  calls : List StoreCall
  counters : Counters

/-- Outcome of a Go call: a value, a returned error, or a run-time panic. The
fourth outcome is not one of the program: `unmodelled` stands for a call that
goes on with a string that the embedding does not represent, from the point
where that string is handed to the store. -/
inductive Result (α : Type) where
  | ok (val : α)
  | error (msg : String)
  | panic (msg : String)
  | unmodelled (what : String)
  deriving DecidableEq, Repr

/-- Computation over the state; the state after the call is kept whatever the outcome. -/
def Op (α : Type) : Type := World → Result α × World

/-- Run an operation from a state. -/
def Op.run {α : Type} (m : Op α) (w : World) : Result α × World := m w

/-- Sequencing: the first error or panic ends the computation. -/
def Op.bind {α β : Type} (m : Op α) (f : α → Op β) : Op β := fun w =>
  match m w with
  | (Result.ok a, w1) => f a w1
  | (Result.error e, w1) => (Result.error e, w1)
  | (Result.panic e, w1) => (Result.panic e, w1)
  | (Result.unmodelled e, w1) => (Result.unmodelled e, w1)

instance : Monad Op where
  pure a := fun w => (Result.ok a, w)
  bind := Op.bind

/-- Return an error: `return ..., fmt.Errorf(msg)`. -/
def fail {α : Type} (msg : String) : Op α := fun w => (Result.error msg, w)

/-- Run-time panic. -/
def panicWith {α : Type} (msg : String) : Op α := fun w => (Result.panic msg, w)

/-- End of what the embedding follows of a call. -/
def unmodelled {α : Type} (what : String) : Op α := fun w => (Result.unmodelled what, w)

/-- Slice expression `s[:n]` inside a call: an index out of range is a run-time
panic; the value is the text of the slice, or nothing when the slice is not a
text. -/
def slice (s : String) (n : Nat) : Op (Option String) :=
  match sliceTo s n with
  | Sliced.outOfRange => panicWith "slice bounds out of range"
  | Sliced.text t => pure (some t)
  | Sliced.notText => pure none

/-- Error wrapping `fmt.Errorf(pfx + "%w", err)` around a call. -/
def wrapError {α : Type} (pfx : String) (m : Op α) : Op α := fun w =>
  match m w with
  | (Result.error e, w1) => (Result.error (pfx ++ e), w1)
  | r => r

/-- Type assertion `v.(string)`: panics unless the value is a string. -/
def assertString (v : Value) : Op String :=
  match v with
  | Value.str s => pure s
  | _ => panicWith "interface conversion: value is not a string"

/-- Read the counter table of the caller. -/
def getCounters : Op Counters := fun w => (Result.ok w.counters, w)

/-- Replace the counter table of the caller (the map is written in place). -/
def setCounters (cs : Counters) : Op Unit := fun w =>
  (Result.ok (), { w with counters := cs })

/-! ## Entity Store Client -/

/-- Modelled from the spec: kind part of `SearchEntities` (section 6). -/
def matchesKind (k : Option Kind) (e : Entity) : Bool :=
  match k with
  | none => true
  | some k => (k.major = "" || e.kind.major = k.major) && (k.minor = "" || e.kind.minor = k.minor)

/-- Modelled from the spec: matching of `SearchEntities` (section 6): the
criteria are ANDed and an omitted field is a wildcard. -/
def matchesCriteria (c : SearchCriteria) (e : Entity) : Bool :=
  (c.id = "" || e.id = c.id) && matchesKind c.kind e && (c.name = "" || e.name.value = c.name)

/-- Modelled from the spec: search response item of an entity (section 6). -/
def toSearchResult (e : Entity) : SearchResult :=
  { id := e.id, kind := e.kind, name := e.name.value, created := e.created,
    terminated := e.terminated }

/-- Modelled from the spec: `SearchEntities` of the Entity Store Client (section 6;
the client is not part of the sources). Criteria are ANDed, omitted fields are
wildcards; the matches come in store order. -/
def SearchEntities (c : SearchCriteria) : Op (List SearchResult) := fun w =>
  (Result.ok ((w.entities.filter (matchesCriteria c)).map toSearchResult),
    { w with calls := w.calls ++ [StoreCall.searchEntities c] })

/-- Modelled from the spec: whether the store holds an entity with a given ID
(`CreateEntity`, `UpdateEntity`, section 6). -/
def hasID (entities : List Entity) (id : String) : Bool :=
  entities.any (fun x => x.id = id)

/-- Modelled from the spec: the entity that the store addresses by an ID
(section 6). -/
def findEntity (entities : List Entity) (id : String) : Option Entity :=
  entities.find? (fun x => x.id = id)

/-- Modelled from the spec: `CreateEntity` of the Entity Store Client (section 6).
Fails if an entity with the same ID already exists; otherwise stores the entity
and returns it. -/
def CreateEntity (e : Entity) : Op Entity := fun w =>
  if hasID w.entities e.id then
    (Result.error ("entity already exists: " ++ e.id),
      { w with calls := w.calls ++ [StoreCall.createEntity e] })
  else
    (Result.ok e, { w with entities := w.entities ++ [e],
                           calls := w.calls ++ [StoreCall.createEntity e] })

/-- Modelled from the spec: merge step of `UpdateEntity` for one relationship
(sections 4.3 and 6): only the non-empty fields supplied are written, the
other fields of the stored relationship are left untouched. -/
def mergeRelationship (old new : Relationship) : Relationship :=
  { relatedEntityID := if new.relatedEntityID = "" then old.relatedEntityID else new.relatedEntityID
    startTime := if new.startTime = "" then old.startTime else new.startTime
    endTime := if new.endTime = "" then old.endTime else new.endTime
    id := if new.id = "" then old.id else new.id
    name := if new.name = "" then old.name else new.name }

/-- Modelled from the spec: upsert of one relationship entry by key in
`UpdateEntity` (section 6); sibling entries are left untouched. -/
def upsertRelationship : List RelationshipEntry → RelationshipEntry → List RelationshipEntry
  | [], entry => [entry]
  | r :: rest, entry =>
    if r.key = entry.key then
      { key := r.key, value := mergeRelationship r.value entry.value } :: rest
    else r :: upsertRelationship rest entry

/-- Modelled from the spec: merge of a partial entity into a stored one in
`UpdateEntity` (sections 3 and 6): identity and kind are immutable, the other
fields are written where a non-empty value is supplied, each supplied
relationship entry is upserted. -/
def mergeEntity (e p : Entity) : Entity :=
  { id := e.id
    kind := e.kind
    created := if p.created = "" then e.created else p.created
    terminated := if p.terminated = "" then e.terminated else p.terminated
    name := if p.name.value = "" ∧ p.name.startTime = "" then e.name else p.name
    metadata := if p.metadata = [] then e.metadata else p.metadata
    attributes := if p.attributes = [] then e.attributes else p.attributes
    relationships := p.relationships.foldl upsertRelationship e.relationships }

/-- Modelled from the spec: store contents after `UpdateEntity id p` (section 6). -/
def applyUpdate (entities : List Entity) (id : String) (p : Entity) : List Entity :=
  entities.map (fun x => if x.id = id then mergeEntity x p else x)

/-- Modelled from the spec: `UpdateEntity` of the Entity Store Client (section 6).
Merges only the non-empty fields supplied; one supplied relationship entry
upserts that relationship and leaves its siblings untouched. -/
def UpdateEntity (id : String) (p : Entity) : Op Entity := fun w =>
  match findEntity w.entities id with
  | none =>
    (Result.error ("entity not found: " ++ id),
      { w with calls := w.calls ++ [StoreCall.updateEntity id p] })
  | some e =>
    (Result.ok (mergeEntity e p),
      { w with entities := applyUpdate w.entities id p,
               calls := w.calls ++ [StoreCall.updateEntity id p] })

/-- Modelled from the spec: relationships owned by an entity of the store
(`GetAllRelatedEntities`, section 6), in stored order. -/
def relationshipsOf (entities : List Entity) (id : String) : List Relationship :=
  match findEntity entities id with
  | none => []
  | some e => e.relationships.map (fun r => r.value)

/-- Modelled from the spec: filter of `GetRelatedEntities` (section 6): target
and name are compared when given; the reading of the start time is that of
the store. -/
def matchesQuery (startTimeMatches : String → Relationship → Bool)
    (q r : Relationship) : Bool :=
  (q.relatedEntityID = "" || r.relatedEntityID = q.relatedEntityID)
    && (q.name = "" || r.name = q.name)
    && (q.startTime = "" || startTimeMatches q.startTime r)

/-- Modelled from the spec: `GetRelatedEntities` of the Entity Store Client
(section 6): the relationships of an entity that pass the filter
`relatedEntityID?, name?, startTime?`. -/
def GetRelatedEntities (id : String) (q : Relationship) : Op (List Relationship) := fun w =>
  (Result.ok ((relationshipsOf w.entities id).filter (matchesQuery w.startTimeMatches q)),
    { w with calls := w.calls ++ [StoreCall.getRelatedEntities id q] })

/-- Modelled from the spec: `GetAllRelatedEntities` of the Entity Store Client
(section 6): the full relationship history of an entity. -/
def GetAllRelatedEntities (id : String) : Op (List Relationship) := fun w =>
  (Result.ok (relationshipsOf w.entities id),
    { w with calls := w.calls ++ [StoreCall.getAllRelatedEntities id] })

/-! ## Transaction operations -/

/-- Government entity built by `CreateGovernmentNode` (source lines 14-25). -/
def governmentEntity : Entity :=
  { id := "gov_01", kind := { major := "Organisation", minor := "government" },
    created := "2024-01-01T00:00:00Z", terminated := "",
    name := { startTime := "2024-01-01T00:00:00Z", value := "Government of Sri Lanka" },
    metadata := [], attributes := [], relationships := [] }

/-- `CreateGovernmentNode` creates the initial government node (source lines 12-34). -/
def CreateGovernmentNode : Op Entity :=
  wrapError "failed to create government entity: " (CreateEntity governmentEntity)

/-- Partial entity that carries one relationship, as sent to `UpdateEntity`. -/
def relationshipUpdate (id : String) (r : Relationship) : Entity :=
  { id := id, kind := { major := "", minor := "" }, created := "", terminated := "",
    name := { startTime := "", value := "" }, metadata := [], attributes := [],
    relationships := [{ key := r.id, value := r }] }

/-- Relationship `parentID_childID` from a parent to a child, active from `dateISO`. -/
def newRelationship (parentID childID dateISO name : String) : Relationship :=
  { relatedEntityID := childID, startTime := dateISO, endTime := "",
    id := parentID ++ "_" ++ childID, name := name }

/-- Entity built by the Add operations before it is created in the store. -/
def newEntity (id major minor dateISO name : String) : Entity :=
  { id := id, kind := { major := major, minor := minor }, created := dateISO,
    terminated := "", name := { startTime := dateISO, value := name },
    metadata := [], attributes := [], relationships := [] }

/-- Date handling shared by all operations: `time.Parse` of the trimmed date and
`Format(time.RFC3339)`; a date that does not parse is an error. -/
def parseDate (dateStr : String) : Op String :=
  match timeParse (TrimSpace dateStr) with
  | none => fail ("failed to parse date: " ++ timeParseError (TrimSpace dateStr))
  | some date => pure (formatRFC3339 date)

/-- Organisation search criteria for a name and a minor kind. -/
def orgCriteria (minor name : String) : SearchCriteria :=
  { id := "", kind := some { major := "Organisation", minor := minor }, name := name }

/-- `fmt.Sprintf("%s_%s", head, kind)` of the ID prefix; it is a text when both
parts are. -/
def joinParts (head kind : Option String) : Option String :=
  match head, kind with
  | some head, some kind => some (head ++ "_" ++ kind)
  | _, _ => none

/-- `AddOrgEntity` creates a new entity and establishes its relationship with a
parent entity (source lines 38-137). -/
def AddOrgEntity (transaction : Transaction) : Op Int := do
  let parent ← assertString (transaction.get "parent")
  let child ← assertString (transaction.get "child")
  let dateStr ← assertString (transaction.get "date")
  let parentType ← assertString (transaction.get "parent_type")
  let childType ← assertString (transaction.get "child_type")
  let relType ← assertString (transaction.get "rel_type")
  let transactionID ← assertString (transaction.get "transaction_id")
  let dateISO ← parseDate dateStr
  let entityCounters ← getCounters
  match entityCounters.find childType with
  | none => fail ("unknown child type: " ++ childType)
  | some n =>
    let txHead ← slice transactionID 7
    let kindHead ← slice childType 3
    let pfx := joinParts txHead (kindHead.bind ToLower)
    let entityCounter := wrapInt (n + 1)
    let newEntityID := pfx.map (fun p => p ++ "_" ++ toString entityCounter)
    let searchResults ← wrapError "failed to search for parent entity: "
      (SearchEntities (orgCriteria parentType parent))
    match searchResults with
    | [] => fail ("parent entity not found: " ++ parent)
    | first :: _ =>
      let parentID := first.id
      match newEntityID with
      | none => unmodelled "entity ID that the embedding does not represent"
      | some newEntityID =>
        let createdChild ← wrapError "failed to create child entity: "
          (CreateEntity (newEntity newEntityID "Organisation" childType dateISO child))
        let _ ← wrapError "failed to update parent entity: "
          (UpdateEntity parentID
            (relationshipUpdate parentID (newRelationship parentID createdChild.id dateISO relType)))
        pure entityCounter

/-- Loop test `rel.RelatedEntityID == childID && rel.EndTime == ""`. -/
def activeTo (childID : String) (rel : Relationship) : Bool :=
  rel.relatedEntityID = childID && rel.endTime = ""

/-- Loop test `rel.Name == "AS_DEPARTMENT" && rel.EndTime == ""`. -/
def activeDepartment (rel : Relationship) : Bool :=
  rel.name = "AS_DEPARTMENT" && rel.endTime = ""

/-- Loop test for an active `AS_DEPARTMENT` relationship to a given department. -/
def activeDepartmentTo (childID : String) (rel : Relationship) : Bool :=
  rel.relatedEntityID = childID && rel.name = "AS_DEPARTMENT" && rel.endTime = ""

/-- Filter sent by the terminate operations to `GetRelatedEntities`. -/
def terminateQuery (childID relType dateISO : String) : Relationship :=
  { relatedEntityID := childID, startTime := dateISO, endTime := "", id := "", name := relType }

/-- Relationship fields sent by the terminate operations to `UpdateEntity`:
the end time and the ID only. -/
def endRelationship (id dateISO : String) : Relationship :=
  { relatedEntityID := "", startTime := "", endTime := dateISO, id := id, name := "" }

/-- Closing of the active relationship from a parent to a child: the common
tail of `TerminateOrgEntity` (source lines 201-243) and `TerminatePersonEntity`
(source lines 1000-1042). -/
def terminateActive (parentID childID relType dateISO : String) : Op Unit := do
  let relations ← wrapError "failed to get relationship: "
    (GetRelatedEntities parentID (terminateQuery childID relType dateISO))
  match relations.find? (activeTo childID) with
  | none =>
    fail ("no active relationship found between " ++ parentID ++ " and " ++ childID
      ++ " with type " ++ relType)
  | some activeRel =>
    let _ ← wrapError "failed to terminate relationship: "
      (UpdateEntity parentID
        (relationshipUpdate parentID (endRelationship activeRel.id dateISO)))
    pure ()

/-- `TerminateOrgEntity` terminates a specific relationship between parent and
child at a given date (source lines 140-243). -/
def TerminateOrgEntity (transaction : Transaction) : Op Unit := do
  let parent ← assertString (transaction.get "parent")
  let child ← assertString (transaction.get "child")
  let dateStr ← assertString (transaction.get "date")
  let parentType ← assertString (transaction.get "parent_type")
  let childType ← assertString (transaction.get "child_type")
  let relType ← assertString (transaction.get "rel_type")
  let dateISO ← parseDate dateStr
  let parentResults ← wrapError "failed to search for parent entity: "
    (SearchEntities (orgCriteria parentType parent))
  match parentResults with
  | [] => fail ("parent entity not found: " ++ parent)
  | firstParent :: _ =>
    let parentID := firstParent.id
    let childResults ← wrapError "failed to search for child entity: "
      (SearchEntities (orgCriteria childType child))
    match childResults with
    | [] => fail ("child entity not found: " ++ child)
    | firstChild :: _ =>
      let childID := firstChild.id
      if childType = "minister" then do
        let relations ← wrapError "failed to get minister's relationships: "
          (GetAllRelatedEntities childID)
        if relations.any activeDepartment then
          fail "cannot terminate minister with active departments"
        else
          terminateActive parentID childID relType dateISO
      else
        terminateActive parentID childID relType dateISO

/-- Transaction built by the composite operations for `TerminateOrgEntity`. -/
def terminateTransaction (parent child dateStr parentType childType relType : String) :
    Transaction :=
  [("parent", Value.str parent), ("child", Value.str child), ("date", Value.str dateStr),
   ("parent_type", Value.str parentType), ("child_type", Value.str childType),
   ("rel_type", Value.str relType)]

/-- Transaction built by the composite operations for `AddOrgEntity`. -/
def addEntityTransaction (parent child dateStr parentType childType relType : String)
    (transactionID : Value) : Transaction :=
  [("parent", Value.str parent), ("child", Value.str child), ("date", Value.str dateStr),
   ("parent_type", Value.str parentType), ("child_type", Value.str childType),
   ("rel_type", Value.str relType), ("transaction_id", transactionID)]

/-- `MoveDepartment` moves a department from one minister to another (source
lines 246-365). -/
def MoveDepartment (transaction : Transaction) : Op Unit := do
  let newParent ← assertString (transaction.get "new_parent")
  let oldParent ← assertString (transaction.get "old_parent")
  let child ← assertString (transaction.get "child")
  let dateStr ← assertString (transaction.get "date")
  let dateISO ← parseDate dateStr
  let newParentResults ← wrapError "failed to search for new parent entity: "
    (SearchEntities (orgCriteria "minister" newParent))
  match newParentResults with
  | [] => fail ("new parent entity not found: " ++ newParent)
  | firstNew :: _ =>
    let newParentID := firstNew.id
    let childResults ← wrapError "failed to search for child entity: "
      (SearchEntities (orgCriteria "department" child))
    match childResults with
    | [] => fail ("child entity not found: " ++ child)
    | firstChild :: _ =>
      let childID := firstChild.id
      let _ ← wrapError "failed to create new relationship: "
        (UpdateEntity newParentID
          (relationshipUpdate newParentID
            (newRelationship newParentID childID dateISO "AS_DEPARTMENT")))
      let oldParentResults ← wrapError "failed to search for old parent entity: "
        (SearchEntities (orgCriteria "minister" oldParent))
      match oldParentResults with
      | [] => fail ("old parent entity not found: " ++ oldParent)
      | firstOld :: _ =>
        let oldParentID := firstOld.id
        let relations ← wrapError "failed to get relationships: "
          (GetAllRelatedEntities oldParentID)
        match relations.find? (activeDepartmentTo childID) with
        | some _ =>
          wrapError "failed to terminate old relationship: "
            (TerminateOrgEntity
              (terminateTransaction oldParent child dateStr "minister" "department"
                "AS_DEPARTMENT"))
        | none => pure ()

/-- Loop of `RenameMinister` over the relationships of the old minister (source
lines 438-490): each active department is attached to the new minister and its
old relationship is terminated. -/
def transferDepartments (oldName dateStr dateISO newMinisterID : String) :
    List Relationship → Op Unit
  | [] => pure ()
  | rel :: rest =>
    if activeDepartment rel then do
      let departmentResults ← wrapError "failed to search for department: "
        (SearchEntities { id := rel.relatedEntityID, kind := none, name := "" })
      match departmentResults with
      | [] => fail ("failed to find department with ID: " ++ rel.relatedEntityID)
      | department :: _ =>
        let _ ← wrapError "failed to create new department relationship: "
          (UpdateEntity newMinisterID
            (relationshipUpdate newMinisterID
              (newRelationship newMinisterID rel.relatedEntityID dateISO "AS_DEPARTMENT")))
        wrapError "failed to terminate old department relationship: "
          (TerminateOrgEntity
            (terminateTransaction oldName department.name dateStr "minister" "department"
              "AS_DEPARTMENT"))
        transferDepartments oldName dateStr dateISO newMinisterID rest
    else transferDepartments oldName dateStr dateISO newMinisterID rest

/-- `RenameMinister` renames a minister and transfers all its departments to
the new minister (source lines 368-530). -/
def RenameMinister (transaction : Transaction) : Op Int := do
  let oldName ← assertString (transaction.get "old")
  let newName ← assertString (transaction.get "new")
  let dateStr ← assertString (transaction.get "date")
  let relType := "AS_MINISTER"
  let transactionID := transaction.get "transaction_id"
  let dateISO ← parseDate dateStr
  let oldMinisterResults ← wrapError "failed to search for old minister: "
    (SearchEntities (orgCriteria "minister" oldName))
  match oldMinisterResults with
  | [] => fail ("old minister not found: " ++ oldName)
  | firstOld :: _ =>
    let oldMinisterID := firstOld.id
    let newMinisterCounter ← wrapError "failed to create new minister: "
      (AddOrgEntity
        (addEntityTransaction "Government of Sri Lanka" newName dateStr "government" "minister"
          relType transactionID))
    let newMinisterResults ← wrapError "failed to search for new minister: "
      (SearchEntities (orgCriteria "minister" newName))
    match newMinisterResults with
    | [] => fail ("new minister not found: " ++ newName)
    | firstNew :: _ =>
      let newMinisterID := firstNew.id
      let oldRelations ← wrapError "failed to get old minister's relationships: "
        (GetAllRelatedEntities oldMinisterID)
      transferDepartments oldName dateStr dateISO newMinisterID oldRelations
      wrapError "failed to terminate old minister's government relationship: "
        (TerminateOrgEntity
          (terminateTransaction "Government of Sri Lanka" oldName dateStr "government"
            "minister" relType))
      let _ ← wrapError "failed to create RENAMED_TO relationship: "
        (UpdateEntity oldMinisterID
          (relationshipUpdate oldMinisterID
            (newRelationship oldMinisterID newMinisterID dateISO "RENAMED_TO")))
      pure newMinisterCounter

/-- Loop of `RenameDepartment` over the ministers (source lines 575-595): the
first minister with a non-empty ID that owns an active `AS_DEPARTMENT`
relationship to the department ends the search; the pair is
`(ministerID, ministerName)`. -/
def findActiveMinister (oldDepartmentID : String) :
    List SearchResult → String × String → Op (String × String)
  | [], found => pure found
  | minister :: rest, found => do
    let relations ← wrapError "failed to get minister's relationships: "
      (GetAllRelatedEntities minister.id)
    let found1 :=
      if relations.any (activeDepartmentTo oldDepartmentID) then
        (minister.id, minister.name)
      else found
    if found1.1 ≠ "" then pure found1 else findActiveMinister oldDepartmentID rest found1

/-- `RenameDepartment` renames a department (source lines 533-672). -/
def RenameDepartment (transaction : Transaction) : Op Int := do
  let oldName ← assertString (transaction.get "old")
  let newName ← assertString (transaction.get "new")
  let dateStr ← assertString (transaction.get "date")
  let relType := "AS_DEPARTMENT"
  let transactionID ← assertString (transaction.get "transaction_id")
  let dateISO ← parseDate dateStr
  let oldDepartmentResults ← wrapError "failed to search for old department: "
    (SearchEntities (orgCriteria "department" oldName))
  match oldDepartmentResults with
  | [] => fail ("old department not found: " ++ oldName)
  | firstOld :: _ =>
    let oldDepartmentID := firstOld.id
    let ministerResults ← wrapError "failed to search for ministers: "
      (SearchEntities (orgCriteria "minister" ""))
    let found ← findActiveMinister oldDepartmentID ministerResults ("", "")
    let ministerID := found.1
    let ministerName := found.2
    if ministerID = "" then
      fail ("no active minister relationship found for department: " ++ oldName)
    else do
      let newDepartmentCounter ← wrapError "failed to create new department: "
        (AddOrgEntity
          (addEntityTransaction ministerName newName dateStr "minister" "department" relType
            (Value.str transactionID)))
      let newDepartmentResults ← wrapError "failed to search for new department: "
        (SearchEntities (orgCriteria "department" newName))
      match newDepartmentResults with
      | [] => fail ("new department not found: " ++ newName)
      | firstNew :: _ =>
        let newDepartmentID := firstNew.id
        wrapError "failed to terminate old department's minister relationship: "
          (TerminateOrgEntity
            (terminateTransaction ministerName oldName dateStr "minister" "department" relType))
        let _ ← wrapError "failed to create RENAMED_TO relationship: "
          (UpdateEntity oldDepartmentID
            (relationshipUpdate oldDepartmentID
              (newRelationship oldDepartmentID newDepartmentID dateISO "RENAMED_TO")))
        pure newDepartmentCounter

/-- Old minister list of `MergeMinisters` (source lines 689-693): the brackets
are trimmed, the text is split at the commas, each name is trimmed. -/
def parseOldMinisters (oldMinistersStr : String) : List String :=
  (Split (Trim oldMinistersStr ['[', ']']) ',').map TrimSpace

/-- Transaction built by `MergeMinisters` for `MoveDepartment`. -/
def moveTransaction (oldParent newParent child dateStr : String) : Transaction :=
  [("old_parent", Value.str oldParent), ("new_parent", Value.str newParent),
   ("child", Value.str child), ("type", Value.str "AS_DEPARTMENT"),
   ("date", Value.str dateStr)]

/-- Inner loop of `MergeMinisters` (source lines 751-778): every active
department of the old minister is moved to the new minister. -/
def moveDepartments (oldMinister newMinister dateStr : String) : List Relationship → Op Unit
  | [] => pure ()
  | rel :: rest =>
    if activeDepartment rel then do
      let departmentResults ← wrapError "failed to search for department: "
        (SearchEntities { id := rel.relatedEntityID, kind := none, name := "" })
      match departmentResults with
      | [] => fail ("failed to find department with ID: " ++ rel.relatedEntityID)
      | department :: _ =>
        wrapError "failed to move department: "
          (MoveDepartment (moveTransaction oldMinister newMinister department.name dateStr))
        moveDepartments oldMinister newMinister dateStr rest
    else moveDepartments oldMinister newMinister dateStr rest

/-- Outer loop of `MergeMinisters` (source lines 727-816), one old minister at a time. -/
def mergeOldMinisters (newMinister dateStr dateISO newMinisterID : String) :
    List String → Op Unit
  | [] => pure ()
  | oldMinister :: rest => do
    let oldMinisterResults ← wrapError "failed to search for old minister: "
      (SearchEntities (orgCriteria "minister" oldMinister))
    match oldMinisterResults with
    | [] => fail ("old minister not found: " ++ oldMinister)
    | firstOld :: _ =>
      let oldMinisterID := firstOld.id
      let oldRelations ← wrapError "failed to get old minister's relationships: "
        (GetAllRelatedEntities oldMinisterID)
      moveDepartments oldMinister newMinister dateStr oldRelations
      wrapError "failed to terminate old minister's government relationship: "
        (TerminateOrgEntity
          (terminateTransaction "Government of Sri Lanka" oldMinister dateStr "government"
            "minister" "AS_MINISTER"))
      let _ ← wrapError "failed to create MERGED_INTO relationship: "
        (UpdateEntity oldMinisterID
          (relationshipUpdate oldMinisterID
            (newRelationship oldMinisterID newMinisterID dateISO "MERGED_INTO")))
      mergeOldMinisters newMinister dateStr dateISO newMinisterID rest

/-- `MergeMinisters` merges multiple ministers into a new minister (source
lines 675-819). -/
def MergeMinisters (transaction : Transaction) : Op Int := do
  let oldMinistersStr ← assertString (transaction.get "old")
  let newMinister ← assertString (transaction.get "new")
  let dateStr ← assertString (transaction.get "date")
  let transactionID ← assertString (transaction.get "transaction_id")
  let dateISO ← parseDate dateStr
  let oldMinisters := parseOldMinisters oldMinistersStr
  let newMinisterCounter ← wrapError "failed to create new minister: "
    (AddOrgEntity
      (addEntityTransaction "Government of Sri Lanka" newMinister dateStr "government"
        "minister" "AS_MINISTER" (Value.str transactionID)))
  let newMinisterResults ← wrapError "failed to search for new minister: "
    (SearchEntities (orgCriteria "minister" newMinister))
  match newMinisterResults with
  | [] => fail ("new minister not found: " ++ newMinister)
  | firstNew :: _ =>
    let newMinisterID := firstNew.id
    mergeOldMinisters newMinister dateStr dateISO newMinisterID oldMinisters
    pure newMinisterCounter

/-- `AddPersonEntity` creates a new person entity, or reuses the person of that
name, and establishes its relationship with a parent entity (source lines
823-946). -/
def AddPersonEntity (transaction : Transaction) : Op Int := do
  let parent ← assertString (transaction.get "parent")
  let child ← assertString (transaction.get "child")
  let dateStr ← assertString (transaction.get "date")
  let parentType ← assertString (transaction.get "parent_type")
  let childType ← assertString (transaction.get "child_type")
  let relType ← assertString (transaction.get "rel_type")
  let transactionID ← assertString (transaction.get "transaction_id")
  let dateISO ← parseDate dateStr
  let searchResults ← wrapError "failed to search for parent entity: "
    (SearchEntities (orgCriteria parentType parent))
  match searchResults with
  | [] => fail ("parent entity not found: " ++ parent)
  | first :: _ =>
    let parentID := first.id
    let personResults ← wrapError "failed to search for person entity: "
      (SearchEntities { id := "", kind := some { major := "Person", minor := "" }, name := child })
    if personResults.length > 1 then
      fail ("multiple entities found for person: " ++ child)
    else do
      let childID ←
        (match personResults with
        | [person] => (pure person.id : Op String)
        | _ => do
          let entityCounters ← getCounters
          match entityCounters.find childType with
          | none => fail ("unknown child type: " ++ childType)
          | some n =>
            let txHead ← slice transactionID 7
            let kindHead ← slice childType 3
            let pfx := joinParts txHead (kindHead.bind ToLower)
            setCounters (entityCounters.write childType (wrapInt (n + 1)))
            let newEntityID := pfx.map (fun p => p ++ "_" ++ toString (wrapInt (n + 1)))
            match newEntityID with
            | none => unmodelled "entity ID that the embedding does not represent"
            | some newEntityID =>
              let createdChild ← wrapError "failed to create child entity: "
                (CreateEntity (newEntity newEntityID "Person" childType dateISO child))
              pure createdChild.id)
      let _ ← wrapError "failed to update parent entity: "
        (UpdateEntity parentID
          (relationshipUpdate parentID (newRelationship parentID childID dateISO relType)))
      let entityCounters ← getCounters
      pure (entityCounters.read childType)

/-- `TerminatePersonEntity` terminates a specific relationship between a person
and another entity at a given date (source lines 949-1042). -/
def TerminatePersonEntity (transaction : Transaction) : Op Unit := do
  let parent ← assertString (transaction.get "parent")
  let child ← assertString (transaction.get "child")
  let dateStr ← assertString (transaction.get "date")
  let parentType ← assertString (transaction.get "parent_type")
  let childType ← assertString (transaction.get "child_type")
  let relType ← assertString (transaction.get "rel_type")
  let dateISO ← parseDate dateStr
  let parentResults ← wrapError "failed to search for parent entity: "
    (SearchEntities (orgCriteria parentType parent))
  match parentResults with
  | [] => fail ("parent entity not found: " ++ parent)
  | firstParent :: _ =>
    let parentID := firstParent.id
    let childResults ← wrapError "failed to search for child entity: "
      (SearchEntities
        { id := "", kind := some { major := "Person", minor := childType }, name := child })
    match childResults with
    | [] => fail ("child entity not found: " ++ child)
    | firstChild :: _ =>
      terminateActive parentID firstChild.id relType dateISO

/-- `MovePerson` moves a person from one minister to another (source lines
1048-1133). -/
def MovePerson (transaction : Transaction) : Op Unit := do
  let newParent ← assertString (transaction.get "new_parent")
  let oldParent ← assertString (transaction.get "old_parent")
  let child ← assertString (transaction.get "child")
  let dateStr ← assertString (transaction.get "date")
  let relType := "AS_APPOINTED"
  let dateISO ← parseDate dateStr
  let newParentResults ← wrapError "failed to search for new parent entity: "
    (SearchEntities (orgCriteria "minister" newParent))
  match newParentResults with
  | [] => fail ("new parent entity not found: " ++ newParent)
  | firstNew :: _ =>
    let newParentID := firstNew.id
    let childResults ← wrapError "failed to search for child entity: "
      (SearchEntities
        { id := "", kind := some { major := "Person", minor := "citizen" }, name := child })
    match childResults with
    | [] => fail ("child entity not found: " ++ child)
    | firstChild :: _ =>
      let childID := firstChild.id
      let _ ← wrapError "failed to create new relationship: "
        (UpdateEntity newParentID
          (relationshipUpdate newParentID (newRelationship newParentID childID dateISO relType)))
      wrapError "failed to terminate old relationship: "
        (TerminatePersonEntity
          (terminateTransaction oldParent child dateStr "minister" "citizen" relType))

/-- Checked read of a transaction field in `AddDocumentEntity`: the field must
be a non-empty string. -/
def requireString (transaction : Transaction) (key : String) : Op String :=
  match transaction.get key with
  | Value.str s =>
    if s = "" then fail (key ++ " is required and must be a string") else pure s
  | _ => fail (key ++ " is required and must be a string")

/-- `AddDocumentEntity` creates a new document entity, or reuses the document of
that name and kind, and establishes its relationship with a parent entity
(source lines 1143-1286). -/
def AddDocumentEntity (transaction : Transaction) : Op Int := do
  let parent ← requireString transaction "parent"
  let child ← requireString transaction "child"
  let dateStr ← requireString transaction "date"
  let parentType ← requireString transaction "parent_type"
  let childType ← requireString transaction "child_type"
  let transactionID ← requireString transaction "transaction_id"
  let dateISO ← parseDate dateStr
  let searchResults ← wrapError "failed to search for parent entity: "
    (SearchEntities (orgCriteria parentType parent))
  match searchResults with
  | [] => fail ("parent entity not found: " ++ parent)
  | first :: _ =>
    let parentID := first.id
    let documentResults ← wrapError "failed to search for document entity: "
      (SearchEntities
        { id := "", kind := some { major := "Document", minor := childType }, name := child })
    if documentResults.length > 1 then
      fail ("multiple entities found for document: " ++ child)
    else do
      let (childID, entityCounter) ←
        (match documentResults with
        | [document] => (pure (document.id, 0) : Op (String × Int))
        | _ => do
          let txHead ← slice transactionID 7
          let pfx := txHead.map (fun head => head ++ "_doc")
          let entityCounters ← getCounters
          let entityCounter := wrapInt (entityCounters.read "document" + 1)
          let newEntityID := pfx.map (fun p => p ++ "_" ++ toString entityCounter)
          match newEntityID with
          | none => unmodelled "entity ID that the embedding does not represent"
          | some newEntityID =>
            let createdDocument ← wrapError "failed to create document entity: "
              (CreateEntity (newEntity newEntityID "Document" childType dateISO child))
            pure (createdDocument.id, entityCounter))
      let _ ← wrapError "failed to update parent entity: "
        (UpdateEntity parentID
          (relationshipUpdate parentID (newRelationship parentID childID dateISO "AS_DOCUMENT")))
      pure entityCounter

/-! ## Notions used to state the properties -/

/-- Response of the store to a search over given contents. -/
def searchResults (entities : List Entity) (c : SearchCriteria) : List SearchResult :=
  (entities.filter (matchesCriteria c)).map toSearchResult

/-- Entity a lookup resolves to: the first match, which is the one the
operations use. -/
def resolve (entities : List Entity) (c : SearchCriteria) : Option Entity :=
  (entities.filter (matchesCriteria c)).head?

/-- Reading of the start time filter after the source comment "the
relationship(s) active for dateISO": started by then, and not ended before. -/
def activeAt (t : String) (r : Relationship) : Bool :=
  timeLE r.startTime.data t.data && (r.endTime = "" || timeLE t.data r.endTime.data)

/-- Reading of the start time filter as an exact match. -/
def sameStart (t : String) (r : Relationship) : Bool :=
  r.startTime = t

/-- Relationship that the terminate operations select for closing. -/
def selectedRelationship (w : World) (parentID childID relType dateISO : String) :
    Option Relationship :=
  ((relationshipsOf w.entities parentID).filter
    (matchesQuery w.startTimeMatches (terminateQuery childID relType dateISO))).find?
    (activeTo childID)


/-- Relationship entries owned by the entity `id`, with their keys. -/
def entriesOf (entities : List Entity) (id : String) : List RelationshipEntry :=
  match findEntity entities id with
  | none => []
  | some e => e.relationships

/-- Key discipline of the data model (section 3 of the specification) for one
entity: the key of an entry is the ID of its relationship, that ID is
`ownerID_targetID`, and keys are unique. -/
def WellKeyed (e : Entity) : Prop :=
  (∀ r ∈ e.relationships,
      r.key = r.value.id ∧ r.value.id = e.id ++ "_" ++ r.value.relatedEntityID)
    ∧ (e.relationships.map (fun r => r.key)).Nodup

instance (e : Entity) : Decidable (WellKeyed e) := by
  unfold WellKeyed
  infer_instance

/-- Key discipline of the data model for the whole store. -/
def WellFormed (entities : List Entity) : Prop :=
  ∀ e ∈ entities, WellKeyed e

instance (entities : List Entity) : Decidable (WellFormed entities) := by
  unfold WellFormed
  infer_instance

/-- Entity IDs are unique in the store. -/
def UniqueIDs (entities : List Entity) : Prop :=
  (entities.map (fun e => e.id)).Nodup

/-- Key discipline for the entity that the store addresses by `id`. -/
def WellKeyedAt (entities : List Entity) (id : String) : Prop :=
  ∀ e, findEntity entities id = some e → WellKeyed e

/-- Relationships owned by `parentID` that match a child and a relationship
type, in the sense of the relation query (an empty type matches every type). -/
def matchingRelationships (entities : List Entity) (parentID childID relType : String) :
    List Relationship :=
  (relationshipsOf entities parentID).filter
    (fun r => r.relatedEntityID = childID ∧ (relType = "" ∨ r.name = relType))

/-- Person search criteria for a name and a minor kind. -/
def personCriteria (minor name : String) : SearchCriteria :=
  { id := "", kind := some { major := "Person", minor := minor }, name := name }

/-- Criteria of the existing-person search of `AddPersonEntity`: major kind and name. -/
def anyPersonCriteria (name : String) : SearchCriteria :=
  { id := "", kind := some { major := "Person", minor := "" }, name := name }

/-- Criteria of the existing-document search of `AddDocumentEntity`. -/
def documentCriteria (minor name : String) : SearchCriteria :=
  { id := "", kind := some { major := "Document", minor := minor }, name := name }

/-- Whether no entity of the store owns a relationship with empty endTime to `id`. -/
def noActiveParent (entities : List Entity) (id : String) : Bool :=
  entities.all (fun e =>
    e.relationships.all (fun r => !(r.value.relatedEntityID = id && r.value.endTime = "")))

/-- Invariant of the store: key discipline and unique entity IDs. -/
def StoreInvariant (entities : List Entity) : Prop :=
  WellFormed entities ∧ UniqueIDs entities

/-- An operation keeps the invariant of the store, whatever its outcome. -/
structure Preserves {α : Type} (m : Op α) : Prop where
  keeps : ∀ w, StoreInvariant w.entities → StoreInvariant (m.run w).2.entities

/-- One call of an exported operation of the file. -/
inductive Operation where
  | createGovernmentNode
  | addOrgEntity (transaction : Transaction)
  | terminateOrgEntity (transaction : Transaction)
  | moveDepartment (transaction : Transaction)
  | renameMinister (transaction : Transaction)
  | renameDepartment (transaction : Transaction)
  | mergeMinisters (transaction : Transaction)
  | addPersonEntity (transaction : Transaction)
  | terminatePersonEntity (transaction : Transaction)
  | movePerson (transaction : Transaction)
  | addDocumentEntity (transaction : Transaction)

/-- State that one call leaves, whatever its outcome. -/
def Operation.stateAfter : Operation → World → World
  | Operation.createGovernmentNode, w => (CreateGovernmentNode.run w).2
  | Operation.addOrgEntity tx, w => ((AddOrgEntity tx).run w).2
  | Operation.terminateOrgEntity tx, w => ((TerminateOrgEntity tx).run w).2
  | Operation.moveDepartment tx, w => ((MoveDepartment tx).run w).2
  | Operation.renameMinister tx, w => ((RenameMinister tx).run w).2
  | Operation.renameDepartment tx, w => ((RenameDepartment tx).run w).2
  | Operation.mergeMinisters tx, w => ((MergeMinisters tx).run w).2
  | Operation.addPersonEntity tx, w => ((AddPersonEntity tx).run w).2
  | Operation.terminatePersonEntity tx, w => ((TerminatePersonEntity tx).run w).2
  | Operation.movePerson tx, w => ((MovePerson tx).run w).2
  | Operation.addDocumentEntity tx, w => ((AddDocumentEntity tx).run w).2

/-- State that a sequence of calls leaves. -/
def stateAfterAll (ops : List Operation) (w : World) : World :=
  ops.foldl (fun w1 op => op.stateAfter w1) w

/-! ## Example states and transactions -/

/-- Transaction with the seven fields of the Add operations. -/
def addTransaction (parent child date parentType childType relType transactionID : String) :
    Transaction :=
  [("parent", Value.str parent), ("child", Value.str child), ("date", Value.str date),
   ("parent_type", Value.str parentType), ("child_type", Value.str childType),
   ("rel_type", Value.str relType), ("transaction_id", Value.str transactionID)]

/-- Scenario A of the specification: the transaction. -/
def scenarioA : Transaction :=
  addTransaction "Government of Sri Lanka" "Ministry of Health" "2024-02-01" "government"
    "minister" "AS_MINISTER" "TX00001"

/-- Scenario A of the specification: the state, counters seeded with `minister: 0`. -/
def worldA : World :=
  { entities := [governmentEntity], startTimeMatches := activeAt, calls := [],
    counters := [("minister", 0)] }

/-- State of scenario A with the minister counter at the largest `int`. -/
def worldMaxCounter : World :=
  { entities := [governmentEntity], startTimeMatches := activeAt, calls := [],
    counters := [("minister", 9223372036854775807)] }

/-- Scenario A with a transaction_id of 7 characters, one of them outside ASCII
(8 bytes). -/
def scenarioAccented : Transaction :=
  addTransaction "Government of Sri Lanka" "Ministry of Health" "2024-02-01" "government"
    "minister" "AS_MINISTER" "TXÉ0001"

/-- Minister created by scenario A. -/
def ministryOfHealth : Entity :=
  { id := "TX00001_min_1", kind := { major := "Organisation", minor := "minister" },
    created := "2024-02-01T00:00:00Z", terminated := "",
    name := { startTime := "2024-02-01T00:00:00Z", value := "Ministry of Health" },
    metadata := [], attributes := [], relationships := [] }

/-- Government node after scenario A: it owns the `AS_MINISTER` relationship. -/
def governmentWithHealth : Entity :=
  { governmentEntity with
    relationships :=
      [{ key := "gov_01_TX00001_min_1",
         value := { relatedEntityID := "TX00001_min_1", startTime := "2024-02-01T00:00:00Z",
                    endTime := "", id := "gov_01_TX00001_min_1", name := "AS_MINISTER" } }] }

/-- State after scenario A, minister counter at 1. -/
def worldB : World :=
  { entities := [governmentWithHealth, ministryOfHealth], startTimeMatches := activeAt,
    calls := [], counters := [("minister", 1)] }

/-- Scenario A again under another transaction ID: same name, same kind. -/
def scenarioA2 : Transaction :=
  addTransaction "Government of Sri Lanka" "Ministry of Health" "2024-02-01" "government"
    "minister" "AS_MINISTER" "TX00002"

/-- Exact-match variant of `worldB`. -/
def worldBExact : World :=
  { worldB with startTimeMatches := sameStart }

/-- Department of scenario B. -/
def healthPlanning : Entity :=
  { id := "TX00003_dep_1", kind := { major := "Organisation", minor := "department" },
    created := "2024-02-10T00:00:00Z", terminated := "",
    name := { startTime := "2024-02-10T00:00:00Z", value := "Health Planning" },
    metadata := [], attributes := [], relationships := [] }

/-- Minister of scenario B: it owns an active `AS_DEPARTMENT` relationship. -/
def healthWithPlanning : Entity :=
  { ministryOfHealth with
    relationships :=
      [{ key := "TX00001_min_1_TX00003_dep_1",
         value := { relatedEntityID := "TX00003_dep_1", startTime := "2024-02-10T00:00:00Z",
                    endTime := "", id := "TX00001_min_1_TX00003_dep_1",
                    name := "AS_DEPARTMENT" } }] }

/-- State of scenario B: the minister of scenario A with one active department. -/
def worldC : World :=
  { entities := [governmentWithHealth, healthWithPlanning, healthPlanning],
    startTimeMatches := activeAt, calls := [],
    counters := [("minister", 1), ("department", 1)] }

/-- Termination of the minister of scenario A on a given date. -/
def terminateHealth (date : String) : Transaction :=
  terminateTransaction "Government of Sri Lanka" "Ministry of Health" date "government"
    "minister" "AS_MINISTER"

/-- Citizen appointed to the minister of scenario A. -/
def citizenPerera : Entity :=
  { id := "TX00004_cit_1", kind := { major := "Person", minor := "citizen" },
    created := "2024-02-05T00:00:00Z", terminated := "",
    name := { startTime := "2024-02-05T00:00:00Z", value := "A. Perera" },
    metadata := [], attributes := [], relationships := [] }

/-- Minister of scenario A with an active `AS_APPOINTED` relationship. -/
def healthWithPerera : Entity :=
  { ministryOfHealth with
    relationships :=
      [{ key := "TX00001_min_1_TX00004_cit_1",
         value := { relatedEntityID := "TX00004_cit_1", startTime := "2024-02-05T00:00:00Z",
                    endTime := "", id := "TX00001_min_1_TX00004_cit_1",
                    name := "AS_APPOINTED" } }] }

/-- State with a person appointed to the minister of scenario A. -/
def worldP : World :=
  { entities := [governmentWithHealth, healthWithPerera, citizenPerera],
    startTimeMatches := activeAt, calls := [],
    counters := [("minister", 1), ("citizen", 1)] }

/-- Termination of the appointment of the citizen on a given date. -/
def terminatePerera (date : String) : Transaction :=
  terminateTransaction "Ministry of Health" "A. Perera" date "minister" "citizen"
    "AS_APPOINTED"

/-- Second minister of scenario C. -/
def ministryOfWellness : Entity :=
  { id := "TX00002_min_2", kind := { major := "Organisation", minor := "minister" },
    created := "2024-01-15T00:00:00Z", terminated := "",
    name := { startTime := "2024-01-15T00:00:00Z", value := "Ministry of Wellness" },
    metadata := [], attributes := [], relationships := [] }

/-- Government node that owns the `AS_MINISTER` relationships to both ministers. -/
def governmentWithBoth : Entity :=
  { governmentEntity with
    relationships :=
      [{ key := "gov_01_TX00001_min_1",
         value := { relatedEntityID := "TX00001_min_1", startTime := "2024-02-01T00:00:00Z",
                    endTime := "", id := "gov_01_TX00001_min_1", name := "AS_MINISTER" } },
       { key := "gov_01_TX00002_min_2",
         value := { relatedEntityID := "TX00002_min_2", startTime := "2024-01-15T00:00:00Z",
                    endTime := "", id := "gov_01_TX00002_min_2", name := "AS_MINISTER" } }] }

/-- State of scenario C: "Health Planning" is a department of "Ministry of Health". -/
def worldD : World :=
  { entities := [governmentWithBoth, healthWithPlanning, ministryOfWellness, healthPlanning],
    startTimeMatches := activeAt, calls := [],
    counters := [("minister", 2), ("department", 1)] }

/-- "Ministry of Wellness" after it held "Health Planning" from 2024-01-20 to
2024-02-10: the relationship is kept, ended. -/
def wellnessFormer : Entity :=
  { ministryOfWellness with
    relationships :=
      [{ key := "TX00002_min_2_TX00003_dep_1",
         value := { relatedEntityID := "TX00003_dep_1", startTime := "2024-01-20T00:00:00Z",
                    endTime := "2024-02-10T00:00:00Z", id := "TX00002_min_2_TX00003_dep_1",
                    name := "AS_DEPARTMENT" } }] }

/-- State of scenario C in which the department had been moved to "Ministry of
Health" from "Ministry of Wellness" before. -/
def worldE : World :=
  { entities := [governmentWithBoth, healthWithPlanning, wellnessFormer, healthPlanning],
    startTimeMatches := activeAt, calls := [],
    counters := [("minister", 2), ("department", 1)] }

/-- Scenario C of the specification: the transaction. -/
def scenarioC : Transaction :=
  [("old_parent", Value.str "Ministry of Health"),
   ("new_parent", Value.str "Ministry of Wellness"),
   ("child", Value.str "Health Planning"), ("date", Value.str "2024-03-01")]

/-- Transaction of the rename operations. -/
def renameTransaction (old new date transactionID : String) : Transaction :=
  [("old", Value.str old), ("new", Value.str new), ("date", Value.str date),
   ("transaction_id", Value.str transactionID)]

/-- State reached from scenario B by renaming "Ministry of Health" to "Ministry
of Wellbeing" on 2024-04-01, the caller having stored the returned counter. -/
def worldRenamed : World :=
  { ((RenameMinister
        (renameTransaction "Ministry of Health" "Ministry of Wellbeing" "2024-04-01"
          "TX00005")).run worldC).2 with
    calls := [], counters := [("minister", 2), ("department", 1)] }

/-- Transaction of `MergeMinisters`. -/
def mergeTransaction (old new date transactionID : String) : Transaction :=
  [("old", Value.str old), ("new", Value.str new), ("date", Value.str date),
   ("transaction_id", Value.str transactionID)]

/-- Document attached to the minister of scenario A. -/
def addPolicy : Transaction :=
  addTransaction "Ministry of Health" "Health Policy 2024" "2024-03-01" "minister" "policy"
    "AS_DOCUMENT" "TX00009"

/-- Person of an unseeded kind attached to the minister of scenario A. -/
def addAdvisor : Transaction :=
  addTransaction "Ministry of Health" "B. Silva" "2024-03-01" "minister" "advisor"
    "AS_APPOINTED" "TX00010"

/-- Organisation of an unseeded kind attached to the minister of scenario A. -/
def addAgency : Transaction :=
  addTransaction "Ministry of Health" "Health Agency" "2024-03-01" "minister" "agency"
    "AS_AGENCY" "TX00011"

/-- Appointment of the existing citizen to the government. -/
def addPereraAgain : Transaction :=
  addTransaction "Government of Sri Lanka" "A. Perera" "2024-03-01" "government" "citizen"
    "AS_APPOINTED" "TX00012"

/-- Existing document. -/
def healthPolicy : Entity :=
  { id := "TX00009_doc_1", kind := { major := "Document", minor := "policy" },
    created := "2024-03-01T00:00:00Z", terminated := "",
    name := { startTime := "2024-03-01T00:00:00Z", value := "Health Policy 2024" },
    metadata := [], attributes := [], relationships := [] }

/-- State with an existing citizen and an existing document; the counter
table holds `citizen: 1` and `document: 1`. -/
def worldQ : World :=
  { entities := [governmentWithHealth, healthWithPerera, citizenPerera, healthPolicy],
    startTimeMatches := activeAt, calls := [],
    counters := [("minister", 1), ("citizen", 1), ("document", 1)] }

/-- Attachment of the existing document to the government. -/
def addPolicyAgain : Transaction :=
  addTransaction "Government of Sri Lanka" "Health Policy 2024" "2024-03-05" "government"
    "policy" "AS_DOCUMENT" "TX00013"

/-- State reached from scenario B by renaming "Health Planning" to "Health
Strategy" on 2024-04-01, the caller having stored the returned counter. -/
def worldDepartmentRenamed : World :=
  { ((RenameDepartment
        (renameTransaction "Health Planning" "Health Strategy" "2024-04-01"
          "TX00008")).run worldC).2 with
    calls := [], counters := [("minister", 1), ("department", 2)] }

/-- A request to the store carries the timestamp `t` wherever it carries a time:
a created entity in its created time and name start time, an update in the start
time of a relationship it attaches (empty end time) or in the end time of a
relationship it closes (no start time), a relation query in its start time. -/
def stampedWith (t : String) : StoreCall → Prop
  | StoreCall.createEntity e => e.created = t ∧ e.name.startTime = t
  | StoreCall.updateEntity _ p =>
    p.created = "" ∧ p.name.startTime = ""
      ∧ ∀ r ∈ p.relationships,
          (r.value.startTime = t ∧ r.value.endTime = "")
            ∨ (r.value.startTime = "" ∧ r.value.endTime = t)
  | StoreCall.getRelatedEntities _ q => q.startTime = t
  | StoreCall.searchEntities _ => True
  | StoreCall.getAllRelatedEntities _ => True

/-- Every request that an operation sends carries the timestamp `t`. -/
structure Stamps {α : Type} (t : String) (m : Op α) : Prop where
  sent : ∀ w, ∃ cs, (m.run w).2.calls = w.calls ++ cs ∧ ∀ c ∈ cs, stampedWith t c

/-- Transaction of a call. -/
def Operation.transaction : Operation → Option Transaction
  | Operation.createGovernmentNode => none
  | Operation.addOrgEntity tx => some tx
  | Operation.terminateOrgEntity tx => some tx
  | Operation.moveDepartment tx => some tx
  | Operation.renameMinister tx => some tx
  | Operation.renameDepartment tx => some tx
  | Operation.mergeMinisters tx => some tx
  | Operation.addPersonEntity tx => some tx
  | Operation.terminatePersonEntity tx => some tx
  | Operation.movePerson tx => some tx
  | Operation.addDocumentEntity tx => some tx

/-- Message of a returned error, if the outcome is one. -/
def Result.errorMessage {α : Type} : Result α → Option String
  | Result.error msg => some msg
  | _ => none

/-- Message of the error that a call returns, if it returns one. -/
def Operation.errorMessage : Operation → World → Option String
  | Operation.createGovernmentNode, w => (CreateGovernmentNode.run w).1.errorMessage
  | Operation.addOrgEntity tx, w => ((AddOrgEntity tx).run w).1.errorMessage
  | Operation.terminateOrgEntity tx, w => ((TerminateOrgEntity tx).run w).1.errorMessage
  | Operation.moveDepartment tx, w => ((MoveDepartment tx).run w).1.errorMessage
  | Operation.renameMinister tx, w => ((RenameMinister tx).run w).1.errorMessage
  | Operation.renameDepartment tx, w => ((RenameDepartment tx).run w).1.errorMessage
  | Operation.mergeMinisters tx, w => ((MergeMinisters tx).run w).1.errorMessage
  | Operation.addPersonEntity tx, w => ((AddPersonEntity tx).run w).1.errorMessage
  | Operation.terminatePersonEntity tx, w => ((TerminatePersonEntity tx).run w).1.errorMessage
  | Operation.movePerson tx, w => ((MovePerson tx).run w).1.errorMessage
  | Operation.addDocumentEntity tx, w => ((AddDocumentEntity tx).run w).1.errorMessage

/-- Fields that an operation reads with the type assertion `.(string)` before it
parses the date (`AddDocumentEntity` checks its fields instead). -/
def Operation.assertedFields : Operation → List String
  | Operation.createGovernmentNode => []
  | Operation.addOrgEntity _ =>
    ["parent", "child", "date", "parent_type", "child_type", "rel_type", "transaction_id"]
  | Operation.terminateOrgEntity _ =>
    ["parent", "child", "date", "parent_type", "child_type", "rel_type"]
  | Operation.moveDepartment _ => ["new_parent", "old_parent", "child", "date"]
  | Operation.renameMinister _ => ["old", "new", "date"]
  | Operation.renameDepartment _ => ["old", "new", "date", "transaction_id"]
  | Operation.mergeMinisters _ => ["old", "new", "date", "transaction_id"]
  | Operation.addPersonEntity _ =>
    ["parent", "child", "date", "parent_type", "child_type", "rel_type", "transaction_id"]
  | Operation.terminatePersonEntity _ =>
    ["parent", "child", "date", "parent_type", "child_type", "rel_type"]
  | Operation.movePerson _ => ["new_parent", "old_parent", "child", "date"]
  | Operation.addDocumentEntity _ => []

/-- Whether a value of the field bag is a string. -/
def Value.isString : Value → Bool
  | Value.str _ => true
  | _ => false

/-- Scenario A with a date padded by a blank. -/
def scenarioAPadded : Transaction :=
  addTransaction "Government of Sri Lanka" "Ministry of Health" " 2024-02-01" "government"
    "minister" "AS_MINISTER" "TX00001"

/-- Termination of the minister of scenario A without a date field. -/
def terminateUndated : Transaction :=
  [("parent", Value.str "Government of Sri Lanka"), ("child", Value.str "Ministry of Health"),
   ("parent_type", Value.str "government"), ("child_type", Value.str "minister"),
   ("rel_type", Value.str "AS_MINISTER")]

/-- Move of "Health Planning" from "Ministry of Wellness" to that same minister. -/
def moveWithinWellness : Transaction :=
  moveTransaction "Ministry of Wellness" "Ministry of Wellness" "Health Planning" "2024-03-01"

/-- Move of a person between two ministers. -/
def movePersonTransaction (oldParent newParent child dateStr : String) : Transaction :=
  [("old_parent", Value.str oldParent), ("new_parent", Value.str newParent),
   ("child", Value.str child), ("date", Value.str dateStr)]

/-- State with the two ministers of scenario C and a citizen appointed to none. -/
def worldPereraFree : World :=
  { entities := [governmentWithBoth, ministryOfHealth, ministryOfWellness, citizenPerera],
    startTimeMatches := activeAt, calls := [],
    counters := [("minister", 2), ("citizen", 1)] }

/-- Department of scenario B with a citizen appointed to it. -/
def planningWithPerera : Entity :=
  { healthPlanning with
    relationships :=
      [{ key := "TX00003_dep_1_TX00004_cit_1",
         value := { relatedEntityID := "TX00004_cit_1", startTime := "2024-02-15T00:00:00Z",
                    endTime := "", id := "TX00003_dep_1_TX00004_cit_1",
                    name := "AS_APPOINTED" } }] }

/-- State of scenario B in which the department has one person appointed. -/
def worldStaffed : World :=
  { entities := [governmentWithHealth, healthWithPlanning, planningWithPerera, citizenPerera],
    startTimeMatches := activeAt, calls := [],
    counters := [("minister", 1), ("department", 1), ("citizen", 1)] }

/-- Character that a name of the list may neither begin nor end with: white
space or a bracket. -/
def edgeChar (c : Char) : Bool :=
  isSpace c || c = '[' || c = ']'

/-- A minister name that the list can carry: no comma in it, and neither white
space nor a bracket at either end. -/
def plainName (n : String) : Bool :=
  !n.data.contains ',' && n.data.head?.all (fun c => !edgeChar c)
    && n.data.getLast?.all (fun c => !edgeChar c)

/-- Text after the first name of the list: each further name comes after a comma
and a number of spaces. -/
def joinTail : List (Nat × String) → List Char
  | [] => []
  | (k, n) :: rest => [','] ++ (List.replicate k ' ' ++ (n.data ++ joinTail rest))

/-- The `old` field that lists the names: an opening bracket, the names joined by
commas followed by optional spaces, a closing bracket. -/
def oldField (first : String) (rest : List (Nat × String)) : String :=
  String.mk (['['] ++ (first.data ++ joinTail rest) ++ [']'])

/-- One iteration of the loop of `MergeMinisters` over the old ministers (source
lines 729-815): the body of `mergeOldMinisters` without the iterations that follow. -/
def mergeOldMinister (newMinister dateStr dateISO newMinisterID oldMinister : String) :
    Op Unit := do
  let oldMinisterResults ← wrapError "failed to search for old minister: "
    (SearchEntities (orgCriteria "minister" oldMinister))
  match oldMinisterResults with
  | [] => fail ("old minister not found: " ++ oldMinister)
  | firstOld :: _ =>
    let oldMinisterID := firstOld.id
    let oldRelations ← wrapError "failed to get old minister's relationships: "
      (GetAllRelatedEntities oldMinisterID)
    moveDepartments oldMinister newMinister dateStr oldRelations
    wrapError "failed to terminate old minister's government relationship: "
      (TerminateOrgEntity
        (terminateTransaction "Government of Sri Lanka" oldMinister dateStr "government"
          "minister" "AS_MINISTER"))
    let _ ← wrapError "failed to create MERGED_INTO relationship: "
      (UpdateEntity oldMinisterID
        (relationshipUpdate oldMinisterID
          (newRelationship oldMinisterID newMinisterID dateISO "MERGED_INTO")))
    pure ()

/-- Document attached to the minister of scenario A under a transaction ID of
three characters. -/
def addPolicyShortID : Transaction :=
  addTransaction "Ministry of Health" "Health Policy 2024" "2024-03-01" "minister" "policy"
    "AS_DOCUMENT" "TX9"

/-- Move of "Health Planning" from "Ministry of Health" to that same minister. -/
def moveWithinHealth : Transaction :=
  moveTransaction "Ministry of Health" "Ministry of Health" "Health Planning" "2024-03-01"

/-! ## Running operations: basic facts -/

@[simp] theorem run_pure {α : Type} (a : α) (w : World) :
    (pure a : Op α).run w = (Result.ok a, w) := rfl

@[simp] theorem run_bind {α β : Type} (m : Op α) (f : α → Op β) (w : World) :
    (m >>= f).run w =
      match m.run w with
      | (Result.ok a, w1) => (f a).run w1
      | (Result.error e, w1) => (Result.error e, w1)
      | (Result.panic e, w1) => (Result.panic e, w1)
      | (Result.unmodelled e, w1) => (Result.unmodelled e, w1) := rfl

@[simp] theorem run_fail {α : Type} (msg : String) (w : World) :
    (fail msg : Op α).run w = (Result.error msg, w) := rfl

@[simp] theorem run_panicWith {α : Type} (msg : String) (w : World) :
    (panicWith msg : Op α).run w = (Result.panic msg, w) := rfl

@[simp] theorem run_unmodelled {α : Type} (what : String) (w : World) :
    (unmodelled what : Op α).run w = (Result.unmodelled what, w) := rfl

theorem run_slice (s : String) (n : Nat) (w : World) :
    (slice s n).run w =
      match sliceTo s n with
      | Sliced.outOfRange => (Result.panic "slice bounds out of range", w)
      | Sliced.text t => (Result.ok (some t), w)
      | Sliced.notText => (Result.ok none, w) := by
  unfold slice
  cases sliceTo s n <;> rfl

@[simp] theorem run_wrapError {α : Type} (pfx : String) (m : Op α) (w : World) :
    (wrapError pfx m).run w =
      match m.run w with
      | (Result.error e, w1) => (Result.error (pfx ++ e), w1)
      | r => r := rfl

@[simp] theorem run_assertString (s : String) (w : World) :
    (assertString (Value.str s)).run w = (Result.ok s, w) := rfl

@[simp] theorem run_getCounters (w : World) :
    getCounters.run w = (Result.ok w.counters, w) := rfl

theorem run_parseDate {dateStr : String} {d : Date} (w : World)
    (h : timeParse (TrimSpace dateStr) = some d) :
    (parseDate dateStr).run w = (Result.ok (formatRFC3339 d), w) := by
  simp [parseDate, h]

theorem run_parseDate_none {dateStr : String} (w : World)
    (h : timeParse (TrimSpace dateStr) = none) :
    (parseDate dateStr).run w =
      (Result.error ("failed to parse date: " ++ timeParseError (TrimSpace dateStr)), w) := by
  simp [parseDate, h]

@[simp] theorem run_SearchEntities (c : SearchCriteria) (w : World) :
    (SearchEntities c).run w =
      (Result.ok (searchResults w.entities c),
        { w with calls := w.calls ++ [StoreCall.searchEntities c] }) := rfl

@[simp] theorem run_GetAllRelatedEntities (id : String) (w : World) :
    (GetAllRelatedEntities id).run w =
      (Result.ok (relationshipsOf w.entities id),
        { w with calls := w.calls ++ [StoreCall.getAllRelatedEntities id] }) := rfl

@[simp] theorem run_GetRelatedEntities (id : String) (q : Relationship) (w : World) :
    (GetRelatedEntities id q).run w =
      (Result.ok ((relationshipsOf w.entities id).filter (matchesQuery w.startTimeMatches q)),
        { w with calls := w.calls ++ [StoreCall.getRelatedEntities id q] }) := rfl

@[simp] theorem run_CreateEntity (e : Entity) (w : World) :
    (CreateEntity e).run w =
      if hasID w.entities e.id then
        (Result.error ("entity already exists: " ++ e.id),
          { w with calls := w.calls ++ [StoreCall.createEntity e] })
      else
        (Result.ok e, { w with entities := w.entities ++ [e],
                               calls := w.calls ++ [StoreCall.createEntity e] }) := rfl

theorem hasID_iff {es : List Entity} {id : String} :
    hasID es id = true ↔ ∃ x ∈ es, x.id = id := by
  simp [hasID, List.any_eq_true]

theorem hasID_eq_false {es : List Entity} {id : String} :
    hasID es id = false ↔ ∀ x ∈ es, x.id ≠ id := by
  simp [hasID, List.any_eq_false]

theorem findEntity_isSome (es : List Entity) (id : String) :
    (findEntity es id).isSome = hasID es id := by
  induction es with
  | nil => rfl
  | cons a t ih =>
    by_cases h : a.id = id
    · simp [findEntity, hasID, h]
    · simpa [findEntity, hasID, h] using ih

theorem findEntity_id {es : List Entity} {id : String} {e : Entity}
    (h : findEntity es id = some e) : e.id = id := by
  have := List.find?_some h
  simpa using this

theorem findEntity_mem {es : List Entity} {id : String} {e : Entity}
    (h : findEntity es id = some e) : e ∈ es :=
  List.mem_of_find?_eq_some h

@[simp] theorem run_UpdateEntity (id : String) (p : Entity) (w : World) :
    (UpdateEntity id p).run w =
      if hasID w.entities id then
        (Result.ok (mergeEntity ((findEntity w.entities id).getD default) p),
          { w with entities := applyUpdate w.entities id p,
                   calls := w.calls ++ [StoreCall.updateEntity id p] })
      else
        (Result.error ("entity not found: " ++ id),
          { w with calls := w.calls ++ [StoreCall.updateEntity id p] }) := by
  have h := findEntity_isSome w.entities id
  cases hf : findEntity w.entities id with
  | none =>
    rw [hf] at h
    simp [UpdateEntity, Op.run, hf, ← h]
  | some e =>
    rw [hf] at h
    simp [UpdateEntity, Op.run, hf, ← h]

@[simp] theorem hasID_append (a b : List Entity) (id : String) :
    hasID (a ++ b) id = (hasID a id || hasID b id) := by
  simp [hasID]

@[simp] theorem mergeEntity_id (e p : Entity) : (mergeEntity e p).id = e.id := rfl

@[simp] theorem mergeEntity_kind (e p : Entity) : (mergeEntity e p).kind = e.kind := rfl

@[simp] theorem hasID_applyUpdate (es : List Entity) (i : String) (p : Entity) (id : String) :
    hasID (applyUpdate es i p) id = hasID es id := by
  simp only [hasID, applyUpdate, List.any_map]
  congr 1
  funext x
  by_cases h : x.id = i <;> simp [h]

@[simp] theorem toSearchResult_id (e : Entity) : (toSearchResult e).id = e.id := rfl

@[simp] theorem toSearchResult_name (e : Entity) : (toSearchResult e).name = e.name.value := rfl

@[simp] theorem newEntity_id (id major minor dateISO name : String) :
    (newEntity id major minor dateISO name).id = id := rfl

theorem searchResults_of_resolve {es : List Entity} {c : SearchCriteria} {P : Entity}
    (h : resolve es c = some P) :
    ∃ rest, searchResults es c = toSearchResult P :: rest := by
  unfold resolve at h
  unfold searchResults
  cases hf : es.filter (matchesCriteria c) with
  | nil => simp [hf] at h
  | cons a t =>
    simp [hf] at h
    exact ⟨t.map toSearchResult, by simp [h]⟩

theorem searchResults_of_resolve_none {es : List Entity} {c : SearchCriteria}
    (h : resolve es c = none) : searchResults es c = [] := by
  unfold resolve at h
  unfold searchResults
  cases hf : es.filter (matchesCriteria c) with
  | nil => rfl
  | cons a t => simp [hf] at h

theorem resolve_mem {es : List Entity} {c : SearchCriteria} {P : Entity}
    (h : resolve es c = some P) : P ∈ es := by
  unfold resolve at h
  exact (List.mem_filter.mp (List.mem_of_mem_head? h)).1

theorem hasID_of_resolve {es : List Entity} {c : SearchCriteria} {P : Entity}
    (h : resolve es c = some P) : hasID es P.id = true :=
  hasID_iff.mpr ⟨P, resolve_mem h, rfl⟩

theorem runeLen_of_isASCII {c : Char} (h : isASCII c = true) : runeLen c = 1 := by
  simp only [isASCII, decide_eq_true_eq] at h
  simp [runeLen, h]

theorem sliceChars_of_ascii (l : List Char) (n : Nat) (h : n ≤ l.length)
    (ha : (l.take n).all isASCII = true) :
    sliceChars l n = Sliced.text (String.mk (l.take n)) := by
  induction l generalizing n with
  | nil =>
    cases n with
    | zero => rfl
    | succ n => simp at h
  | cons c cs ih =>
    cases n with
    | zero => simp [sliceChars]
    | succ n =>
      simp only [List.take_succ_cons, List.all_cons, Bool.and_eq_true] at ha
      have h1 := runeLen_of_isASCII ha.1
      simp only [List.length_cons, Nat.add_le_add_iff_right] at h
      simp only [sliceChars, h1, Nat.add_sub_cancel, ih n h ha.2, List.take_succ_cons]
      simp

/-- A slice of ASCII characters is the text of those characters: on them a byte
index is a character index. -/
theorem sliceTo_of_ascii {s : String} {n : Nat} (h : n ≤ s.length)
    (ha : (s.data.take n).all isASCII = true) :
    sliceTo s n = Sliced.text (String.mk (s.data.take n)) :=
  sliceChars_of_ascii s.data n h ha

theorem run_slice_of_ascii {s : String} {n : Nat} (w : World) (h : n ≤ s.length)
    (ha : (s.data.take n).all isASCII = true) :
    (slice s n).run w = (Result.ok (some (String.mk (s.data.take n))), w) := by
  rw [run_slice, sliceTo_of_ascii h ha]

theorem ToLower_of_ascii {l : List Char} (ha : l.all isASCII = true) :
    ToLower (String.mk l) = some (String.mk (l.map Char.toLower)) := by
  simp [ToLower, ha]

theorem sliceChars_outOfRange (l : List Char) (n : Nat) (h : (l.map runeLen).sum < n) :
    sliceChars l n = Sliced.outOfRange := by
  induction l generalizing n with
  | nil =>
    cases n with
    | zero => simp at h
    | succ n => rfl
  | cons c cs ih =>
    cases n with
    | zero => simp at h
    | succ n =>
      simp only [List.map_cons, List.sum_cons] at h
      have hle : runeLen c ≤ n + 1 := by omega
      have := ih (n + 1 - runeLen c) (by omega)
      simp [sliceChars, hle, this]

/-- A slice beyond the bytes of the string is out of range. -/
theorem sliceTo_outOfRange {s : String} {n : Nat} (h : byteLen s < n) :
    sliceTo s n = Sliced.outOfRange :=
  sliceChars_outOfRange s.data n h

theorem wrapInt_succ {n : Int} (h0 : minInt ≤ n) (h1 : n < maxInt) :
    wrapInt (n + 1) = n + 1 := by
  unfold minInt intBits at h0
  unfold maxInt intBits at h1
  unfold wrapInt intBits
  norm_num at h0 h1 ⊢
  omega

/-! ## AddOrgEntity -/

/-- C1 (amended): for a transaction with a valid date, a transaction_id of at
least 7 characters of which the first 7 are ASCII, a child_type of at least 3
characters of which the first 3 are ASCII, with a counter entry `n` whose
successor is representable (`n < maxInt`), and a parent that resolves to `P`:
`AddOrgEntity` succeeds whenever the new ID is free, and every successful call
returns `n + 1`, sends exactly one search, one create and one update, creates
the entity with ID `first 7 of transaction_id _ lower-cased first 3 of child_type _
decimal n+1`, kind `(Organisation, child_type)`, created and name start time the
normalised date, name `child`, everything else empty, and updates `P` with the
single relationship keyed `P.ID_newID`. Nothing is assumed about other
organisations of the same name and kind. -/
theorem AddOrgEntity_allocates_and_attaches (tx : Transaction) (w : World)
    (parent child dateStr parentType childType relType transactionID : String)
    (d : Date) (n : Int) (P : Entity)
    (hparent : tx.get "parent" = Value.str parent)
    (hchild : tx.get "child" = Value.str child)
    (hdate : tx.get "date" = Value.str dateStr)
    (hparentType : tx.get "parent_type" = Value.str parentType)
    (hchildType : tx.get "child_type" = Value.str childType)
    (hrelType : tx.get "rel_type" = Value.str relType)
    (htx : tx.get "transaction_id" = Value.str transactionID)
    (hd : timeParse (TrimSpace dateStr) = some d)
    (h7 : 7 ≤ transactionID.length)
    (h7a : (transactionID.data.take 7).all isASCII = true)
    (h3 : 3 ≤ childType.length)
    (h3a : (childType.data.take 3).all isASCII = true)
    (hn : w.counters.find childType = some n)
    (hmin : minInt ≤ n) (hmax : n < maxInt)
    (hP : resolve w.entities (orgCriteria parentType parent) = some P) :
    let dateISO := formatRFC3339 d
    let newID := String.mk (transactionID.data.take 7) ++ "_"
      ++ String.mk ((childType.data.take 3).map Char.toLower) ++ "_" ++ toString (n + 1)
    let created : Entity :=
      { id := newID, kind := { major := "Organisation", minor := childType },
        created := dateISO, terminated := "", name := { startTime := dateISO, value := child },
        metadata := [], attributes := [], relationships := [] }
    let attached : Relationship :=
      { relatedEntityID := newID, startTime := dateISO, endTime := "",
        id := P.id ++ "_" ++ newID, name := relType }
    let update : Entity :=
      { id := P.id, kind := { major := "", minor := "" }, created := "", terminated := "",
        name := { startTime := "", value := "" }, metadata := [], attributes := [],
        relationships := [{ key := P.id ++ "_" ++ newID, value := attached }] }
    let after : World :=
      { w with
        entities := applyUpdate (w.entities ++ [created]) P.id update
        calls := w.calls ++ [StoreCall.searchEntities (orgCriteria parentType parent),
          StoreCall.createEntity created, StoreCall.updateEntity P.id update] }
    ((∀ x ∈ w.entities, x.id ≠ newID) → (AddOrgEntity tx).run w = (Result.ok (n + 1), after))
    ∧ ∀ v w', (AddOrgEntity tx).run w = (Result.ok v, w') →
        v = n + 1 ∧ w'.entities = after.entities ∧ w'.calls = after.calls
          ∧ w'.counters = w.counters := by
  dsimp only
  obtain ⟨rest, hrest⟩ := searchResults_of_resolve hP
  have hPid := hasID_of_resolve hP
  unfold AddOrgEntity
  simp only [run_bind, hparent, hchild, hdate, hparentType, hchildType, hrelType, htx,
      run_assertString, run_parseDate _ hd, run_getCounters, hn, run_slice_of_ascii _ h7 h7a,
      run_slice_of_ascii _ h3 h3a, Option.some_bind, ToLower_of_ascii h3a, joinParts,
      Option.map_some', run_wrapError, run_SearchEntities, hrest, wrapInt_succ hmin hmax,
      run_pure, run_CreateEntity, run_UpdateEntity, toSearchResult_id, newEntity_id]
  cases hany : hasID w.entities (String.mk (transactionID.data.take 7) ++ "_"
      ++ String.mk ((childType.data.take 3).map Char.toLower) ++ "_" ++ toString (n + 1))
  · simp only [hasID_append, hPid, Bool.true_or, if_true, Bool.false_eq_true, if_false]
    constructor
    · intro _
      simp [relationshipUpdate, newRelationship, newEntity]
    · intro v w' h
      simp only [Prod.mk.injEq, Result.ok.injEq] at h
      obtain ⟨hv, hw⟩ := h
      subst hw
      simp [relationshipUpdate, newRelationship, newEntity, hv]
  · simp only [if_true]
    constructor
    · intro hf
      rw [hasID_iff] at hany
      obtain ⟨x, hx, hxid⟩ := hany
      exact absurd hxid (hf x hx)
    · intro v w' h
      simp at h


/-- C1, counterexample: with the minister counter at the largest `int` the
returned counter and the ID suffix wrap to the smallest `int`; they are not
`n + 1`. And the slices cut bytes, not characters: with the transaction_id
`TXÉ0001`, of 7 characters and 8 bytes, the ID begins with the 6 characters
`TXÉ000` of its first 7 bytes; of the child_type `Émin` the slice is `Ém`. -/
theorem AddOrgEntity_counter_wraps_and_slices_cut_bytes :
    worldMaxCounter.counters.find "minister" = some 9223372036854775807
    ∧ ((AddOrgEntity scenarioA).run worldMaxCounter).1 = Result.ok (-9223372036854775808)
    ∧ ((AddOrgEntity scenarioA).run worldMaxCounter).1 ≠ Result.ok (9223372036854775807 + 1)
    ∧ ((AddOrgEntity scenarioA).run worldMaxCounter).2.entities.map (fun e => e.id)
        = ["gov_01", "TX00001_min_-9223372036854775808"]
    ∧ "TXÉ0001".length = 7 ∧ byteLen "TXÉ0001" = 8
    ∧ ((AddOrgEntity scenarioAccented).run worldA).1 = Result.ok 1
    ∧ ((AddOrgEntity scenarioAccented).run worldA).2.entities.map (fun e => e.id)
        = ["gov_01", "TXÉ000_min_1"]
    ∧ ((AddOrgEntity scenarioAccented).run worldA).2.entities.map (fun e => e.id)
        ≠ ["gov_01", "TXÉ0001_min_1"]
    ∧ "Émin".length = 4 ∧ sliceTo "Émin" 3 = Sliced.text "Ém" := by
  decide

/-- C1, witness: scenario A of the specification, and the same transaction in a
state that already holds a minister of that name. -/
theorem AddOrgEntity_scenarioA_witness :
    (AddOrgEntity scenarioA).run worldA =
      (Result.ok (0 + 1),
        { worldA with
          entities := applyUpdate (worldA.entities ++ [ministryOfHealth]) "gov_01"
            (relationshipUpdate "gov_01"
              (newRelationship "gov_01" "TX00001_min_1" "2024-02-01T00:00:00Z" "AS_MINISTER"))
          calls := [StoreCall.searchEntities (orgCriteria "government" "Government of Sri Lanka"),
            StoreCall.createEntity ministryOfHealth,
            StoreCall.updateEntity "gov_01"
              (relationshipUpdate "gov_01"
                (newRelationship "gov_01" "TX00001_min_1" "2024-02-01T00:00:00Z"
                  "AS_MINISTER"))] })
    ∧ ((AddOrgEntity scenarioA2).run worldB).1 = Result.ok (1 + 1) :=
  ⟨(AddOrgEntity_allocates_and_attaches scenarioA worldA "Government of Sri Lanka"
      "Ministry of Health" "2024-02-01" "government" "minister" "AS_MINISTER" "TX00001"
      { year := 2024, month := 2, day := 1 } 0 governmentEntity
      (by decide) (by decide) (by decide) (by decide) (by decide) (by decide) (by decide)
      (by decide) (by decide) (by decide) (by decide) (by decide) (by decide) (by decide)
      (by decide) (by decide)).1
      (by decide),
   congrArg Prod.fst
    ((AddOrgEntity_allocates_and_attaches scenarioA2 worldB "Government of Sri Lanka"
      "Ministry of Health" "2024-02-01" "government" "minister" "AS_MINISTER" "TX00002"
      { year := 2024, month := 2, day := 1 } 1 governmentWithHealth
      (by decide) (by decide) (by decide) (by decide) (by decide) (by decide) (by decide)
      (by decide) (by decide) (by decide) (by decide) (by decide) (by decide) (by decide)
      (by decide) (by decide)).1
      (by decide))⟩

/-! ## TerminateOrgEntity -/

theorem hasID_of_relationshipsOf {es : List Entity} {id : String} {r : Relationship}
    (h : r ∈ relationshipsOf es id) : hasID es id = true := by
  rw [← findEntity_isSome]
  unfold relationshipsOf at h
  cases hf : findEntity es id with
  | none => simp [hf] at h
  | some e => rfl

theorem selectedRelationship_mem {w : World} {parentID childID relType dateISO : String}
    {a : Relationship} (h : selectedRelationship w parentID childID relType dateISO = some a) :
    a ∈ relationshipsOf w.entities parentID ∧ a.relatedEntityID = childID ∧ a.endTime = ""
      ∧ (relType = "" ∨ a.name = relType) := by
  unfold selectedRelationship at h
  have hmem := List.mem_of_find?_eq_some h
  have hp := List.find?_some h
  rw [List.mem_filter] at hmem
  obtain ⟨hm, hq⟩ := hmem
  simp only [activeTo, Bool.and_eq_true, decide_eq_true_eq] at hp
  simp only [matchesQuery, terminateQuery, Bool.and_eq_true, Bool.or_eq_true,
    decide_eq_true_eq] at hq
  exact ⟨hm, hp.1, hp.2, hq.1.2⟩

theorem run_terminateActive (parentID childID relType dateISO : String) (w : World) :
    (terminateActive parentID childID relType dateISO).run w =
      match selectedRelationship w parentID childID relType dateISO with
      | none =>
        (Result.error ("no active relationship found between " ++ parentID ++ " and "
            ++ childID ++ " with type " ++ relType),
          { w with calls := w.calls ++
              [StoreCall.getRelatedEntities parentID (terminateQuery childID relType dateISO)] })
      | some a =>
        (Result.ok (),
          { w with
            entities := applyUpdate w.entities parentID
              (relationshipUpdate parentID (endRelationship a.id dateISO))
            calls := w.calls ++
              [StoreCall.getRelatedEntities parentID (terminateQuery childID relType dateISO),
               StoreCall.updateEntity parentID
                 (relationshipUpdate parentID (endRelationship a.id dateISO))] }) := by
  unfold terminateActive
  simp only [run_bind, run_wrapError, run_GetRelatedEntities]
  cases hsel : selectedRelationship w parentID childID relType dateISO with
  | none =>
    unfold selectedRelationship at hsel
    simp only [hsel, run_fail]
  | some a =>
    have hid := hasID_of_relationshipsOf (selectedRelationship_mem hsel).1
    unfold selectedRelationship at hsel
    simp [hsel, hid]

theorem run_TerminateOrgEntity (tx : Transaction) (w : World)
    (parent child dateStr parentType childType relType : String) (d : Date) (P C : Entity)
    (hparent : tx.get "parent" = Value.str parent)
    (hchild : tx.get "child" = Value.str child)
    (hdate : tx.get "date" = Value.str dateStr)
    (hparentType : tx.get "parent_type" = Value.str parentType)
    (hchildType : tx.get "child_type" = Value.str childType)
    (hrelType : tx.get "rel_type" = Value.str relType)
    (hd : timeParse (TrimSpace dateStr) = some d)
    (hP : resolve w.entities (orgCriteria parentType parent) = some P)
    (hC : resolve w.entities (orgCriteria childType child) = some C) :
    (TerminateOrgEntity tx).run w =
      if childType = "minister" then
        if (relationshipsOf w.entities C.id).any activeDepartment then
          (Result.error "cannot terminate minister with active departments",
            { w with calls := w.calls ++
                [StoreCall.searchEntities (orgCriteria parentType parent),
                 StoreCall.searchEntities (orgCriteria childType child),
                 StoreCall.getAllRelatedEntities C.id] })
        else
          (terminateActive P.id C.id relType (formatRFC3339 d)).run
            { w with calls := w.calls ++
                [StoreCall.searchEntities (orgCriteria parentType parent),
                 StoreCall.searchEntities (orgCriteria childType child),
                 StoreCall.getAllRelatedEntities C.id] }
      else
        (terminateActive P.id C.id relType (formatRFC3339 d)).run
          { w with calls := w.calls ++
              [StoreCall.searchEntities (orgCriteria parentType parent),
               StoreCall.searchEntities (orgCriteria childType child)] } := by
  obtain ⟨restP, hrestP⟩ := searchResults_of_resolve hP
  obtain ⟨restC, hrestC⟩ := searchResults_of_resolve hC
  unfold TerminateOrgEntity
  simp only [run_bind, hparent, hchild, hdate, hparentType, hchildType, hrelType,
    run_assertString, run_parseDate _ hd, run_wrapError, run_SearchEntities, hrestP, hrestC,
    toSearchResult_id]
  by_cases hm : childType = "minister"
  · simp only [hm, if_true, run_bind, run_wrapError, run_GetAllRelatedEntities]
    by_cases ha : (relationshipsOf w.entities C.id).any activeDepartment = true
    · simp [ha]
    · simp [ha]
  · simp [hm]

/-- C2 (amended): in a `TerminateOrgEntity` call with child_type `minister`
whose fields are strings, whose date is valid and whose parent and child
resolve to `P` and `M`: if `M` owns a relationship named `AS_DEPARTMENT` with
empty endTime, the call returns the error `cannot terminate minister with active
departments` after two searches and one relation read, the store contents
unchanged; if `M` owns none and `P` owns a relationship of the given type to `M`
with empty endTime that passes the start time filter of the store for the
termination date, the call succeeds. -/
theorem TerminateOrgEntity_minister_guard (tx : Transaction) (w : World)
    (parent child dateStr parentType relType : String) (d : Date) (P M : Entity)
    (hparent : tx.get "parent" = Value.str parent)
    (hchild : tx.get "child" = Value.str child)
    (hdate : tx.get "date" = Value.str dateStr)
    (hparentType : tx.get "parent_type" = Value.str parentType)
    (hchildType : tx.get "child_type" = Value.str "minister")
    (hrelType : tx.get "rel_type" = Value.str relType)
    (hd : timeParse (TrimSpace dateStr) = some d)
    (hP : resolve w.entities (orgCriteria parentType parent) = some P)
    (hM : resolve w.entities (orgCriteria "minister" child) = some M) :
    ((∃ r ∈ relationshipsOf w.entities M.id, r.name = "AS_DEPARTMENT" ∧ r.endTime = "") →
      (TerminateOrgEntity tx).run w =
        (Result.error "cannot terminate minister with active departments",
          { w with calls := w.calls ++
              [StoreCall.searchEntities (orgCriteria parentType parent),
               StoreCall.searchEntities (orgCriteria "minister" child),
               StoreCall.getAllRelatedEntities M.id] }))
    ∧ ((∀ r ∈ relationshipsOf w.entities M.id, ¬ (r.name = "AS_DEPARTMENT" ∧ r.endTime = "")) →
        (∃ r ∈ relationshipsOf w.entities P.id, r.relatedEntityID = M.id ∧ r.name = relType
          ∧ r.endTime = "" ∧ w.startTimeMatches (formatRFC3339 d) r = true) →
        ∃ w', (TerminateOrgEntity tx).run w = (Result.ok (), w')) := by
  have hrun := run_TerminateOrgEntity tx w parent child dateStr parentType "minister" relType
    d P M hparent hchild hdate hparentType hchildType hrelType hd hP hM
  constructor
  · intro hact
    have ha : (relationshipsOf w.entities M.id).any activeDepartment = true := by
      rw [List.any_eq_true]
      obtain ⟨r, hr, hn, he⟩ := hact
      exact ⟨r, hr, by simp [activeDepartment, hn, he]⟩
    rw [hrun]
    simp [ha]
  · intro hnone hact
    have ha : (relationshipsOf w.entities M.id).any activeDepartment = false := by
      rw [List.any_eq_false]
      intro r hr
      have := hnone r hr
      simpa [activeDepartment] using this
    obtain ⟨r, hr, hrel, hname, hend, hstart⟩ := hact
    rw [hrun]
    simp only [if_true, ha, Bool.false_eq_true, if_false, run_terminateActive]
    cases hsel : selectedRelationship
        { w with calls := w.calls ++
            [StoreCall.searchEntities (orgCriteria parentType parent),
             StoreCall.searchEntities (orgCriteria "minister" child),
             StoreCall.getAllRelatedEntities M.id] } P.id M.id relType (formatRFC3339 d) with
    | some a => exact ⟨_, rfl⟩
    | none =>
      exfalso
      unfold selectedRelationship at hsel
      rw [List.find?_eq_none] at hsel
      have := hsel r (List.mem_filter.mpr ⟨hr, by
        simp [matchesQuery, terminateQuery, hrel, hname, hstart]⟩)
      simp [activeTo, hrel, hend] at this

/-- C2, counterexample: the government holds an active `AS_MINISTER` relationship
to a minister without departments, started on 2024-02-01; a termination dated
2024-01-15 fails, whether the store reads the start time filter as "active at"
or as an exact match (under the latter a termination dated 2024-03-01 fails too). -/
theorem TerminateOrgEntity_before_start_fails :
    resolve worldB.entities (orgCriteria "government" "Government of Sri Lanka")
      = some governmentWithHealth
    ∧ resolve worldB.entities (orgCriteria "minister" "Ministry of Health")
      = some ministryOfHealth
    ∧ (∀ r ∈ relationshipsOf worldB.entities "TX00001_min_1",
        ¬ (r.name = "AS_DEPARTMENT" ∧ r.endTime = ""))
    ∧ (∃ r ∈ relationshipsOf worldB.entities "gov_01",
        r.relatedEntityID = "TX00001_min_1" ∧ r.name = "AS_MINISTER" ∧ r.endTime = "")
    ∧ ((TerminateOrgEntity (terminateHealth "2024-01-15")).run worldB).1
      = Result.error
          "no active relationship found between gov_01 and TX00001_min_1 with type AS_MINISTER"
    ∧ ((TerminateOrgEntity (terminateHealth "2024-01-15")).run worldBExact).1
      = Result.error
          "no active relationship found between gov_01 and TX00001_min_1 with type AS_MINISTER"
    ∧ ((TerminateOrgEntity (terminateHealth "2024-03-01")).run worldBExact).1
      = Result.error
          "no active relationship found between gov_01 and TX00001_min_1 with type AS_MINISTER" := by
  decide

/-- C2, witness: scenario B of the specification (the guard), and the
termination of the minister of scenario A on 2024-03-01 (success). -/
theorem TerminateOrgEntity_minister_guard_witness :
    (TerminateOrgEntity (terminateHealth "2024-03-01")).run worldC =
      (Result.error "cannot terminate minister with active departments",
        { worldC with calls :=
            [StoreCall.searchEntities (orgCriteria "government" "Government of Sri Lanka"),
             StoreCall.searchEntities (orgCriteria "minister" "Ministry of Health"),
             StoreCall.getAllRelatedEntities "TX00001_min_1"] })
    ∧ ∃ w', (TerminateOrgEntity (terminateHealth "2024-03-01")).run worldB = (Result.ok (), w') :=
  ⟨(TerminateOrgEntity_minister_guard (terminateHealth "2024-03-01") worldC
      "Government of Sri Lanka" "Ministry of Health" "2024-03-01" "government" "AS_MINISTER"
      { year := 2024, month := 3, day := 1 } governmentWithHealth healthWithPlanning
      (by decide) (by decide) (by decide) (by decide) (by decide) (by decide) (by decide)
      (by decide) (by decide)).1 (by decide),
   (TerminateOrgEntity_minister_guard (terminateHealth "2024-03-01") worldB
      "Government of Sri Lanka" "Ministry of Health" "2024-03-01" "government" "AS_MINISTER"
      { year := 2024, month := 3, day := 1 } governmentWithHealth ministryOfHealth
      (by decide) (by decide) (by decide) (by decide) (by decide) (by decide) (by decide)
      (by decide) (by decide)).2 (by decide) (by decide)⟩

/-! ## Key discipline, updates and terminations -/

theorem relationshipsOf_eq_map (es : List Entity) (id : String) :
    relationshipsOf es id = (entriesOf es id).map (fun r => r.value) := by
  unfold relationshipsOf entriesOf
  cases findEntity es id <;> rfl

theorem findEntity_applyUpdate (es : List Entity) (i : String) (p : Entity) (j : String) :
    findEntity (applyUpdate es i p) j =
      (findEntity es j).map (fun x => if x.id = i then mergeEntity x p else x) := by
  induction es with
  | nil => rfl
  | cons a t ih =>
    have ih' : List.find? (fun x => decide (x.id = j))
        (List.map (fun x => if x.id = i then mergeEntity x p else x) t) =
        Option.map (fun x => if x.id = i then mergeEntity x p else x)
          (List.find? (fun x => decide (x.id = j)) t) := ih
    by_cases hi : a.id = i <;> by_cases hj : a.id = j <;>
      simp [findEntity, applyUpdate, List.find?_cons, hi, hj, ih'] <;> simp_all

theorem entriesOf_applyUpdate_ne (es : List Entity) {i j : String} (p : Entity) (h : j ≠ i) :
    entriesOf (applyUpdate es i p) j = entriesOf es j := by
  unfold entriesOf
  rw [findEntity_applyUpdate]
  cases hf : findEntity es j with
  | none => rfl
  | some e =>
    have := findEntity_id hf
    simp [this, h]

theorem relationshipsOf_applyUpdate_ne (es : List Entity) {i j : String} (p : Entity)
    (h : j ≠ i) : relationshipsOf (applyUpdate es i p) j = relationshipsOf es j := by
  rw [relationshipsOf_eq_map, relationshipsOf_eq_map, entriesOf_applyUpdate_ne es p h]

theorem entriesOf_applyUpdate_self (es : List Entity) (i : String) (r : Relationship)
    (h : hasID es i = true) :
    entriesOf (applyUpdate es i (relationshipUpdate i r)) i =
      upsertRelationship (entriesOf es i) { key := r.id, value := r } := by
  unfold entriesOf
  rw [findEntity_applyUpdate]
  cases hf : findEntity es i with
  | none =>
    have := findEntity_isSome es i
    rw [hf, h] at this
    simp at this
  | some e =>
    have := findEntity_id hf
    simp [this, mergeEntity, relationshipUpdate]

theorem upsert_of_key_mem (rels : List RelationshipEntry) (k : String) (v : Relationship)
    (hnd : (rels.map (fun r => r.key)).Nodup) (hk : k ∈ rels.map (fun r => r.key)) :
    upsertRelationship rels { key := k, value := v } =
      rels.map (fun r =>
        if r.key = k then { key := r.key, value := mergeRelationship r.value v } else r) := by
  induction rels with
  | nil => simp at hk
  | cons a t ih =>
    simp only [List.map_cons, List.nodup_cons] at hnd
    by_cases ha : a.key = k
    · have hid : t.map (fun r =>
          if r.key = k then { key := r.key, value := mergeRelationship r.value v } else r) = t := by
        conv_rhs => rw [← List.map_id t]
        apply List.map_congr_left
        intro x hx
        have : x.key ≠ k := by
          intro hxk
          exact hnd.1 (by rw [ha, ← hxk]; exact List.mem_map_of_mem _ hx)
        simp [this]
      simp [upsertRelationship, ha, hid]
    · have hk' : k ∈ t.map (fun r => r.key) := by
        simp only [List.map_cons, List.mem_cons] at hk
        rcases hk with hk | hk
        · exact absurd hk.symm ha
        · exact hk
      simp [upsertRelationship, ha, ih hnd.2 hk']

theorem upsert_of_key_not_mem (rels : List RelationshipEntry) (k : String) (v : Relationship)
    (hk : k ∉ rels.map (fun r => r.key)) :
    upsertRelationship rels { key := k, value := v } = rels ++ [{ key := k, value := v }] := by
  induction rels with
  | nil => rfl
  | cons a t ih =>
    simp only [List.map_cons, List.mem_cons, not_or] at hk
    have ha : a.key ≠ k := fun h => hk.1 h.symm
    simp [upsertRelationship, ha, ih hk.2]

theorem string_append_left_cancel {a b c : String} (h : a ++ b = a ++ c) : b = c := by
  have := congrArg String.data h
  simp only [String.data_append] at this
  exact String.ext (List.append_cancel_left this)

theorem filter_key_eq_singleton (rels : List RelationshipEntry) (e0 : RelationshipEntry)
    (hnd : (rels.map (fun r => r.key)).Nodup) (hmem : e0 ∈ rels) :
    rels.filter (fun r => decide (r.key = e0.key)) = [e0] := by
  induction rels with
  | nil => simp at hmem
  | cons a t ih =>
    simp only [List.map_cons, List.nodup_cons] at hnd
    rcases List.mem_cons.mp hmem with h | h
    · subst h
      have : t.filter (fun r => decide (r.key = e0.key)) = [] := by
        rw [List.filter_eq_nil_iff]
        intro x hx
        simp only [decide_eq_true_eq]
        intro hxk
        exact hnd.1 (by rw [← hxk]; exact List.mem_map_of_mem _ hx)
      simp [List.filter_cons, this]
    · have hne : a.key ≠ e0.key := by
        intro hk
        exact hnd.1 (by rw [hk]; exact List.mem_map_of_mem _ h)
      simp [List.filter_cons, hne, ih hnd.2 h]

theorem formatRFC3339_ne_empty (d : Date) : formatRFC3339 d ≠ "" := by
  intro h
  have := congrArg String.length h
  simp [formatRFC3339, String.length] at this

theorem wellKeyedAt_of_wellFormed {es : List Entity} (hwf : WellFormed es) (id : String) :
    WellKeyedAt es id := by
  intro e he
  exact hwf e (findEntity_mem he)

theorem mem_entriesOf_wellKeyed {es : List Entity} {id : String} {r : RelationshipEntry}
    (hwf : WellKeyedAt es id) (hr : r ∈ entriesOf es id) :
    r.key = r.value.id ∧ r.value.id = id ++ "_" ++ r.value.relatedEntityID := by
  unfold entriesOf at hr
  cases hf : findEntity es id with
  | none => simp [hf] at hr
  | some e =>
    simp only [hf] at hr
    have hk := (hwf e hf).1 r hr
    rw [findEntity_id hf] at hk
    exact hk

theorem entriesOf_nodup {es : List Entity} {id : String} (hwf : WellKeyedAt es id) :
    ((entriesOf es id).map (fun r => r.key)).Nodup := by
  unfold entriesOf
  cases hf : findEntity es id with
  | none => simp
  | some e => exact (hwf e hf).2

theorem terminateActive_closes {w w' : World} {parentID childID relType dateISO : String}
    (hwf : WellKeyedAt w.entities parentID) (hdate : dateISO ≠ "")
    (hrun : (terminateActive parentID childID relType dateISO).run w = (Result.ok (), w')) :
    ∃ a, a ∈ relationshipsOf w.entities parentID ∧ a.relatedEntityID = childID
      ∧ a.endTime = "" ∧ (relType = "" ∨ a.name = relType)
      ∧ a.id = parentID ++ "_" ++ childID
      ∧ w'.entities = applyUpdate w.entities parentID
          (relationshipUpdate parentID (endRelationship a.id dateISO))
      ∧ matchingRelationships w'.entities parentID childID relType
          = [{ a with endTime := dateISO }] := by
  rw [run_terminateActive] at hrun
  cases hsel : selectedRelationship w parentID childID relType dateISO with
  | none => simp [hsel] at hrun
  | some a =>
    simp only [hsel, Prod.mk.injEq, true_and] at hrun
    obtain ⟨hmem, hrel, hend, hname⟩ := selectedRelationship_mem hsel
    have hid := hasID_of_relationshipsOf hmem
    rw [relationshipsOf_eq_map, List.mem_map] at hmem
    obtain ⟨e0, he0, he0a⟩ := hmem
    have hkey := mem_entriesOf_wellKeyed hwf he0
    rw [he0a, hrel] at hkey
    have hnd := entriesOf_nodup hwf
    have hent : w'.entities = applyUpdate w.entities parentID
        (relationshipUpdate parentID (endRelationship a.id dateISO)) := by
      rw [← hrun]
    refine ⟨a, ?_, hrel, hend, hname, hkey.2, hent, ?_⟩
    · rw [relationshipsOf_eq_map, List.mem_map]
      exact ⟨e0, he0, he0a⟩
    · unfold matchingRelationships
      rw [hent, relationshipsOf_eq_map, entriesOf_applyUpdate_self _ _ _ hid]
      have hkmem : (endRelationship a.id dateISO).id ∈
          (entriesOf w.entities parentID).map (fun r => r.key) := by
        rw [List.mem_map]
        exact ⟨e0, he0, hkey.1⟩
      rw [upsert_of_key_mem _ _ _ hnd hkmem, List.map_map, List.filter_map]
      have hfilter : (entriesOf w.entities parentID).filter
          ((fun r => decide (r.relatedEntityID = childID ∧ (relType = "" ∨ r.name = relType)))
            ∘ ((fun r => r.value) ∘ fun r =>
              if r.key = (endRelationship a.id dateISO).id then
                { key := r.key,
                  value := mergeRelationship r.value (endRelationship a.id dateISO) }
              else r))
          = (entriesOf w.entities parentID).filter (fun r => decide (r.key = e0.key)) := by
        apply List.filter_congr
        intro r hr
        have hrk := mem_entriesOf_wellKeyed hwf hr
        by_cases hk : r.key = a.id
        · have hre : r = e0 :=
            List.inj_on_of_nodup_map hnd hr he0 (by rw [hk, hkey.1])
          subst hre
          simp [endRelationship, mergeRelationship, hk, hkey.1, he0a, hrel, hname]
        · have hne : r.value.relatedEntityID ≠ childID := by
            intro hc
            apply hk
            rw [hrk.1, hrk.2, hc, hkey.2]
          simp [endRelationship, hk, hkey.1, hne]
      rw [hfilter, filter_key_eq_singleton _ _ hnd he0]
      simp [endRelationship, mergeRelationship, hkey.1, he0a, hdate]

theorem run_eq_of_fst {α : Type} {m : Op α} {w : World} {a : α}
    (h : (m.run w).1 = Result.ok a) : m.run w = (Result.ok a, (m.run w).2) :=
  Prod.ext h rfl

theorem run_TerminatePersonEntity (tx : Transaction) (w : World)
    (parent child dateStr parentType childType relType : String) (d : Date) (P C : Entity)
    (hparent : tx.get "parent" = Value.str parent)
    (hchild : tx.get "child" = Value.str child)
    (hdate : tx.get "date" = Value.str dateStr)
    (hparentType : tx.get "parent_type" = Value.str parentType)
    (hchildType : tx.get "child_type" = Value.str childType)
    (hrelType : tx.get "rel_type" = Value.str relType)
    (hd : timeParse (TrimSpace dateStr) = some d)
    (hP : resolve w.entities (orgCriteria parentType parent) = some P)
    (hC : resolve w.entities (personCriteria childType child) = some C) :
    (TerminatePersonEntity tx).run w =
      (terminateActive P.id C.id relType (formatRFC3339 d)).run
        { w with calls := w.calls ++
            [StoreCall.searchEntities (orgCriteria parentType parent),
             StoreCall.searchEntities (personCriteria childType child)] } := by
  obtain ⟨restP, hrestP⟩ := searchResults_of_resolve hP
  obtain ⟨restC, hrestC⟩ := searchResults_of_resolve hC
  unfold personCriteria at hrestC
  unfold TerminatePersonEntity
  simp [hparent, hchild, hdate, hparentType, hchildType, hrelType,
    run_parseDate _ hd, hrestP, hrestC, personCriteria]

/-- C3: in a store that follows the key discipline of the data model (keys
unique per entity, key = relationship ID = `ownerID_targetID`), after a
`TerminateOrgEntity` or a `TerminatePersonEntity` call with parent `P` and child
`C` returns successfully, exactly one relationship of `P` matching `(C, relType)`
has a non-empty endTime, and every relationship of `P` matching `(C, relType)`
has the termination date as endTime: none remains active. -/
theorem terminate_closes_exactly_one (tx : Transaction) (w w' : World)
    (parent child dateStr parentType childType relType : String) (d : Date) (P C : Entity)
    (hparent : tx.get "parent" = Value.str parent)
    (hchild : tx.get "child" = Value.str child)
    (hdate : tx.get "date" = Value.str dateStr)
    (hparentType : tx.get "parent_type" = Value.str parentType)
    (hchildType : tx.get "child_type" = Value.str childType)
    (hrelType : tx.get "rel_type" = Value.str relType)
    (hd : timeParse (TrimSpace dateStr) = some d)
    (hwf : WellFormed w.entities)
    (hP : resolve w.entities (orgCriteria parentType parent) = some P)
    (hrun :
      (resolve w.entities (orgCriteria childType child) = some C
        ∧ (TerminateOrgEntity tx).run w = (Result.ok (), w'))
      ∨ (resolve w.entities (personCriteria childType child) = some C
        ∧ (TerminatePersonEntity tx).run w = (Result.ok (), w'))) :
    ((matchingRelationships w'.entities P.id C.id relType).filter
        (fun r => r.endTime ≠ "")).length = 1
    ∧ (∀ r ∈ matchingRelationships w'.entities P.id C.id relType,
        r.endTime = formatRFC3339 d ∧ r.endTime ≠ "") := by
  have hne := formatRFC3339_ne_empty d
  have key : ∀ w0 : World,
      (terminateActive P.id C.id relType (formatRFC3339 d)).run w0 = (Result.ok (), w') →
      w0.entities = w.entities →
      ((matchingRelationships w'.entities P.id C.id relType).filter
        (fun r => r.endTime ≠ "")).length = 1
      ∧ (∀ r ∈ matchingRelationships w'.entities P.id C.id relType,
        r.endTime = formatRFC3339 d ∧ r.endTime ≠ "") := by
    intro w0 h hw0
    have hwf0 : WellKeyedAt w0.entities P.id := by
      rw [hw0]
      exact wellKeyedAt_of_wellFormed hwf P.id
    obtain ⟨a, -, -, -, -, -, -, hm⟩ := terminateActive_closes hwf0 hne h
    rw [hm]
    simp [hne]
  rcases hrun with ⟨hC, hrun⟩ | ⟨hC, hrun⟩
  · rw [run_TerminateOrgEntity tx w parent child dateStr parentType childType relType d P C
      hparent hchild hdate hparentType hchildType hrelType hd hP hC] at hrun
    by_cases hm : childType = "minister"
    · by_cases ha : (relationshipsOf w.entities C.id).any activeDepartment = true
      · simp [hm, ha] at hrun
      · simp only [hm, if_true, ha, Bool.false_eq_true, if_false] at hrun
        exact key _ hrun rfl
    · simp only [hm, if_false] at hrun
      exact key _ hrun rfl
  · rw [run_TerminatePersonEntity tx w parent child dateStr parentType childType relType d P C
      hparent hchild hdate hparentType hchildType hrelType hd hP hC] at hrun
    exact key _ hrun rfl

/-- C3, witness: the termination of the minister of scenario A by
`TerminateOrgEntity`, and of an appointment by `TerminatePersonEntity`, both on
2024-03-01. -/
theorem terminate_closes_exactly_one_witness :
    (((matchingRelationships
          ((TerminateOrgEntity (terminateHealth "2024-03-01")).run worldB).2.entities
          governmentWithHealth.id ministryOfHealth.id "AS_MINISTER").filter
        (fun r => r.endTime ≠ "")).length = 1
      ∧ (∀ r ∈ matchingRelationships
          ((TerminateOrgEntity (terminateHealth "2024-03-01")).run worldB).2.entities
          governmentWithHealth.id ministryOfHealth.id "AS_MINISTER",
        r.endTime = formatRFC3339 { year := 2024, month := 3, day := 1 } ∧ r.endTime ≠ ""))
    ∧ (((matchingRelationships
          ((TerminatePersonEntity (terminatePerera "2024-03-01")).run worldP).2.entities
          healthWithPerera.id citizenPerera.id "AS_APPOINTED").filter
        (fun r => r.endTime ≠ "")).length = 1
      ∧ (∀ r ∈ matchingRelationships
          ((TerminatePersonEntity (terminatePerera "2024-03-01")).run worldP).2.entities
          healthWithPerera.id citizenPerera.id "AS_APPOINTED",
        r.endTime = formatRFC3339 { year := 2024, month := 3, day := 1 } ∧ r.endTime ≠ "")) :=
  ⟨terminate_closes_exactly_one (terminateHealth "2024-03-01") worldB _
      "Government of Sri Lanka" "Ministry of Health" "2024-03-01" "government" "minister"
      "AS_MINISTER" { year := 2024, month := 3, day := 1 } governmentWithHealth
      ministryOfHealth (by decide) (by decide) (by decide) (by decide) (by decide) (by decide)
      (by decide) (by decide) (by decide)
      (Or.inl ⟨by decide, run_eq_of_fst (by decide)⟩),
   terminate_closes_exactly_one (terminatePerera "2024-03-01") worldP _
      "Ministry of Health" "A. Perera" "2024-03-01" "minister" "citizen"
      "AS_APPOINTED" { year := 2024, month := 3, day := 1 } healthWithPerera
      citizenPerera (by decide) (by decide) (by decide) (by decide) (by decide) (by decide)
      (by decide) (by decide) (by decide)
      (Or.inr ⟨by decide, run_eq_of_fst (by decide)⟩)⟩

/-! ## Dates -/

theorem digitChar_digitVal {c : Char} (h : c.isDigit = true) : digitChar (digitVal c) = c := by
  have h48 : 48 ≤ c.toNat := by
    simp only [Char.isDigit, Bool.and_eq_true, decide_eq_true_eq] at h
    exact h.1
  unfold digitChar digitVal
  rw [Nat.sub_add_cancel h48, Char.ofNat_toNat]

theorem digitVal_lt {c : Char} (h : c.isDigit = true) : digitVal c < 10 := by
  have h57 : c.toNat ≤ 57 := by
    simp only [Char.isDigit, Bool.and_eq_true, decide_eq_true_eq] at h
    exact h.2
  unfold digitVal
  omega

/-- Normalisation of a valid date: the formatted time is the date text followed
by `T00:00:00Z`. -/
theorem formatRFC3339_timeParse {s : String} {d : Date} (h : timeParse s = some d) :
    formatRFC3339 d = s ++ "T00:00:00Z" := by
  unfold timeParse at h
  split at h
  · rename_i y1 y2 y3 y4 h1 m1 m2 h2 d1 d2 hs
    split at h
    · rename_i hc
      obtain ⟨hh1, hh2, hy1, hy2, hy3, hy4, hm1, hm2, hd1, hd2⟩ := hc
      dsimp only at h
      split at h
      · simp only [Option.some.injEq] at h
        subst h
        have a1 := digitVal_lt hy1
        have a2 := digitVal_lt hy2
        have a3 := digitVal_lt hy3
        have a4 := digitVal_lt hy4
        have b1 := digitVal_lt hm1
        have b2 := digitVal_lt hm2
        have c1 := digitVal_lt hd1
        have c2 := digitVal_lt hd2
        have e1 : (1000 * digitVal y1 + 100 * digitVal y2 + 10 * digitVal y3 + digitVal y4)
            / 1000 % 10 = digitVal y1 := by omega
        have e2 : (1000 * digitVal y1 + 100 * digitVal y2 + 10 * digitVal y3 + digitVal y4)
            / 100 % 10 = digitVal y2 := by omega
        have e3 : (1000 * digitVal y1 + 100 * digitVal y2 + 10 * digitVal y3 + digitVal y4)
            / 10 % 10 = digitVal y3 := by omega
        have e4 : (1000 * digitVal y1 + 100 * digitVal y2 + 10 * digitVal y3 + digitVal y4)
            % 10 = digitVal y4 := by omega
        have e5 : (10 * digitVal m1 + digitVal m2) / 10 % 10 = digitVal m1 := by omega
        have e6 : (10 * digitVal m1 + digitVal m2) % 10 = digitVal m2 := by omega
        have e7 : (10 * digitVal d1 + digitVal d2) / 10 % 10 = digitVal d1 := by omega
        have e8 : (10 * digitVal d1 + digitVal d2) % 10 = digitVal d2 := by omega
        unfold formatRFC3339
        simp only [e1, e2, e3, e4, e5, e6, e7, e8, digitChar_digitVal, hy1, hy2, hy3, hy4,
          hm1, hm2, hd1, hd2]
        congr 1
        apply String.ext
        simp [hs, hh1, hh2]
      · simp at h
    · simp at h
  · simp at h

/-! ## MoveDepartment -/

theorem terminateTransaction_get (p c d pt ct rt : String) :
    (terminateTransaction p c d pt ct rt).get "parent" = Value.str p
    ∧ (terminateTransaction p c d pt ct rt).get "child" = Value.str c
    ∧ (terminateTransaction p c d pt ct rt).get "date" = Value.str d
    ∧ (terminateTransaction p c d pt ct rt).get "parent_type" = Value.str pt
    ∧ (terminateTransaction p c d pt ct rt).get "child_type" = Value.str ct
    ∧ (terminateTransaction p c d pt ct rt).get "rel_type" = Value.str rt := by
  refine ⟨rfl, rfl, rfl, rfl, rfl, rfl⟩

theorem matchesCriteria_mergeRel (c : SearchCriteria) (x : Entity) (i : String)
    (r : Relationship) :
    matchesCriteria c (mergeEntity x (relationshipUpdate i r)) = matchesCriteria c x := by
  simp [matchesCriteria, matchesKind, mergeEntity, relationshipUpdate]

theorem toSearchResult_mergeRel (x : Entity) (i : String) (r : Relationship) :
    toSearchResult (mergeEntity x (relationshipUpdate i r)) = toSearchResult x := by
  simp [toSearchResult, mergeEntity, relationshipUpdate]

theorem filter_applyUpdate_rel (es : List Entity) (i : String) (r : Relationship)
    (c : SearchCriteria) :
    (applyUpdate es i (relationshipUpdate i r)).filter (matchesCriteria c) =
      (es.filter (matchesCriteria c)).map
        (fun x => if x.id = i then mergeEntity x (relationshipUpdate i r) else x) := by
  unfold applyUpdate
  rw [List.filter_map]
  congr 1
  apply List.filter_congr
  intro x _
  by_cases h : x.id = i <;> simp [h, matchesCriteria_mergeRel]

@[simp] theorem searchResults_applyUpdate_rel (es : List Entity) (i : String) (r : Relationship)
    (c : SearchCriteria) :
    searchResults (applyUpdate es i (relationshipUpdate i r)) c = searchResults es c := by
  unfold searchResults
  rw [filter_applyUpdate_rel, List.map_map]
  apply List.map_congr_left
  intro x _
  by_cases h : x.id = i <;> simp [h, toSearchResult_mergeRel]

theorem resolve_applyUpdate_rel (es : List Entity) (i : String) (r : Relationship)
    (c : SearchCriteria) :
    resolve (applyUpdate es i (relationshipUpdate i r)) c =
      (resolve es c).map
        (fun x => if x.id = i then mergeEntity x (relationshipUpdate i r) else x) := by
  unfold resolve
  rw [filter_applyUpdate_rel]
  cases es.filter (matchesCriteria c) <;> simp

theorem resolve_applyUpdate_rel_id {es : List Entity} {i : String} {r : Relationship}
    {c : SearchCriteria} {P : Entity} (h : resolve es c = some P) :
    ∃ P', resolve (applyUpdate es i (relationshipUpdate i r)) c = some P' ∧ P'.id = P.id := by
  rw [resolve_applyUpdate_rel, h]
  refine ⟨_, rfl, ?_⟩
  by_cases hi : P.id = i <;> simp [hi]

theorem wellKeyedAt_applyUpdate_ne {es : List Entity} {i j : String} (p : Entity)
    (h : j ≠ i) (hwf : WellKeyedAt es j) : WellKeyedAt (applyUpdate es i p) j := by
  intro e he
  rw [findEntity_applyUpdate] at he
  cases hf : findEntity es j with
  | none => simp [hf] at he
  | some e0 =>
    have hid := findEntity_id hf
    simp only [hf, Option.map_some', hid, h, if_false, Option.some.injEq] at he
    rw [← he]
    exact hwf e0 hf

theorem attach_mem {es : List Entity} {i c dateISO name : String}
    (hwf : WellKeyedAt es i) (hid : hasID es i = true) (hdate : dateISO ≠ "")
    (hname : name ≠ "")
    (hstale : ∀ r ∈ relationshipsOf es i, r.relatedEntityID = c → r.endTime = "") :
    ({ key := i ++ "_" ++ c, value := newRelationship i c dateISO name } : RelationshipEntry) ∈
      entriesOf (applyUpdate es i (relationshipUpdate i (newRelationship i c dateISO name)))
        i := by
  rw [entriesOf_applyUpdate_self _ _ _ hid]
  by_cases hk : (newRelationship i c dateISO name).id ∈ (entriesOf es i).map (fun r => r.key)
  · rw [upsert_of_key_mem _ _ _ (entriesOf_nodup hwf) hk]
    rw [List.mem_map] at hk
    obtain ⟨e0, he0, hkey⟩ := hk
    have hwk := mem_entriesOf_wellKeyed hwf he0
    have hrel : e0.value.relatedEntityID = c := by
      have : i ++ "_" ++ e0.value.relatedEntityID = i ++ "_" ++ c := by
        rw [← hwk.2, ← hwk.1, hkey]
        rfl
      have h2 := string_append_left_cancel (a := i ++ "_") (by
        simpa [String.append_assoc] using this)
      exact h2
    have hend : e0.value.endTime = "" := by
      apply hstale _ _ hrel
      rw [relationshipsOf_eq_map]
      exact List.mem_map_of_mem _ he0
    rw [List.mem_map]
    refine ⟨e0, he0, ?_⟩
    have hid0 : e0.value.id = i ++ "_" ++ c := by rw [hwk.2, hrel]
    have hkey0 : e0.key = i ++ "_" ++ c := hkey
    simp [hkey, hkey0, mergeRelationship, newRelationship, hdate, hname, hend, hrel, hid0]
  · rw [upsert_of_key_not_mem _ _ _ hk]
    exact List.mem_append_right _ (List.mem_singleton.mpr rfl)

theorem run_MoveDepartment (tx : Transaction) (w : World)
    (newParent oldParent child dateStr : String) (d : Date) (N D O : Entity)
    (hnew : tx.get "new_parent" = Value.str newParent)
    (hold : tx.get "old_parent" = Value.str oldParent)
    (hchild : tx.get "child" = Value.str child)
    (hdate : tx.get "date" = Value.str dateStr)
    (hd : timeParse (TrimSpace dateStr) = some d)
    (hN : resolve w.entities (orgCriteria "minister" newParent) = some N)
    (hD : resolve w.entities (orgCriteria "department" child) = some D)
    (hO : resolve w.entities (orgCriteria "minister" oldParent) = some O) :
    (MoveDepartment tx).run w =
      match (relationshipsOf
          (applyUpdate w.entities N.id
            (relationshipUpdate N.id
              (newRelationship N.id D.id (formatRFC3339 d) "AS_DEPARTMENT")))
          O.id).find? (activeDepartmentTo D.id) with
      | some _ =>
        (wrapError "failed to terminate old relationship: "
          (TerminateOrgEntity
            (terminateTransaction oldParent child dateStr "minister" "department"
              "AS_DEPARTMENT"))).run
          { w with
            entities := applyUpdate w.entities N.id
              (relationshipUpdate N.id
                (newRelationship N.id D.id (formatRFC3339 d) "AS_DEPARTMENT"))
            calls := w.calls ++
              [StoreCall.searchEntities (orgCriteria "minister" newParent),
               StoreCall.searchEntities (orgCriteria "department" child),
               StoreCall.updateEntity N.id
                 (relationshipUpdate N.id
                   (newRelationship N.id D.id (formatRFC3339 d) "AS_DEPARTMENT")),
               StoreCall.searchEntities (orgCriteria "minister" oldParent),
               StoreCall.getAllRelatedEntities O.id] }
      | none =>
        (Result.ok (),
          { w with
            entities := applyUpdate w.entities N.id
              (relationshipUpdate N.id
                (newRelationship N.id D.id (formatRFC3339 d) "AS_DEPARTMENT"))
            calls := w.calls ++
              [StoreCall.searchEntities (orgCriteria "minister" newParent),
               StoreCall.searchEntities (orgCriteria "department" child),
               StoreCall.updateEntity N.id
                 (relationshipUpdate N.id
                   (newRelationship N.id D.id (formatRFC3339 d) "AS_DEPARTMENT")),
               StoreCall.searchEntities (orgCriteria "minister" oldParent),
               StoreCall.getAllRelatedEntities O.id] }) := by
  obtain ⟨restN, hrestN⟩ := searchResults_of_resolve hN
  obtain ⟨restD, hrestD⟩ := searchResults_of_resolve hD
  obtain ⟨restO, hrestO⟩ := searchResults_of_resolve hO
  have hNid := hasID_of_resolve hN
  unfold MoveDepartment
  simp only [run_bind, hnew, hold, hchild, hdate, run_assertString, run_parseDate _ hd,
    run_wrapError, run_SearchEntities, hrestN, hrestD, toSearchResult_id, run_UpdateEntity,
    hNid, if_true, searchResults_applyUpdate_rel, hrestO, run_GetAllRelatedEntities]
  cases (relationshipsOf
      (applyUpdate w.entities N.id
        (relationshipUpdate N.id
          (newRelationship N.id D.id (formatRFC3339 d) "AS_DEPARTMENT")))
      O.id).find? (activeDepartmentTo D.id) <;> simp

/-- The move between two ministers where the new one has not held the
department before: in a store that follows the key discipline, let the new
minister resolve to `N`, the department to `D` and the old minister to `O`, with
`O` and `N` distinct, let `O` own an active `AS_DEPARTMENT` relationship to `D`,
and let `N` own no relationship to `D` that has already ended. Then a successful
`MoveDepartment` with date `d` leaves `N` with the relationship keyed
`N.ID_D.ID` to `D`, named `AS_DEPARTMENT`, started at `d` followed by
`T00:00:00Z`, with empty endTime, and leaves exactly one `AS_DEPARTMENT`
relationship from `O` to `D`, keyed `O.ID_D.ID`, with endTime `d` followed by
`T00:00:00Z`. -/
theorem MoveDepartment_moves (tx : Transaction) (w w' : World)
    (newParent oldParent child dateStr : String) (d : Date) (N D O : Entity)
    (hnew : tx.get "new_parent" = Value.str newParent)
    (hold : tx.get "old_parent" = Value.str oldParent)
    (hchild : tx.get "child" = Value.str child)
    (hdate : tx.get "date" = Value.str dateStr)
    (hd : timeParse (TrimSpace dateStr) = some d)
    (hwf : WellFormed w.entities)
    (hN : resolve w.entities (orgCriteria "minister" newParent) = some N)
    (hD : resolve w.entities (orgCriteria "department" child) = some D)
    (hO : resolve w.entities (orgCriteria "minister" oldParent) = some O)
    (hdistinct : O.id ≠ N.id)
    (hactive : ∃ r ∈ relationshipsOf w.entities O.id,
      r.relatedEntityID = D.id ∧ r.name = "AS_DEPARTMENT" ∧ r.endTime = "")
    (hstale : ∀ r ∈ relationshipsOf w.entities N.id, r.relatedEntityID = D.id → r.endTime = "")
    (hrun : (MoveDepartment tx).run w = (Result.ok (), w')) :
    ({ key := N.id ++ "_" ++ D.id,
       value := { relatedEntityID := D.id, startTime := TrimSpace dateStr ++ "T00:00:00Z",
                  endTime := "", id := N.id ++ "_" ++ D.id, name := "AS_DEPARTMENT" } }
      : RelationshipEntry) ∈ entriesOf w'.entities N.id
    ∧ ∃ a, matchingRelationships w'.entities O.id D.id "AS_DEPARTMENT" = [a]
        ∧ a.id = O.id ++ "_" ++ D.id ∧ a.endTime = TrimSpace dateStr ++ "T00:00:00Z" := by
  rw [← formatRFC3339_timeParse hd]
  have hne := formatRFC3339_ne_empty d
  have hNid := hasID_of_resolve hN
  rw [run_MoveDepartment tx w newParent oldParent child dateStr d N D O hnew hold hchild hdate
    hd hN hD hO, relationshipsOf_applyUpdate_ne _ _ hdistinct] at hrun
  obtain ⟨r, hr, hr1, hr2, hr3⟩ := hactive
  cases hfind : (relationshipsOf w.entities O.id).find? (activeDepartmentTo D.id) with
  | none =>
    rw [List.find?_eq_none] at hfind
    have := hfind r hr
    simp [activeDepartmentTo, hr1, hr2, hr3] at this
  | some a0 =>
    simp only [hfind, run_wrapError] at hrun
    obtain ⟨O', hO', hO'id⟩ := resolve_applyUpdate_rel_id (i := N.id)
      (r := newRelationship N.id D.id (formatRFC3339 d) "AS_DEPARTMENT") hO
    obtain ⟨D', hD', hD'id⟩ := resolve_applyUpdate_rel_id (i := N.id)
      (r := newRelationship N.id D.id (formatRFC3339 d) "AS_DEPARTMENT") hD
    obtain ⟨g1, g2, g3, g4, g5, g6⟩ := terminateTransaction_get oldParent child dateStr
      "minister" "department" "AS_DEPARTMENT"
    rw [run_TerminateOrgEntity _ _ oldParent child dateStr "minister" "department"
      "AS_DEPARTMENT" d O' D' g1 g2 g3 g4 g5 g6 hd hO' hD'] at hrun
    have hdm : ("department" : String) ≠ "minister" := by decide
    simp only [hdm, if_false, hO'id, hD'id] at hrun
    cases hterm : (terminateActive O.id D.id "AS_DEPARTMENT" (formatRFC3339 d)).run
        { entities := applyUpdate w.entities N.id
            (relationshipUpdate N.id
              (newRelationship N.id D.id (formatRFC3339 d) "AS_DEPARTMENT")),
          startTimeMatches := w.startTimeMatches,
          calls := w.calls ++
              [StoreCall.searchEntities (orgCriteria "minister" newParent),
               StoreCall.searchEntities (orgCriteria "department" child),
               StoreCall.updateEntity N.id
                 (relationshipUpdate N.id
                   (newRelationship N.id D.id (formatRFC3339 d) "AS_DEPARTMENT")),
               StoreCall.searchEntities (orgCriteria "minister" oldParent),
               StoreCall.getAllRelatedEntities O.id] ++
              [StoreCall.searchEntities (orgCriteria "minister" oldParent),
               StoreCall.searchEntities (orgCriteria "department" child)],
          counters := w.counters } with
    | mk res w2 =>
      rw [hterm] at hrun
      cases res with
      | error e => simp at hrun
      | panic e => simp at hrun
      | unmodelled e => simp at hrun
      | ok u =>
        simp only [Prod.mk.injEq, true_and] at hrun
        subst hrun
        have hwfO : WellKeyedAt (applyUpdate w.entities N.id
            (relationshipUpdate N.id
              (newRelationship N.id D.id (formatRFC3339 d) "AS_DEPARTMENT"))) O.id :=
          wellKeyedAt_applyUpdate_ne _ hdistinct (wellKeyedAt_of_wellFormed hwf O.id)
        obtain ⟨a, -, -, -, -, haid, hent, hm⟩ := terminateActive_closes hwfO hne hterm
        constructor
        · rw [hent, entriesOf_applyUpdate_ne _ _ (Ne.symm hdistinct)]
          exact attach_mem (wellKeyedAt_of_wellFormed hwf N.id) hNid hne (by decide) hstale
        · exact ⟨_, hm, haid, rfl⟩

/-- C4, failing input: scenario C in a state where "Ministry of Wellness" had
held "Health Planning" before. All ministers and departments are distinct and
uniquely named, the department is active under "Ministry of Health", the call
succeeds, and afterwards "Ministry of Wellness" owns no active relationship to the
department: the relationship under the key `TX00002_min_2_TX00003_dep_1` takes the
new startTime and keeps its old endTime. The relationship of "Ministry of Health"
is ended at the date of the move, so the department is active under no entity
of the store. -/
theorem MoveDepartment_back_stays_ended :
    WellFormed worldE.entities
    ∧ searchResults worldE.entities (orgCriteria "minister" "Ministry of Wellness")
      = [toSearchResult wellnessFormer]
    ∧ searchResults worldE.entities (orgCriteria "minister" "Ministry of Health")
      = [toSearchResult healthWithPlanning]
    ∧ searchResults worldE.entities (orgCriteria "department" "Health Planning")
      = [toSearchResult healthPlanning]
    ∧ (∃ r ∈ relationshipsOf worldE.entities "TX00001_min_1",
        r.relatedEntityID = "TX00003_dep_1" ∧ r.name = "AS_DEPARTMENT" ∧ r.endTime = "")
    ∧ ((MoveDepartment scenarioC).run worldE).1 = Result.ok ()
    ∧ relationshipsOf ((MoveDepartment scenarioC).run worldE).2.entities "TX00002_min_2"
      = [{ relatedEntityID := "TX00003_dep_1", startTime := "2024-03-01T00:00:00Z",
           endTime := "2024-02-10T00:00:00Z", id := "TX00002_min_2_TX00003_dep_1",
           name := "AS_DEPARTMENT" }]
    ∧ (∀ r ∈ relationshipsOf ((MoveDepartment scenarioC).run worldE).2.entities "TX00002_min_2",
        r.endTime ≠ "")
    ∧ (relationshipsOf ((MoveDepartment scenarioC).run worldE).2.entities "TX00001_min_1").map
          (fun r => (r.relatedEntityID, r.endTime))
        = [("TX00003_dep_1", "2024-03-01T00:00:00Z")]
    ∧ noActiveParent ((MoveDepartment scenarioC).run worldE).2.entities "TX00003_dep_1"
        = true := by
  decide

/-- Scenario C of the specification, where "Ministry of Wellness" has not held
the department before: the move happens. -/
theorem MoveDepartment_scenarioC_witness :
    ({ key := "TX00002_min_2_TX00003_dep_1",
       value := { relatedEntityID := "TX00003_dep_1", startTime := "2024-03-01T00:00:00Z",
                  endTime := "", id := "TX00002_min_2_TX00003_dep_1",
                  name := "AS_DEPARTMENT" } } : RelationshipEntry)
        ∈ entriesOf ((MoveDepartment scenarioC).run worldD).2.entities "TX00002_min_2"
    ∧ ∃ a, matchingRelationships ((MoveDepartment scenarioC).run worldD).2.entities
          "TX00001_min_1" "TX00003_dep_1" "AS_DEPARTMENT" = [a]
        ∧ a.id = "TX00001_min_1_TX00003_dep_1" ∧ a.endTime = "2024-03-01T00:00:00Z" :=
  MoveDepartment_moves scenarioC worldD _ "Ministry of Wellness" "Ministry of Health"
    "Health Planning" "2024-03-01" { year := 2024, month := 3, day := 1 } ministryOfWellness
    healthPlanning healthWithPlanning (by decide) (by decide) (by decide) (by decide)
    (by decide) (by decide) (by decide) (by decide) (by decide) (by decide) (by decide)
    (by decide) (run_eq_of_fst (by decide))

/-! ## The key discipline is kept by every write of the operations -/

/-- The store that holds the government node only follows the key discipline. -/
theorem wellFormed_government :
    WellFormed [governmentEntity] ∧ UniqueIDs [governmentEntity] := by
  constructor
  · decide
  · simp [UniqueIDs]

/-- Creating an entity built by the Add operations keeps the key discipline. -/
theorem wellFormed_create {es : List Entity} (hwf : WellFormed es)
    (id major minor dateISO name : String) :
    WellFormed (es ++ [newEntity id major minor dateISO name]) := by
  intro e he
  rcases List.mem_append.mp he with h | h
  · exact hwf e h
  · rw [List.mem_singleton] at h
    subst h
    exact ⟨by simp [newEntity], by simp [newEntity]⟩

theorem wellKeyed_attach {e : Entity} (hwk : WellKeyed e) (c dateISO name : String) :
    WellKeyed (mergeEntity e (relationshipUpdate e.id (newRelationship e.id c dateISO name))) := by
  have hrels : (mergeEntity e
      (relationshipUpdate e.id (newRelationship e.id c dateISO name))).relationships
      = upsertRelationship e.relationships
          { key := e.id ++ "_" ++ c, value := newRelationship e.id c dateISO name } := by
    simp [mergeEntity, relationshipUpdate, newRelationship]
  unfold WellKeyed
  rw [hrels, mergeEntity_id]
  by_cases hk : (e.id ++ "_" ++ c) ∈ e.relationships.map (fun r => r.key)
  · rw [upsert_of_key_mem _ _ _ hwk.2 hk]
    constructor
    · intro r hr
      rw [List.mem_map] at hr
      obtain ⟨r0, hr0, hrr⟩ := hr
      have h0 := hwk.1 r0 hr0
      by_cases hkey : r0.key = e.id ++ "_" ++ c
      · rw [if_pos hkey] at hrr
        subst hrr
        have hrel : r0.value.relatedEntityID = c := by
          have : e.id ++ "_" ++ r0.value.relatedEntityID = e.id ++ "_" ++ c := by
            rw [← h0.2, ← h0.1, hkey]
          exact string_append_left_cancel (a := e.id ++ "_") (by
            simpa [String.append_assoc] using this)
        have hid0 : r0.value.id = e.id ++ "_" ++ c := by rw [← h0.1, hkey]
        simp [mergeRelationship, newRelationship, hkey, hrel, hid0]
      · rw [if_neg hkey] at hrr
        subst hrr
        exact h0
    · have : (e.relationships.map (fun r =>
          if r.key = e.id ++ "_" ++ c then
            { key := r.key,
              value := mergeRelationship r.value (newRelationship e.id c dateISO name) }
          else r)).map (fun r => r.key) = e.relationships.map (fun r => r.key) := by
        rw [List.map_map]
        apply List.map_congr_left
        intro r _
        by_cases h : r.key = e.id ++ "_" ++ c <;> simp [h]
      rw [this]
      exact hwk.2
  · rw [upsert_of_key_not_mem _ _ _ hk]
    constructor
    · intro r hr
      rcases List.mem_append.mp hr with h | h
      · exact hwk.1 r h
      · rw [List.mem_singleton] at h
        subst h
        exact ⟨rfl, rfl⟩
    · rw [List.map_append, List.nodup_append]
      refine ⟨hwk.2, by simp, ?_⟩
      intro x hx hx'
      simp only [List.map_cons, List.map_nil, List.mem_singleton] at hx'
      subst hx'
      exact hk hx

/-- The attach update issued by the operations keeps the key discipline. -/
theorem wellFormed_attach {es : List Entity} (hwf : WellFormed es)
    (i c dateISO name : String) :
    WellFormed
      (applyUpdate es i (relationshipUpdate i (newRelationship i c dateISO name))) := by
  intro e he
  unfold applyUpdate at he
  rw [List.mem_map] at he
  obtain ⟨e0, he0, hee⟩ := he
  by_cases h : e0.id = i
  · rw [if_pos h] at hee
    subst hee
    subst h
    exact wellKeyed_attach (hwf e0 he0) c dateISO name
  · rw [if_neg h] at hee
    subst hee
    exact hwf e0 he0

theorem wellKeyed_end {e : Entity} (hwk : WellKeyed e) {a : RelationshipEntry}
    (ha : a ∈ e.relationships) (dateISO : String) :
    WellKeyed (mergeEntity e (relationshipUpdate e.id (endRelationship a.value.id dateISO))) := by
  have hrels : (mergeEntity e
      (relationshipUpdate e.id (endRelationship a.value.id dateISO))).relationships
      = upsertRelationship e.relationships
          { key := a.value.id, value := endRelationship a.value.id dateISO } := by
    simp [mergeEntity, relationshipUpdate, endRelationship]
  have hakey := (hwk.1 a ha).1
  have hk : a.value.id ∈ e.relationships.map (fun r => r.key) := by
    rw [List.mem_map]
    exact ⟨a, ha, hakey⟩
  unfold WellKeyed
  rw [hrels, mergeEntity_id, upsert_of_key_mem _ _ _ hwk.2 hk]
  constructor
  · intro r hr
    rw [List.mem_map] at hr
    obtain ⟨r0, hr0, hrr⟩ := hr
    have h0 := hwk.1 r0 hr0
    by_cases hkey : r0.key = a.value.id
    · rw [if_pos hkey] at hrr
      subst hrr
      have hid0 : r0.value.id = a.value.id := by rw [← h0.1, hkey]
      have := h0.2
      simp [mergeRelationship, endRelationship, hkey, hid0]
      rw [← hid0]
      exact this
    · rw [if_neg hkey] at hrr
      subst hrr
      exact h0
  · have : (e.relationships.map (fun r =>
        if r.key = a.value.id then
          { key := r.key,
            value := mergeRelationship r.value (endRelationship a.value.id dateISO) }
        else r)).map (fun r => r.key) = e.relationships.map (fun r => r.key) := by
      rw [List.map_map]
      apply List.map_congr_left
      intro r _
      by_cases h : r.key = a.value.id <;> simp [h]
    rw [this]
    exact hwk.2

theorem applyUpdate_ids (es : List Entity) (i : String) (p : Entity) :
    (applyUpdate es i p).map (fun e => e.id) = es.map (fun e => e.id) := by
  unfold applyUpdate
  rw [List.map_map]
  apply List.map_congr_left
  intro e _
  by_cases h : e.id = i <;> simp [h]

/-- Entity IDs stay unique under `CreateEntity`, which refuses an ID in use. -/
theorem uniqueIDs_create {es : List Entity} (hu : UniqueIDs es) {e : Entity}
    (hfresh : hasID es e.id = false) : UniqueIDs (es ++ [e]) := by
  unfold UniqueIDs at hu ⊢
  rw [List.map_append, List.nodup_append]
  refine ⟨hu, by simp, ?_⟩
  intro x hx hx'
  simp only [List.map_cons, List.map_nil, List.mem_singleton] at hx'
  subst hx'
  rw [List.mem_map] at hx
  obtain ⟨y, hy, hyid⟩ := hx
  exact hasID_eq_false.mp hfresh y hy hyid

/-- Entity IDs stay unique under `UpdateEntity`. -/
theorem uniqueIDs_update {es : List Entity} (hu : UniqueIDs es) (i : String) (p : Entity) :
    UniqueIDs (applyUpdate es i p) := by
  unfold UniqueIDs
  rw [applyUpdate_ids]
  exact hu

/-- The terminate update issued by the operations, which carries the ID of a
relationship that the parent owns, keeps the key discipline. -/
theorem wellFormed_end {es : List Entity} (hwf : WellFormed es) (hu : UniqueIDs es)
    {i : String} {a : Relationship} (ha : a ∈ relationshipsOf es i) (dateISO : String) :
    WellFormed (applyUpdate es i (relationshipUpdate i (endRelationship a.id dateISO))) := by
  rw [relationshipsOf_eq_map, List.mem_map] at ha
  obtain ⟨a0, ha0, haa⟩ := ha
  unfold entriesOf at ha0
  cases hf : findEntity es i with
  | none => simp [hf] at ha0
  | some e1 =>
    simp only [hf] at ha0
    have he1 := findEntity_mem hf
    have hid1 := findEntity_id hf
    intro e he
    unfold applyUpdate at he
    rw [List.mem_map] at he
    obtain ⟨e0, he0, hee⟩ := he
    by_cases h : e0.id = i
    · rw [if_pos h] at hee
      subst hee
      have h01 : e0 = e1 := List.inj_on_of_nodup_map hu he0 he1 (by rw [h, hid1])
      subst h01
      have := wellKeyed_end (hwf e0 he0) ha0 dateISO
      rw [haa, h] at this
      exact this
    · rw [if_neg h] at hee
      subst hee
      exact hwf e0 he0

/-! ## The invariant of the store holds in every reachable state

Each primitive keeps the key discipline and the uniqueness of entity IDs; the
operations are sequences of primitives, so they keep them too, whatever their
outcome. -/

theorem preserves_pure {α : Type} (a : α) : Preserves (pure a : Op α) :=
  ⟨fun _ h => h⟩

theorem preserves_fail {α : Type} (msg : String) : Preserves (fail msg : Op α) :=
  ⟨fun _ h => h⟩

theorem preserves_panicWith {α : Type} (msg : String) : Preserves (panicWith msg : Op α) :=
  ⟨fun _ h => h⟩

theorem preserves_unmodelled {α : Type} (what : String) :
    Preserves (unmodelled what : Op α) :=
  ⟨fun _ h => h⟩

theorem preserves_slice (s : String) (n : Nat) : Preserves (slice s n) := by
  constructor
  intro w h
  rw [run_slice]
  cases sliceTo s n <;> exact h

theorem preserves_getCounters : Preserves getCounters :=
  ⟨fun _ h => h⟩

theorem preserves_setCounters (cs : Counters) : Preserves (setCounters cs) :=
  ⟨fun _ h => h⟩

theorem preserves_assertString (v : Value) : Preserves (assertString v) := by
  constructor
  intro w h
  cases v <;> exact h

theorem preserves_requireString (tx : Transaction) (key : String) :
    Preserves (requireString tx key) := by
  constructor
  intro w h
  unfold requireString
  split
  · split <;> exact h
  · exact h

theorem preserves_parseDate (dateStr : String) : Preserves (parseDate dateStr) := by
  constructor
  intro w h
  unfold parseDate
  split <;> exact h

theorem preserves_bind {α β : Type} {m : Op α} {f : α → Op β}
    (hm : Preserves m) (hf : ∀ a, Preserves (f a)) : Preserves (m >>= f) := by
  constructor
  intro w h
  have h1 := hm.keeps w h
  rw [run_bind]
  cases hr : m.run w with
  | mk res w1 =>
    rw [hr] at h1
    cases res with
    | ok a => exact (hf a).keeps w1 h1
    | error e => exact h1
    | panic e => exact h1
    | unmodelled e => exact h1

theorem preserves_wrapError {α : Type} (pfx : String) {m : Op α} (hm : Preserves m) :
    Preserves (wrapError pfx m) := by
  constructor
  intro w h
  have h1 := hm.keeps w h
  rw [run_wrapError]
  cases hr : m.run w with
  | mk res w1 =>
    rw [hr] at h1
    cases res <;> exact h1

theorem preserves_SearchEntities (c : SearchCriteria) : Preserves (SearchEntities c) :=
  ⟨fun _ h => h⟩

theorem preserves_GetAllRelatedEntities (id : String) : Preserves (GetAllRelatedEntities id) :=
  ⟨fun _ h => h⟩

theorem preserves_GetRelatedEntities (id : String) (q : Relationship) :
    Preserves (GetRelatedEntities id q) :=
  ⟨fun _ h => h⟩

theorem preserves_CreateEntity (id major minor dateISO name : String) :
    Preserves (CreateEntity (newEntity id major minor dateISO name)) := by
  constructor
  intro w h
  rw [run_CreateEntity]
  cases hid : hasID w.entities (newEntity id major minor dateISO name).id with
  | true => simpa using h
  | false =>
    simp only [Bool.false_eq_true, if_false]
    exact ⟨wellFormed_create h.1 _ _ _ _ _, uniqueIDs_create h.2 hid⟩

theorem preserves_attach (i c dateISO name : String) :
    Preserves (UpdateEntity i (relationshipUpdate i (newRelationship i c dateISO name))) := by
  constructor
  intro w h
  rw [run_UpdateEntity]
  cases hid : hasID w.entities i with
  | false => simpa using h
  | true =>
    simp only [if_true]
    exact ⟨wellFormed_attach h.1 _ _ _ _, uniqueIDs_update h.2 _ _⟩

theorem preserves_terminateActive (parentID childID relType dateISO : String) :
    Preserves (terminateActive parentID childID relType dateISO) := by
  constructor
  intro w h
  rw [run_terminateActive]
  cases hsel : selectedRelationship w parentID childID relType dateISO with
  | none => exact h
  | some a =>
    exact ⟨wellFormed_end h.1 h.2 (selectedRelationship_mem hsel).1 _, uniqueIDs_update h.2 _ _⟩

theorem preserves_CreateGovernmentNode : Preserves CreateGovernmentNode := by
  unfold CreateGovernmentNode
  apply preserves_wrapError
  exact preserves_CreateEntity _ _ _ _ _

theorem preserves_AddOrgEntity (tx : Transaction) : Preserves (AddOrgEntity tx) := by
  unfold AddOrgEntity
  repeat (first
    | exact preserves_pure _ | exact preserves_fail _ | exact preserves_panicWith _
    | exact preserves_unmodelled _ | exact preserves_slice _ _
    | exact preserves_getCounters | exact preserves_setCounters _
    | exact preserves_assertString _ | exact preserves_requireString _ _
    | exact preserves_parseDate _ | exact preserves_SearchEntities _
    | exact preserves_GetAllRelatedEntities _ | exact preserves_GetRelatedEntities _ _
    | exact preserves_CreateEntity _ _ _ _ _ | exact preserves_attach _ _ _ _
    | exact preserves_terminateActive _ _ _ _
    | assumption
    | apply preserves_wrapError | apply preserves_bind | intro _ | split | dsimp only)

theorem preserves_TerminateOrgEntity (tx : Transaction) : Preserves (TerminateOrgEntity tx) := by
  unfold TerminateOrgEntity
  repeat (first
    | exact preserves_pure _ | exact preserves_fail _ | exact preserves_panicWith _
    | exact preserves_unmodelled _ | exact preserves_slice _ _
    | exact preserves_getCounters | exact preserves_setCounters _
    | exact preserves_assertString _ | exact preserves_requireString _ _
    | exact preserves_parseDate _ | exact preserves_SearchEntities _
    | exact preserves_GetAllRelatedEntities _ | exact preserves_GetRelatedEntities _ _
    | exact preserves_CreateEntity _ _ _ _ _ | exact preserves_attach _ _ _ _
    | exact preserves_terminateActive _ _ _ _
    | assumption
    | apply preserves_wrapError | apply preserves_bind | intro _ | split | dsimp only)

theorem preserves_MoveDepartment (tx : Transaction) : Preserves (MoveDepartment tx) := by
  unfold MoveDepartment
  repeat (first
    | exact preserves_pure _ | exact preserves_fail _ | exact preserves_panicWith _
    | exact preserves_unmodelled _ | exact preserves_slice _ _
    | exact preserves_getCounters | exact preserves_setCounters _
    | exact preserves_assertString _ | exact preserves_requireString _ _
    | exact preserves_parseDate _ | exact preserves_SearchEntities _
    | exact preserves_GetAllRelatedEntities _ | exact preserves_GetRelatedEntities _ _
    | exact preserves_CreateEntity _ _ _ _ _ | exact preserves_attach _ _ _ _
    | exact preserves_terminateActive _ _ _ _
    | exact preserves_TerminateOrgEntity _
    | assumption
    | apply preserves_wrapError | apply preserves_bind | intro _ | split | dsimp only)

theorem preserves_transferDepartments (oldName dateStr dateISO newMinisterID : String)
    (rels : List Relationship) :
    Preserves (transferDepartments oldName dateStr dateISO newMinisterID rels) := by
  induction rels with
  | nil => exact preserves_pure _
  | cons rel rest ih =>
    unfold transferDepartments
    repeat (first
      | exact preserves_pure _ | exact preserves_fail _ | exact preserves_panicWith _
      | exact preserves_unmodelled _ | exact preserves_slice _ _
      | exact preserves_getCounters | exact preserves_setCounters _
      | exact preserves_assertString _ | exact preserves_requireString _ _
      | exact preserves_parseDate _ | exact preserves_SearchEntities _
      | exact preserves_GetAllRelatedEntities _ | exact preserves_GetRelatedEntities _ _
      | exact preserves_CreateEntity _ _ _ _ _ | exact preserves_attach _ _ _ _
      | exact preserves_terminateActive _ _ _ _
      | exact preserves_TerminateOrgEntity _
      | assumption
      | apply preserves_wrapError | apply preserves_bind | intro _ | split | dsimp only)

theorem preserves_RenameMinister (tx : Transaction) : Preserves (RenameMinister tx) := by
  unfold RenameMinister
  repeat (first
    | exact preserves_pure _ | exact preserves_fail _ | exact preserves_panicWith _
    | exact preserves_unmodelled _ | exact preserves_slice _ _
    | exact preserves_getCounters | exact preserves_setCounters _
    | exact preserves_assertString _ | exact preserves_requireString _ _
    | exact preserves_parseDate _ | exact preserves_SearchEntities _
    | exact preserves_GetAllRelatedEntities _ | exact preserves_GetRelatedEntities _ _
    | exact preserves_CreateEntity _ _ _ _ _ | exact preserves_attach _ _ _ _
    | exact preserves_terminateActive _ _ _ _
    | exact preserves_TerminateOrgEntity _
    | exact preserves_AddOrgEntity _
    | exact preserves_transferDepartments _ _ _ _ _
    | assumption
    | apply preserves_wrapError | apply preserves_bind | intro _ | split | dsimp only)

theorem preserves_findActiveMinister (oldDepartmentID : String) (ministers : List SearchResult)
    (found : String × String) :
    Preserves (findActiveMinister oldDepartmentID ministers found) := by
  induction ministers generalizing found with
  | nil => exact preserves_pure _
  | cons minister rest ih =>
    unfold findActiveMinister
    repeat (first
      | exact preserves_pure _ | exact preserves_fail _ | exact preserves_panicWith _
      | exact preserves_unmodelled _ | exact preserves_slice _ _
      | exact preserves_getCounters | exact preserves_setCounters _
      | exact preserves_assertString _ | exact preserves_requireString _ _
      | exact preserves_parseDate _ | exact preserves_SearchEntities _
      | exact preserves_GetAllRelatedEntities _ | exact preserves_GetRelatedEntities _ _
      | exact preserves_CreateEntity _ _ _ _ _ | exact preserves_attach _ _ _ _
      | exact preserves_terminateActive _ _ _ _
      | exact ih _
      | assumption
      | apply preserves_wrapError | apply preserves_bind | intro _ | split | dsimp only)

theorem preserves_RenameDepartment (tx : Transaction) : Preserves (RenameDepartment tx) := by
  unfold RenameDepartment
  repeat (first
    | exact preserves_pure _ | exact preserves_fail _ | exact preserves_panicWith _
    | exact preserves_unmodelled _ | exact preserves_slice _ _
    | exact preserves_getCounters | exact preserves_setCounters _
    | exact preserves_assertString _ | exact preserves_requireString _ _
    | exact preserves_parseDate _ | exact preserves_SearchEntities _
    | exact preserves_GetAllRelatedEntities _ | exact preserves_GetRelatedEntities _ _
    | exact preserves_CreateEntity _ _ _ _ _ | exact preserves_attach _ _ _ _
    | exact preserves_terminateActive _ _ _ _
    | exact preserves_TerminateOrgEntity _
    | exact preserves_AddOrgEntity _
    | exact preserves_findActiveMinister _ _ _
    | assumption
    | apply preserves_wrapError | apply preserves_bind | intro _ | split | dsimp only)

theorem preserves_moveDepartments (oldMinister newMinister dateStr : String)
    (rels : List Relationship) :
    Preserves (moveDepartments oldMinister newMinister dateStr rels) := by
  induction rels with
  | nil => exact preserves_pure _
  | cons rel rest ih =>
    unfold moveDepartments
    repeat (first
      | exact preserves_pure _ | exact preserves_fail _ | exact preserves_panicWith _
      | exact preserves_unmodelled _ | exact preserves_slice _ _
      | exact preserves_getCounters | exact preserves_setCounters _
      | exact preserves_assertString _ | exact preserves_requireString _ _
      | exact preserves_parseDate _ | exact preserves_SearchEntities _
      | exact preserves_GetAllRelatedEntities _ | exact preserves_GetRelatedEntities _ _
      | exact preserves_CreateEntity _ _ _ _ _ | exact preserves_attach _ _ _ _
      | exact preserves_terminateActive _ _ _ _
      | exact preserves_MoveDepartment _
      | assumption
      | apply preserves_wrapError | apply preserves_bind | intro _ | split | dsimp only)

theorem preserves_mergeOldMinisters (newMinister dateStr dateISO newMinisterID : String)
    (olds : List String) :
    Preserves (mergeOldMinisters newMinister dateStr dateISO newMinisterID olds) := by
  induction olds with
  | nil => exact preserves_pure _
  | cons oldMinister rest ih =>
    unfold mergeOldMinisters
    repeat (first
      | exact preserves_pure _ | exact preserves_fail _ | exact preserves_panicWith _
      | exact preserves_unmodelled _ | exact preserves_slice _ _
      | exact preserves_getCounters | exact preserves_setCounters _
      | exact preserves_assertString _ | exact preserves_requireString _ _
      | exact preserves_parseDate _ | exact preserves_SearchEntities _
      | exact preserves_GetAllRelatedEntities _ | exact preserves_GetRelatedEntities _ _
      | exact preserves_CreateEntity _ _ _ _ _ | exact preserves_attach _ _ _ _
      | exact preserves_terminateActive _ _ _ _
      | exact preserves_TerminateOrgEntity _
      | exact preserves_moveDepartments _ _ _ _
      | assumption
      | apply preserves_wrapError | apply preserves_bind | intro _ | split | dsimp only)

theorem preserves_MergeMinisters (tx : Transaction) : Preserves (MergeMinisters tx) := by
  unfold MergeMinisters
  repeat (first
    | exact preserves_pure _ | exact preserves_fail _ | exact preserves_panicWith _
    | exact preserves_unmodelled _ | exact preserves_slice _ _
    | exact preserves_getCounters | exact preserves_setCounters _
    | exact preserves_assertString _ | exact preserves_requireString _ _
    | exact preserves_parseDate _ | exact preserves_SearchEntities _
    | exact preserves_GetAllRelatedEntities _ | exact preserves_GetRelatedEntities _ _
    | exact preserves_CreateEntity _ _ _ _ _ | exact preserves_attach _ _ _ _
    | exact preserves_terminateActive _ _ _ _
    | exact preserves_AddOrgEntity _
    | exact preserves_mergeOldMinisters _ _ _ _ _
    | assumption
    | apply preserves_wrapError | apply preserves_bind | intro _ | split | dsimp only)

theorem preserves_AddPersonEntity (tx : Transaction) : Preserves (AddPersonEntity tx) := by
  unfold AddPersonEntity
  repeat (first
    | exact preserves_pure _ | exact preserves_fail _ | exact preserves_panicWith _
    | exact preserves_unmodelled _ | exact preserves_slice _ _
    | exact preserves_getCounters | exact preserves_setCounters _
    | exact preserves_assertString _ | exact preserves_requireString _ _
    | exact preserves_parseDate _ | exact preserves_SearchEntities _
    | exact preserves_GetAllRelatedEntities _ | exact preserves_GetRelatedEntities _ _
    | exact preserves_CreateEntity _ _ _ _ _ | exact preserves_attach _ _ _ _
    | exact preserves_terminateActive _ _ _ _
    | assumption
    | apply preserves_wrapError | apply preserves_bind | intro _ | split | dsimp only)

theorem preserves_TerminatePersonEntity (tx : Transaction) : Preserves (TerminatePersonEntity tx) := by
  unfold TerminatePersonEntity
  repeat (first
    | exact preserves_pure _ | exact preserves_fail _ | exact preserves_panicWith _
    | exact preserves_unmodelled _ | exact preserves_slice _ _
    | exact preserves_getCounters | exact preserves_setCounters _
    | exact preserves_assertString _ | exact preserves_requireString _ _
    | exact preserves_parseDate _ | exact preserves_SearchEntities _
    | exact preserves_GetAllRelatedEntities _ | exact preserves_GetRelatedEntities _ _
    | exact preserves_CreateEntity _ _ _ _ _ | exact preserves_attach _ _ _ _
    | exact preserves_terminateActive _ _ _ _
    | assumption
    | apply preserves_wrapError | apply preserves_bind | intro _ | split | dsimp only)

theorem preserves_MovePerson (tx : Transaction) : Preserves (MovePerson tx) := by
  unfold MovePerson
  repeat (first
    | exact preserves_pure _ | exact preserves_fail _ | exact preserves_panicWith _
    | exact preserves_unmodelled _ | exact preserves_slice _ _
    | exact preserves_getCounters | exact preserves_setCounters _
    | exact preserves_assertString _ | exact preserves_requireString _ _
    | exact preserves_parseDate _ | exact preserves_SearchEntities _
    | exact preserves_GetAllRelatedEntities _ | exact preserves_GetRelatedEntities _ _
    | exact preserves_CreateEntity _ _ _ _ _ | exact preserves_attach _ _ _ _
    | exact preserves_terminateActive _ _ _ _
    | exact preserves_TerminatePersonEntity _
    | assumption
    | apply preserves_wrapError | apply preserves_bind | intro _ | split | dsimp only)

theorem preserves_AddDocumentEntity (tx : Transaction) : Preserves (AddDocumentEntity tx) := by
  unfold AddDocumentEntity
  repeat (first
    | exact preserves_pure _ | exact preserves_fail _ | exact preserves_panicWith _
    | exact preserves_unmodelled _ | exact preserves_slice _ _
    | exact preserves_getCounters | exact preserves_setCounters _
    | exact preserves_assertString _ | exact preserves_requireString _ _
    | exact preserves_parseDate _ | exact preserves_SearchEntities _
    | exact preserves_GetAllRelatedEntities _ | exact preserves_GetRelatedEntities _ _
    | exact preserves_CreateEntity _ _ _ _ _ | exact preserves_attach _ _ _ _
    | exact preserves_terminateActive _ _ _ _
    | assumption
    | apply preserves_wrapError | apply preserves_bind | intro _ | split | dsimp only)

/-- The invariant holds in every state that a sequence of calls of the operations
reaches from a state that has it, in particular from the empty store. -/
theorem storeInvariant_stateAfterAll (ops : List Operation) (w : World)
    (h : StoreInvariant w.entities) : StoreInvariant (stateAfterAll ops w).entities := by
  unfold stateAfterAll
  induction ops generalizing w with
  | nil => exact h
  | cons op rest ih =>
    rw [List.foldl_cons]
    apply ih
    cases op with
    | createGovernmentNode => exact preserves_CreateGovernmentNode.keeps w h
    | addOrgEntity tx => exact (preserves_AddOrgEntity tx).keeps w h
    | terminateOrgEntity tx => exact (preserves_TerminateOrgEntity tx).keeps w h
    | moveDepartment tx => exact (preserves_MoveDepartment tx).keeps w h
    | renameMinister tx => exact (preserves_RenameMinister tx).keeps w h
    | renameDepartment tx => exact (preserves_RenameDepartment tx).keeps w h
    | mergeMinisters tx => exact (preserves_MergeMinisters tx).keeps w h
    | addPersonEntity tx => exact (preserves_AddPersonEntity tx).keeps w h
    | terminatePersonEntity tx => exact (preserves_TerminatePersonEntity tx).keeps w h
    | movePerson tx => exact (preserves_MovePerson tx).keeps w h
    | addDocumentEntity tx => exact (preserves_AddDocumentEntity tx).keeps w h

/-- The empty store has the invariant. -/
theorem storeInvariant_nil : StoreInvariant [] :=
  ⟨fun _ h => absurd h (List.not_mem_nil _), List.nodup_nil⟩

/-! ## Composite operations on a shared name -/

/-- C5, failing inputs: (1) "Ministry of Health", with one active department, is
renamed to its own name; (2) after a rename of "Ministry of Health" to "Ministry of
Wellbeing", the minister is renamed back to "Ministry of Health". Both calls
succeed; the minister they create owns no relationship, and the department that
was active under the old minister is active under no entity at all. -/
theorem RenameMinister_shared_name_loses_departments :
    (∃ r ∈ relationshipsOf worldC.entities "TX00001_min_1",
        r.relatedEntityID = "TX00003_dep_1" ∧ r.name = "AS_DEPARTMENT" ∧ r.endTime = "")
    ∧ ((RenameMinister
          (renameTransaction "Ministry of Health" "Ministry of Health" "2024-04-01"
            "TX00005")).run worldC).1 = Result.ok 2
    ∧ relationshipsOf
        ((RenameMinister
          (renameTransaction "Ministry of Health" "Ministry of Health" "2024-04-01"
            "TX00005")).run worldC).2.entities "TX00005_min_2" = []
    ∧ noActiveParent
        ((RenameMinister
          (renameTransaction "Ministry of Health" "Ministry of Health" "2024-04-01"
            "TX00005")).run worldC).2.entities "TX00003_dep_1" = true
    ∧ (∃ r ∈ relationshipsOf worldRenamed.entities "TX00005_min_2",
        r.relatedEntityID = "TX00003_dep_1" ∧ r.name = "AS_DEPARTMENT" ∧ r.endTime = "")
    ∧ ((RenameMinister
          (renameTransaction "Ministry of Wellbeing" "Ministry of Health" "2024-05-01"
            "TX00006")).run worldRenamed).1 = Result.ok 3
    ∧ relationshipsOf
        ((RenameMinister
          (renameTransaction "Ministry of Wellbeing" "Ministry of Health" "2024-05-01"
            "TX00006")).run worldRenamed).2.entities "TX00006_min_3" = []
    ∧ noActiveParent
        ((RenameMinister
          (renameTransaction "Ministry of Wellbeing" "Ministry of Health" "2024-05-01"
            "TX00006")).run worldRenamed).2.entities "TX00003_dep_1" = true := by
  decide!

/-- C6, failing input: "Ministry of Health" (one active department) and "Ministry
of Wellness" are merged into a minister named "Ministry of Health". The call
succeeds; the minister it creates owns no relationship, and the department
that was active under "Ministry of Health" is active under no entity at all. -/
theorem MergeMinisters_shared_name_loses_departments :
    (∃ r ∈ relationshipsOf worldD.entities "TX00001_min_1",
        r.relatedEntityID = "TX00003_dep_1" ∧ r.name = "AS_DEPARTMENT" ∧ r.endTime = "")
    ∧ ((MergeMinisters
          (mergeTransaction "[Ministry of Health, Ministry of Wellness]" "Ministry of Health"
            "2024-05-01" "TX00007")).run worldD).1 = Result.ok 3
    ∧ relationshipsOf
        ((MergeMinisters
          (mergeTransaction "[Ministry of Health, Ministry of Wellness]" "Ministry of Health"
            "2024-05-01" "TX00007")).run worldD).2.entities "TX00007_min_3" = []
    ∧ noActiveParent
        ((MergeMinisters
          (mergeTransaction "[Ministry of Health, Ministry of Wellness]" "Ministry of Health"
            "2024-05-01" "TX00007")).run worldD).2.entities "TX00003_dep_1" = true
    ∧ (relationshipsOf
        ((MergeMinisters
          (mergeTransaction "[Ministry of Health, Ministry of Wellness]" "Ministry of Health"
            "2024-05-01" "TX00007")).run worldD).2.entities "TX00002_min_2").map
          (fun r => (r.relatedEntityID, r.name))
        = [("TX00001_min_1", "MERGED_INTO")] := by
  decide!

/-- C7, failing inputs: (1) "Health Planning" is renamed to its own name; (2)
after a rename of "Health Planning" to "Health Strategy", the department is
renamed back to "Health Planning". Both calls succeed and create a department
(`TX00008_dep_2`, `TX00009_dep_3`); the `RENAMED_TO` relationship of the old
department does not point to it, but to the first department of that name. -/
theorem RenameDepartment_shared_name_points_elsewhere :
    ((RenameDepartment
        (renameTransaction "Health Planning" "Health Planning" "2024-04-01"
          "TX00008")).run worldC).1 = Result.ok 2
    ∧ ((RenameDepartment
        (renameTransaction "Health Planning" "Health Planning" "2024-04-01"
          "TX00008")).run worldC).2.entities.map (fun e => e.id)
        = ["gov_01", "TX00001_min_1", "TX00003_dep_1", "TX00008_dep_2"]
    ∧ (relationshipsOf
        ((RenameDepartment
          (renameTransaction "Health Planning" "Health Planning" "2024-04-01"
            "TX00008")).run worldC).2.entities "TX00003_dep_1").map
          (fun r => (r.relatedEntityID, r.name))
        = [("TX00003_dep_1", "RENAMED_TO")]
    ∧ ((RenameDepartment
        (renameTransaction "Health Strategy" "Health Planning" "2024-05-01"
          "TX00009")).run worldDepartmentRenamed).1 = Result.ok 3
    ∧ ((RenameDepartment
        (renameTransaction "Health Strategy" "Health Planning" "2024-05-01"
          "TX00009")).run worldDepartmentRenamed).2.entities.map (fun e => e.id)
        = ["gov_01", "TX00001_min_1", "TX00003_dep_1", "TX00008_dep_2", "TX00009_dep_3"]
    ∧ (relationshipsOf
        ((RenameDepartment
          (renameTransaction "Health Strategy" "Health Planning" "2024-05-01"
            "TX00009")).run worldDepartmentRenamed).2.entities "TX00008_dep_2").map
          (fun r => (r.relatedEntityID, r.name))
        = [("TX00003_dep_1", "RENAMED_TO")] := by
  decide!

/-- Loop of `RenameDepartment` when no minister owns an active `AS_DEPARTMENT`
relationship to the department: one relation read per minister, nothing found. -/
theorem run_findActiveMinister_none (dep : String) (ministers : List SearchResult)
    (found : String × String) (w : World) (hfound : found.1 = "")
    (hnone : ∀ m ∈ ministers,
      (relationshipsOf w.entities m.id).any (activeDepartmentTo dep) = false) :
    (findActiveMinister dep ministers found).run w =
      (Result.ok found,
        { w with calls := (w.calls ++
            ministers.map (fun m => StoreCall.getAllRelatedEntities m.id)) }) := by
  induction ministers generalizing w with
  | nil => simp [findActiveMinister]
  | cons m rest ih =>
    have hm := hnone m (List.mem_cons_self _ _)
    unfold findActiveMinister
    simp only [run_bind, run_wrapError, run_GetAllRelatedEntities, hm, Bool.false_eq_true,
      if_false, hfound, ne_eq, not_true_eq_false]
    rw [ih { w with calls := w.calls ++ [StoreCall.getAllRelatedEntities m.id] }
      (fun x hx => hnone x (List.mem_cons_of_mem _ hx))]
    simp

/-- When no minister owns an active `AS_DEPARTMENT` relationship to the old
department, `RenameDepartment` returns the no-active-minister error after
reads only: the store contents are unchanged. -/
theorem RenameDepartment_no_active_minister (tx : Transaction) (w : World)
    (oldName newName dateStr transactionID : String) (d : Date) (D : Entity)
    (hold : tx.get "old" = Value.str oldName)
    (hnew : tx.get "new" = Value.str newName)
    (hdate : tx.get "date" = Value.str dateStr)
    (htx : tx.get "transaction_id" = Value.str transactionID)
    (hd : timeParse (TrimSpace dateStr) = some d)
    (hD : resolve w.entities (orgCriteria "department" oldName) = some D)
    (hnone : ∀ m ∈ searchResults w.entities (orgCriteria "minister" ""),
      (relationshipsOf w.entities m.id).any (activeDepartmentTo D.id) = false) :
    (RenameDepartment tx).run w =
      (Result.error ("no active minister relationship found for department: " ++ oldName),
        { w with calls := (w.calls ++
            [StoreCall.searchEntities (orgCriteria "department" oldName),
             StoreCall.searchEntities (orgCriteria "minister" "")] ++
            (searchResults w.entities (orgCriteria "minister" "")).map
              (fun m => StoreCall.getAllRelatedEntities m.id)) }) := by
  obtain ⟨rest, hrest⟩ := searchResults_of_resolve hD
  unfold RenameDepartment
  simp only [run_bind, hold, hnew, hdate, htx, run_assertString, run_parseDate _ hd,
    run_wrapError, run_SearchEntities, hrest, toSearchResult_id]
  rw [run_findActiveMinister_none D.id _ ("", "")
    { w with calls := w.calls ++ [StoreCall.searchEntities (orgCriteria "department" oldName)]
        ++ [StoreCall.searchEntities (orgCriteria "minister" "")] } rfl hnone]
  simp

/-! ## AddPersonEntity, AddDocumentEntity -/

theorem run_requireString {tx : Transaction} {key s : String} (w : World)
    (h : tx.get key = Value.str s) (hne : s ≠ "") :
    (requireString tx key).run w = (Result.ok s, w) := by
  simp [requireString, h, hne]

theorem searchResults_length (es : List Entity) (c : SearchCriteria) :
    (searchResults es c).length = (es.filter (matchesCriteria c)).length := by
  simp [searchResults]

theorem run_AddPersonEntity_found (tx : Transaction) (w : World)
    (parent child dateStr parentType childType relType transactionID : String)
    (d : Date) (P : Entity)
    (hparent : tx.get "parent" = Value.str parent)
    (hchild : tx.get "child" = Value.str child)
    (hdate : tx.get "date" = Value.str dateStr)
    (hparentType : tx.get "parent_type" = Value.str parentType)
    (hchildType : tx.get "child_type" = Value.str childType)
    (hrelType : tx.get "rel_type" = Value.str relType)
    (htx : tx.get "transaction_id" = Value.str transactionID)
    (hd : timeParse (TrimSpace dateStr) = some d)
    (hP : resolve w.entities (orgCriteria parentType parent) = some P) :
    (∀ E, w.entities.filter (matchesCriteria (anyPersonCriteria child)) = [E] →
      (AddPersonEntity tx).run w =
        (Result.ok (w.counters.read childType),
          { w with
            entities := applyUpdate w.entities P.id
              (relationshipUpdate P.id (newRelationship P.id E.id (formatRFC3339 d) relType))
            calls := w.calls ++
              [StoreCall.searchEntities (orgCriteria parentType parent),
               StoreCall.searchEntities (anyPersonCriteria child),
               StoreCall.updateEntity P.id
                 (relationshipUpdate P.id
                   (newRelationship P.id E.id (formatRFC3339 d) relType))] }))
    ∧ (1 < (w.entities.filter (matchesCriteria (anyPersonCriteria child))).length →
      (AddPersonEntity tx).run w =
        (Result.error ("multiple entities found for person: " ++ child),
          { w with calls := w.calls ++
              [StoreCall.searchEntities (orgCriteria parentType parent),
               StoreCall.searchEntities (anyPersonCriteria child)] })) := by
  obtain ⟨rest, hrest⟩ := searchResults_of_resolve hP
  have hPid := hasID_of_resolve hP
  constructor
  · intro E hE
    have hres : searchResults w.entities (anyPersonCriteria child) = [toSearchResult E] := by
      simp [searchResults, hE]
    unfold anyPersonCriteria at hres
    unfold AddPersonEntity
    simp [hparent, hchild, hdate, hparentType, hchildType, hrelType, htx,
      run_parseDate _ hd, hrest, hres, hPid, anyPersonCriteria]
  · intro hlen
    have hres := searchResults_length w.entities (anyPersonCriteria child)
    unfold anyPersonCriteria at hres hlen
    unfold AddPersonEntity
    simp [hparent, hchild, hdate, hparentType, hchildType, hrelType, htx,
      run_parseDate _ hd, hrest, hres, hlen, anyPersonCriteria]

theorem run_AddDocumentEntity_found (tx : Transaction) (w : World)
    (parent child dateStr parentType childType transactionID : String)
    (d : Date) (P : Entity)
    (hparent : tx.get "parent" = Value.str parent) (hparent' : parent ≠ "")
    (hchild : tx.get "child" = Value.str child) (hchild' : child ≠ "")
    (hdate : tx.get "date" = Value.str dateStr) (hdate' : dateStr ≠ "")
    (hparentType : tx.get "parent_type" = Value.str parentType) (hparentType' : parentType ≠ "")
    (hchildType : tx.get "child_type" = Value.str childType) (hchildType' : childType ≠ "")
    (htx : tx.get "transaction_id" = Value.str transactionID) (htx' : transactionID ≠ "")
    (hd : timeParse (TrimSpace dateStr) = some d)
    (hP : resolve w.entities (orgCriteria parentType parent) = some P) :
    (∀ E, w.entities.filter (matchesCriteria (documentCriteria childType child)) = [E] →
      (AddDocumentEntity tx).run w =
        (Result.ok 0,
          { w with
            entities := applyUpdate w.entities P.id
              (relationshipUpdate P.id
                (newRelationship P.id E.id (formatRFC3339 d) "AS_DOCUMENT"))
            calls := w.calls ++
              [StoreCall.searchEntities (orgCriteria parentType parent),
               StoreCall.searchEntities (documentCriteria childType child),
               StoreCall.updateEntity P.id
                 (relationshipUpdate P.id
                   (newRelationship P.id E.id (formatRFC3339 d) "AS_DOCUMENT"))] }))
    ∧ (1 < (w.entities.filter (matchesCriteria (documentCriteria childType child))).length →
      (AddDocumentEntity tx).run w =
        (Result.error ("multiple entities found for document: " ++ child),
          { w with calls := w.calls ++
              [StoreCall.searchEntities (orgCriteria parentType parent),
               StoreCall.searchEntities (documentCriteria childType child)] })) := by
  obtain ⟨rest, hrest⟩ := searchResults_of_resolve hP
  have hPid := hasID_of_resolve hP
  have hrest' : searchResults w.entities
      { id := "", kind := some { major := "Organisation", minor := parentType }, name := parent }
      = toSearchResult P :: rest := hrest
  constructor
  · intro E hE
    have hres : searchResults w.entities (documentCriteria childType child)
        = [toSearchResult E] := by
      simp [searchResults, hE]
    unfold documentCriteria at hres
    unfold AddDocumentEntity
    simp [run_requireString _ hparent hparent', run_requireString _ hchild hchild',
      run_requireString _ hdate hdate', run_requireString _ hparentType hparentType',
      run_requireString _ hchildType hchildType', run_requireString _ htx htx',
      run_parseDate _ hd, hrest, hrest', hres, hPid, documentCriteria, orgCriteria]
  · intro hlen
    have hres := searchResults_length w.entities (documentCriteria childType child)
    unfold documentCriteria at hres hlen
    unfold AddDocumentEntity
    simp [run_requireString _ hparent hparent', run_requireString _ hchild hchild',
      run_requireString _ hdate hdate', run_requireString _ hparentType hparentType',
      run_requireString _ hchildType hchildType', run_requireString _ htx htx',
      run_parseDate _ hd, hrest, hrest', hres, hlen, documentCriteria, orgCriteria]

/-- C10 (amended): when the existing-entity search returns exactly one entity,
`AddDocumentEntity` returns 0 for every counter table, and `AddPersonEntity`
returns the entry of the counter table of the caller for child_type (0 when
there is none); neither changes the counter table. -/
theorem reuse_returned_counter (tx : Transaction) (w : World)
    (parent child dateStr parentType childType relType transactionID : String)
    (d : Date) (P : Entity)
    (hparent : tx.get "parent" = Value.str parent)
    (hchild : tx.get "child" = Value.str child)
    (hdate : tx.get "date" = Value.str dateStr)
    (hparentType : tx.get "parent_type" = Value.str parentType)
    (hchildType : tx.get "child_type" = Value.str childType)
    (hrelType : tx.get "rel_type" = Value.str relType)
    (htx : tx.get "transaction_id" = Value.str transactionID)
    (hd : timeParse (TrimSpace dateStr) = some d)
    (hP : resolve w.entities (orgCriteria parentType parent) = some P) :
    (∀ E, w.entities.filter (matchesCriteria (anyPersonCriteria child)) = [E] →
      ((AddPersonEntity tx).run w).1 = Result.ok (w.counters.read childType)
      ∧ ((AddPersonEntity tx).run w).2.counters = w.counters)
    ∧ (parent ≠ "" → child ≠ "" → dateStr ≠ "" → parentType ≠ "" → childType ≠ "" →
        transactionID ≠ "" →
      ∀ E, w.entities.filter (matchesCriteria (documentCriteria childType child)) = [E] →
        ((AddDocumentEntity tx).run w).1 = Result.ok 0
        ∧ ((AddDocumentEntity tx).run w).2.counters = w.counters) := by
  constructor
  · intro E hE
    rw [(run_AddPersonEntity_found tx w parent child dateStr parentType childType
      relType transactionID d P hparent hchild hdate hparentType hchildType hrelType htx hd
      hP).1 E hE]
    exact ⟨rfl, rfl⟩
  · intro h1 h2 h3 h4 h5 h6 E hE
    rw [(run_AddDocumentEntity_found tx w parent child dateStr parentType childType
      transactionID d P hparent h1 hchild h2 hdate h3 hparentType h4 hchildType h5 htx h6 hd
      hP).1 E hE]
    exact ⟨rfl, rfl⟩

/-- C10, counterexample: the citizen exists, the counter table holds
`citizen: 1`; `AddPersonEntity` reuses the citizen (no create request, the
entities keep their IDs) and returns 1, not 0. -/
theorem AddPersonEntity_reuse_returns_counter :
    worldQ.entities.filter (matchesCriteria (anyPersonCriteria "A. Perera")) = [citizenPerera]
    ∧ ((AddPersonEntity addPereraAgain).run worldQ).1 = Result.ok 1
    ∧ ((AddPersonEntity addPereraAgain).run worldQ).1 ≠ Result.ok 0
    ∧ ((AddPersonEntity addPereraAgain).run worldQ).2.entities.map (fun e => e.id)
        = worldQ.entities.map (fun e => e.id)
    ∧ ((AddPersonEntity addPereraAgain).run worldQ).2.calls =
        [StoreCall.searchEntities (orgCriteria "government" "Government of Sri Lanka"),
         StoreCall.searchEntities (anyPersonCriteria "A. Perera"),
         StoreCall.updateEntity "gov_01"
           (relationshipUpdate "gov_01"
             (newRelationship "gov_01" "TX00004_cit_1" "2024-03-01T00:00:00Z"
               "AS_APPOINTED"))] := by
  decide!

/-- C10, witness: the existing citizen and the existing document of `worldQ`. -/
theorem reuse_returned_counter_witness :
    (((AddPersonEntity addPereraAgain).run worldQ).1 = Result.ok 1
      ∧ ((AddPersonEntity addPereraAgain).run worldQ).2.counters = worldQ.counters)
    ∧ (((AddDocumentEntity addPolicyAgain).run worldQ).1 = Result.ok 0
      ∧ ((AddDocumentEntity addPolicyAgain).run worldQ).2.counters = worldQ.counters) :=
  ⟨(reuse_returned_counter addPereraAgain worldQ "Government of Sri Lanka" "A. Perera"
      "2024-03-01" "government" "citizen" "AS_APPOINTED" "TX00012"
      { year := 2024, month := 3, day := 1 } governmentWithHealth
      (by decide) (by decide) (by decide) (by decide) (by decide) (by decide) (by decide)
      (by decide) (by decide)).1 citizenPerera (by decide),
   (reuse_returned_counter addPolicyAgain worldQ "Government of Sri Lanka"
      "Health Policy 2024" "2024-03-05" "government" "policy" "AS_DOCUMENT" "TX00013"
      { year := 2024, month := 3, day := 5 } governmentWithHealth
      (by decide) (by decide) (by decide) (by decide) (by decide) (by decide) (by decide)
      (by decide) (by decide)).2 (by decide) (by decide) (by decide) (by decide) (by decide)
      (by decide) healthPolicy (by decide)⟩

/-- Without a counter entry for the kind, `AddOrgEntity` returns the unknown
kind error before any request is sent. -/
theorem AddOrgEntity_unknown_kind (tx : Transaction) (w : World)
    (parent child dateStr parentType childType relType transactionID : String) (d : Date)
    (hparent : tx.get "parent" = Value.str parent)
    (hchild : tx.get "child" = Value.str child)
    (hdate : tx.get "date" = Value.str dateStr)
    (hparentType : tx.get "parent_type" = Value.str parentType)
    (hchildType : tx.get "child_type" = Value.str childType)
    (hrelType : tx.get "rel_type" = Value.str relType)
    (htx : tx.get "transaction_id" = Value.str transactionID)
    (hd : timeParse (TrimSpace dateStr) = some d)
    (hn : w.counters.find childType = none) :
    (AddOrgEntity tx).run w = (Result.error ("unknown child type: " ++ childType), w) := by
  unfold AddOrgEntity
  simp [hparent, hchild, hdate, hparentType, hchildType, hrelType, htx, run_parseDate _ hd, hn]

/-- Without a counter entry for the kind, `AddPersonEntity` returns the unknown
kind error when it has to create the person: two searches, nothing written. -/
theorem AddPersonEntity_unknown_kind (tx : Transaction) (w : World)
    (parent child dateStr parentType childType relType transactionID : String)
    (d : Date) (P : Entity)
    (hparent : tx.get "parent" = Value.str parent)
    (hchild : tx.get "child" = Value.str child)
    (hdate : tx.get "date" = Value.str dateStr)
    (hparentType : tx.get "parent_type" = Value.str parentType)
    (hchildType : tx.get "child_type" = Value.str childType)
    (hrelType : tx.get "rel_type" = Value.str relType)
    (htx : tx.get "transaction_id" = Value.str transactionID)
    (hd : timeParse (TrimSpace dateStr) = some d)
    (hP : resolve w.entities (orgCriteria parentType parent) = some P)
    (hnew : w.entities.filter (matchesCriteria (anyPersonCriteria child)) = [])
    (hn : w.counters.find childType = none) :
    (AddPersonEntity tx).run w =
      (Result.error ("unknown child type: " ++ childType),
        { w with calls := w.calls ++
            [StoreCall.searchEntities (orgCriteria parentType parent),
             StoreCall.searchEntities (anyPersonCriteria child)] }) := by
  obtain ⟨rest, hrest⟩ := searchResults_of_resolve hP
  have hres : searchResults w.entities (anyPersonCriteria child) = [] := by
    simp [searchResults, hnew]
  unfold anyPersonCriteria at hres
  unfold AddPersonEntity
  simp [hparent, hchild, hdate, hparentType, hchildType, hrelType, htx,
    run_parseDate _ hd, hrest, hres, hn, anyPersonCriteria]

/-- C8, failing input: the counter table has no entry for `policy` nor for
`document`; `AddDocumentEntity` creates `TX00009_doc_1` and returns 1. On the
same table `AddOrgEntity` and `AddPersonEntity` reject an unseeded kind and
create nothing. -/
theorem AddDocumentEntity_unseeded_kind_creates :
    worldB.counters.find "policy" = none
    ∧ worldB.counters.find "document" = none
    ∧ ((AddDocumentEntity addPolicy).run worldB).1 = Result.ok 1
    ∧ ((AddDocumentEntity addPolicy).run worldB).2.entities.map (fun e => e.id)
        = ["gov_01", "TX00001_min_1", "TX00009_doc_1"]
    ∧ ((AddOrgEntity addAgency).run worldB).1 = Result.error "unknown child type: agency"
    ∧ ((AddOrgEntity addAgency).run worldB).2.entities.map (fun e => e.id)
        = ["gov_01", "TX00001_min_1"]
    ∧ ((AddPersonEntity addAdvisor).run worldB).1 = Result.error "unknown child type: advisor"
    ∧ ((AddPersonEntity addAdvisor).run worldB).2.entities.map (fun e => e.id)
        = ["gov_01", "TX00001_min_1"] := by
  decide!

/-! ## Lookups with several matches -/

theorem stamps_of_silent {α : Type} (t : String) {m : Op α}
    (h : ∀ w, (m.run w).2 = w) : Stamps t m :=
  ⟨fun w => ⟨[], by rw [h w, List.append_nil], fun _ hc => absurd hc (List.not_mem_nil _)⟩⟩

theorem stamps_parseDate (t dateStr : String) : Stamps t (parseDate dateStr) :=
  stamps_of_silent t fun w => by
    unfold parseDate
    split <;> rfl

theorem Value.eq_str_of_isString {v : Value} (h : v.isString = true) :
    ∃ s, v = Value.str s := by
  cases v with
  | str s => exact ⟨s, rfl⟩
  | nil => simp [Value.isString] at h
  | other => simp [Value.isString] at h

theorem requireString_cases (tx : Transaction) (key : String) (w : World) :
    (requireString tx key).run w
        = (Result.error (key ++ " is required and must be a string"), w)
      ∨ ∃ s, tx.get key = Value.str s ∧ (requireString tx key).run w = (Result.ok s, w) := by
  unfold requireString
  cases h : tx.get key with
  | str s =>
    by_cases hs : s = ""
    · left
      simp [hs]
    · right
      exact ⟨s, rfl, by simp [hs]⟩
  | nil => left; rfl
  | other => left; rfl

theorem AddDocumentEntity_invalid_date (tx : Transaction) (w : World)
    (hdate : ∀ s, tx.get "date" = Value.str s → timeParse (TrimSpace s) = none) :
    ∃ msg, (AddDocumentEntity tx).run w = (Result.error msg, w) := by
  unfold AddDocumentEntity
  rcases requireString_cases tx "parent" w with h1 | ⟨s1, -, h1⟩
  · exact ⟨_, by simp only [run_bind, h1]; rfl⟩
  rcases requireString_cases tx "child" w with h2 | ⟨s2, -, h2⟩
  · exact ⟨_, by simp only [run_bind, h1, h2]; rfl⟩
  rcases requireString_cases tx "date" w with h3 | ⟨s3, hs3, h3⟩
  · exact ⟨_, by simp only [run_bind, h1, h2, h3]; rfl⟩
  rcases requireString_cases tx "parent_type" w with h4 | ⟨s4, -, h4⟩
  · exact ⟨_, by simp only [run_bind, h1, h2, h3, h4]; rfl⟩
  rcases requireString_cases tx "child_type" w with h5 | ⟨s5, -, h5⟩
  · exact ⟨_, by simp only [run_bind, h1, h2, h3, h4, h5]; rfl⟩
  rcases requireString_cases tx "transaction_id" w with h6 | ⟨s6, -, h6⟩
  · exact ⟨_, by simp only [run_bind, h1, h2, h3, h4, h5, h6]; rfl⟩
  exact ⟨_, by simp only [run_bind, h1, h2, h3, h4, h5, h6, run_parseDate_none w (hdate s3 hs3)]; rfl⟩

/-- C14 (amended): for each of the ten operations with a date field and every
transaction whose fields that the operation asserts to be strings are strings
and whose date field, once leading and trailing white space is trimmed, is not
a valid calendar date written `YYYY-MM-DD`, the call returns an error and leaves
the state as it was: no request is sent to the store. `AddDocumentEntity`, which
checks its fields, does so whatever the other fields are, also when the date
field is missing or not a string. -/
theorem invalid_date_is_rejected (op : Operation) (tx : Transaction) (w : World)
    (hop : op.transaction = some tx)
    (hfields : ∀ k ∈ op.assertedFields, (tx.get k).isString = true)
    (hdate : ∀ s, tx.get "date" = Value.str s → timeParse (TrimSpace s) = none) :
    op.stateAfter w = w ∧ ∃ msg, op.errorMessage w = some msg := by
  cases op with
  | createGovernmentNode => simp [Operation.transaction] at hop
  | addOrgEntity tx1 =>
    simp only [Operation.transaction, Option.some.injEq] at hop
    subst hop
    have hfields := fun k hk => Value.eq_str_of_isString (hfields k hk)
    simp only [Operation.assertedFields, List.forall_mem_cons, List.not_mem_nil, false_imp_iff,
      implies_true, and_true] at hfields
    obtain ⟨⟨s0, h0⟩, ⟨s1, h1⟩, ⟨s2, h2⟩, ⟨s3, h3⟩, ⟨s4, h4⟩, ⟨s5, h5⟩, ⟨s6, h6⟩⟩ := hfields
    have hnone := hdate s2 h2
    have hrun : (AddOrgEntity tx1).run w
        = (Result.error ("failed to parse date: " ++ timeParseError (TrimSpace s2)), w) := by
      unfold AddOrgEntity
      simp only [run_bind, h0, h1, h2, h3, h4, h5, h6, run_assertString, run_parseDate_none w hnone]
    simp only [Operation.stateAfter, Operation.errorMessage]
    rw [hrun]
    exact ⟨rfl, _, rfl⟩
  | terminateOrgEntity tx1 =>
    simp only [Operation.transaction, Option.some.injEq] at hop
    subst hop
    have hfields := fun k hk => Value.eq_str_of_isString (hfields k hk)
    simp only [Operation.assertedFields, List.forall_mem_cons, List.not_mem_nil, false_imp_iff,
      implies_true, and_true] at hfields
    obtain ⟨⟨s0, h0⟩, ⟨s1, h1⟩, ⟨s2, h2⟩, ⟨s3, h3⟩, ⟨s4, h4⟩, ⟨s5, h5⟩⟩ := hfields
    have hnone := hdate s2 h2
    have hrun : (TerminateOrgEntity tx1).run w
        = (Result.error ("failed to parse date: " ++ timeParseError (TrimSpace s2)), w) := by
      unfold TerminateOrgEntity
      simp only [run_bind, h0, h1, h2, h3, h4, h5, run_assertString, run_parseDate_none w hnone]
    simp only [Operation.stateAfter, Operation.errorMessage]
    rw [hrun]
    exact ⟨rfl, _, rfl⟩
  | moveDepartment tx1 =>
    simp only [Operation.transaction, Option.some.injEq] at hop
    subst hop
    have hfields := fun k hk => Value.eq_str_of_isString (hfields k hk)
    simp only [Operation.assertedFields, List.forall_mem_cons, List.not_mem_nil, false_imp_iff,
      implies_true, and_true] at hfields
    obtain ⟨⟨s0, h0⟩, ⟨s1, h1⟩, ⟨s2, h2⟩, ⟨s3, h3⟩⟩ := hfields
    have hnone := hdate s3 h3
    have hrun : (MoveDepartment tx1).run w
        = (Result.error ("failed to parse date: " ++ timeParseError (TrimSpace s3)), w) := by
      unfold MoveDepartment
      simp only [run_bind, h0, h1, h2, h3, run_assertString, run_parseDate_none w hnone]
    simp only [Operation.stateAfter, Operation.errorMessage]
    rw [hrun]
    exact ⟨rfl, _, rfl⟩
  | renameMinister tx1 =>
    simp only [Operation.transaction, Option.some.injEq] at hop
    subst hop
    have hfields := fun k hk => Value.eq_str_of_isString (hfields k hk)
    simp only [Operation.assertedFields, List.forall_mem_cons, List.not_mem_nil, false_imp_iff,
      implies_true, and_true] at hfields
    obtain ⟨⟨s0, h0⟩, ⟨s1, h1⟩, ⟨s2, h2⟩⟩ := hfields
    have hnone := hdate s2 h2
    have hrun : (RenameMinister tx1).run w
        = (Result.error ("failed to parse date: " ++ timeParseError (TrimSpace s2)), w) := by
      unfold RenameMinister
      simp only [run_bind, h0, h1, h2, run_assertString, run_parseDate_none w hnone]
    simp only [Operation.stateAfter, Operation.errorMessage]
    rw [hrun]
    exact ⟨rfl, _, rfl⟩
  | renameDepartment tx1 =>
    simp only [Operation.transaction, Option.some.injEq] at hop
    subst hop
    have hfields := fun k hk => Value.eq_str_of_isString (hfields k hk)
    simp only [Operation.assertedFields, List.forall_mem_cons, List.not_mem_nil, false_imp_iff,
      implies_true, and_true] at hfields
    obtain ⟨⟨s0, h0⟩, ⟨s1, h1⟩, ⟨s2, h2⟩, ⟨s3, h3⟩⟩ := hfields
    have hnone := hdate s2 h2
    have hrun : (RenameDepartment tx1).run w
        = (Result.error ("failed to parse date: " ++ timeParseError (TrimSpace s2)), w) := by
      unfold RenameDepartment
      simp only [run_bind, h0, h1, h2, h3, run_assertString, run_parseDate_none w hnone]
    simp only [Operation.stateAfter, Operation.errorMessage]
    rw [hrun]
    exact ⟨rfl, _, rfl⟩
  | mergeMinisters tx1 =>
    simp only [Operation.transaction, Option.some.injEq] at hop
    subst hop
    have hfields := fun k hk => Value.eq_str_of_isString (hfields k hk)
    simp only [Operation.assertedFields, List.forall_mem_cons, List.not_mem_nil, false_imp_iff,
      implies_true, and_true] at hfields
    obtain ⟨⟨s0, h0⟩, ⟨s1, h1⟩, ⟨s2, h2⟩, ⟨s3, h3⟩⟩ := hfields
    have hnone := hdate s2 h2
    have hrun : (MergeMinisters tx1).run w
        = (Result.error ("failed to parse date: " ++ timeParseError (TrimSpace s2)), w) := by
      unfold MergeMinisters
      simp only [run_bind, h0, h1, h2, h3, run_assertString, run_parseDate_none w hnone]
    simp only [Operation.stateAfter, Operation.errorMessage]
    rw [hrun]
    exact ⟨rfl, _, rfl⟩
  | addPersonEntity tx1 =>
    simp only [Operation.transaction, Option.some.injEq] at hop
    subst hop
    have hfields := fun k hk => Value.eq_str_of_isString (hfields k hk)
    simp only [Operation.assertedFields, List.forall_mem_cons, List.not_mem_nil, false_imp_iff,
      implies_true, and_true] at hfields
    obtain ⟨⟨s0, h0⟩, ⟨s1, h1⟩, ⟨s2, h2⟩, ⟨s3, h3⟩, ⟨s4, h4⟩, ⟨s5, h5⟩, ⟨s6, h6⟩⟩ := hfields
    have hnone := hdate s2 h2
    have hrun : (AddPersonEntity tx1).run w
        = (Result.error ("failed to parse date: " ++ timeParseError (TrimSpace s2)), w) := by
      unfold AddPersonEntity
      simp only [run_bind, h0, h1, h2, h3, h4, h5, h6, run_assertString, run_parseDate_none w hnone]
    simp only [Operation.stateAfter, Operation.errorMessage]
    rw [hrun]
    exact ⟨rfl, _, rfl⟩
  | terminatePersonEntity tx1 =>
    simp only [Operation.transaction, Option.some.injEq] at hop
    subst hop
    have hfields := fun k hk => Value.eq_str_of_isString (hfields k hk)
    simp only [Operation.assertedFields, List.forall_mem_cons, List.not_mem_nil, false_imp_iff,
      implies_true, and_true] at hfields
    obtain ⟨⟨s0, h0⟩, ⟨s1, h1⟩, ⟨s2, h2⟩, ⟨s3, h3⟩, ⟨s4, h4⟩, ⟨s5, h5⟩⟩ := hfields
    have hnone := hdate s2 h2
    have hrun : (TerminatePersonEntity tx1).run w
        = (Result.error ("failed to parse date: " ++ timeParseError (TrimSpace s2)), w) := by
      unfold TerminatePersonEntity
      simp only [run_bind, h0, h1, h2, h3, h4, h5, run_assertString, run_parseDate_none w hnone]
    simp only [Operation.stateAfter, Operation.errorMessage]
    rw [hrun]
    exact ⟨rfl, _, rfl⟩
  | movePerson tx1 =>
    simp only [Operation.transaction, Option.some.injEq] at hop
    subst hop
    have hfields := fun k hk => Value.eq_str_of_isString (hfields k hk)
    simp only [Operation.assertedFields, List.forall_mem_cons, List.not_mem_nil, false_imp_iff,
      implies_true, and_true] at hfields
    obtain ⟨⟨s0, h0⟩, ⟨s1, h1⟩, ⟨s2, h2⟩, ⟨s3, h3⟩⟩ := hfields
    have hnone := hdate s3 h3
    have hrun : (MovePerson tx1).run w
        = (Result.error ("failed to parse date: " ++ timeParseError (TrimSpace s3)), w) := by
      unfold MovePerson
      simp only [run_bind, h0, h1, h2, h3, run_assertString, run_parseDate_none w hnone]
    simp only [Operation.stateAfter, Operation.errorMessage]
    rw [hrun]
    exact ⟨rfl, _, rfl⟩
  | addDocumentEntity tx1 =>
    simp only [Operation.transaction, Option.some.injEq] at hop
    subst hop
    obtain ⟨msg, hrun⟩ := AddDocumentEntity_invalid_date tx1 w hdate
    simp only [Operation.stateAfter, Operation.errorMessage]
    rw [hrun]
    exact ⟨rfl, _, rfl⟩

/-- C14, counterexample: scenario A with the date field `" 2024-02-01"`, which is
not of the form `YYYY-MM-DD`, succeeds, creates the minister and sends three
requests to the store; a termination without a date field ends in a run-time
panic of the type assertion, not in an error. -/
theorem padded_date_is_accepted :
    timeParse " 2024-02-01" = none
    ∧ ((AddOrgEntity scenarioAPadded).run worldA).1 = Result.ok 1
    ∧ ((AddOrgEntity scenarioAPadded).run worldA).2.calls.length = 3
    ∧ ((AddOrgEntity scenarioAPadded).run worldA).2.entities.map (fun e => (e.id, e.created))
        = [("gov_01", "2024-01-01T00:00:00Z"), ("TX00001_min_1", "2024-02-01T00:00:00Z")]
    ∧ ((TerminateOrgEntity terminateUndated).run worldB).1
        = Result.panic "interface conversion: value is not a string" := by
  decide!

/-- C14, witness: scenario C dated 2024-02-30 and dated 01/03/2024, and a
document dated 2024-13-01 without a transaction id. -/
theorem invalid_date_is_rejected_witness :
    ((Operation.moveDepartment (moveTransaction "Ministry of Health" "Ministry of Wellness"
        "Health Planning" "2024-02-30")).stateAfter worldD = worldD
      ∧ ∃ msg, (Operation.moveDepartment (moveTransaction "Ministry of Health"
          "Ministry of Wellness" "Health Planning" "2024-02-30")).errorMessage worldD = some msg)
    ∧ ((Operation.moveDepartment (moveTransaction "Ministry of Health" "Ministry of Wellness"
        "Health Planning" "01/03/2024")).stateAfter worldD = worldD
      ∧ ∃ msg, (Operation.moveDepartment (moveTransaction "Ministry of Health"
          "Ministry of Wellness" "Health Planning" "01/03/2024")).errorMessage worldD = some msg)
    ∧ ((Operation.addDocumentEntity [("parent", Value.str "Ministry of Health"),
          ("child", Value.str "Health Policy 2024"), ("date", Value.str "2024-13-01")]).stateAfter
          worldB = worldB
      ∧ ∃ msg, (Operation.addDocumentEntity [("parent", Value.str "Ministry of Health"),
          ("child", Value.str "Health Policy 2024"),
          ("date", Value.str "2024-13-01")]).errorMessage worldB = some msg) :=
  ⟨invalid_date_is_rejected _ _ worldD rfl (by decide)
      (fun s h => by
        have hs : s = "2024-02-30" := (Value.str.inj h).symm
        subst hs
        decide),
   invalid_date_is_rejected _ _ worldD rfl (by decide)
      (fun s h => by
        have hs : s = "01/03/2024" := (Value.str.inj h).symm
        subst hs
        decide),
   invalid_date_is_rejected _ _ worldB rfl (by decide)
      (fun s h => by
        have hs : s = "2024-13-01" := (Value.str.inj h).symm
        subst hs
        decide)⟩

/-! ## MoveDepartment when the old minister does not hold the department -/

/-- C15 (amended): in a `MoveDepartment` call in which the new minister, the
department and the old minister resolve to `N`, `D` and `O`, the old minister is
not the new minister, and `O` owns no active `AS_DEPARTMENT` relationship to `D`:
the call returns success, the only write among its five requests is the attach
of the `AS_DEPARTMENT` relationship of `N`, and the relationships of `O` are left
unchanged. -/
theorem MoveDepartment_detached (tx : Transaction) (w : World)
    (newParent oldParent child dateStr : String) (d : Date) (N D O : Entity)
    (hnew : tx.get "new_parent" = Value.str newParent)
    (hold : tx.get "old_parent" = Value.str oldParent)
    (hchild : tx.get "child" = Value.str child)
    (hdate : tx.get "date" = Value.str dateStr)
    (hd : timeParse (TrimSpace dateStr) = some d)
    (hN : resolve w.entities (orgCriteria "minister" newParent) = some N)
    (hD : resolve w.entities (orgCriteria "department" child) = some D)
    (hO : resolve w.entities (orgCriteria "minister" oldParent) = some O)
    (hne : O.id ≠ N.id)
    (hnone : ∀ r ∈ relationshipsOf w.entities O.id,
      ¬ (r.relatedEntityID = D.id ∧ r.name = "AS_DEPARTMENT" ∧ r.endTime = "")) :
    let attach := relationshipUpdate N.id
      (newRelationship N.id D.id (formatRFC3339 d) "AS_DEPARTMENT")
    (MoveDepartment tx).run w =
      (Result.ok (),
        { w with
          entities := applyUpdate w.entities N.id attach
          calls := w.calls ++
            [StoreCall.searchEntities (orgCriteria "minister" newParent),
             StoreCall.searchEntities (orgCriteria "department" child),
             StoreCall.updateEntity N.id attach,
             StoreCall.searchEntities (orgCriteria "minister" oldParent),
             StoreCall.getAllRelatedEntities O.id] })
    ∧ entriesOf (applyUpdate w.entities N.id attach) O.id = entriesOf w.entities O.id := by
  dsimp only
  have hrun := run_MoveDepartment tx w newParent oldParent child dateStr d N D O
    hnew hold hchild hdate hd hN hD hO
  have hfind : (relationshipsOf
      (applyUpdate w.entities N.id
        (relationshipUpdate N.id
          (newRelationship N.id D.id (formatRFC3339 d) "AS_DEPARTMENT")))
      O.id).find? (activeDepartmentTo D.id) = none := by
    rw [relationshipsOf_applyUpdate_ne _ _ hne, List.find?_eq_none]
    intro r hr
    have := hnone r hr
    simpa [activeDepartmentTo, and_assoc] using this
  rw [hfind] at hrun
  exact ⟨hrun, entriesOf_applyUpdate_ne _ _ hne⟩

/-- C15, counterexample: "Ministry of Wellness" owns no relationship to "Health
Planning"; a move of that department from "Ministry of Wellness" to "Ministry of
Wellness" succeeds with two writes, the attach and a termination of the
relationship just attached, and leaves the old minister with a relationship to
the department that ended on the date of the move. -/
theorem MoveDepartment_same_minister_writes_twice :
    relationshipsOf worldD.entities "TX00002_min_2" = []
    ∧ ((MoveDepartment moveWithinWellness).run worldD).1 = Result.ok ()
    ∧ ((MoveDepartment moveWithinWellness).run worldD).2.calls.filterMap
        (fun c => match c with
          | StoreCall.updateEntity id p =>
            some (id, p.relationships.map
              (fun r => (r.key, r.value.startTime, r.value.endTime)))
          | _ => none)
      = [("TX00002_min_2",
            [("TX00002_min_2_TX00003_dep_1", "2024-03-01T00:00:00Z", "")]),
         ("TX00002_min_2",
            [("TX00002_min_2_TX00003_dep_1", "", "2024-03-01T00:00:00Z")])]
    ∧ relationshipsOf ((MoveDepartment moveWithinWellness).run worldD).2.entities
        "TX00002_min_2"
      = [{ relatedEntityID := "TX00003_dep_1", startTime := "2024-03-01T00:00:00Z",
           endTime := "2024-03-01T00:00:00Z", id := "TX00002_min_2_TX00003_dep_1",
           name := "AS_DEPARTMENT" }] := by
  decide!

/-- C15, witness: "Health Planning" is moved to "Ministry of Wellness" from a
minister that does not hold it. -/
theorem MoveDepartment_detached_witness :
    (MoveDepartment (moveTransaction "Ministry of Wellness" "Ministry of Health"
        "Health Planning" "2024-03-01")).run worldE =
      (Result.ok (),
        { worldE with
          entities := applyUpdate worldE.entities "TX00001_min_1"
            (relationshipUpdate "TX00001_min_1"
              (newRelationship "TX00001_min_1" "TX00003_dep_1" "2024-03-01T00:00:00Z"
                "AS_DEPARTMENT"))
          calls :=
            [StoreCall.searchEntities (orgCriteria "minister" "Ministry of Health"),
             StoreCall.searchEntities (orgCriteria "department" "Health Planning"),
             StoreCall.updateEntity "TX00001_min_1"
               (relationshipUpdate "TX00001_min_1"
                 (newRelationship "TX00001_min_1" "TX00003_dep_1" "2024-03-01T00:00:00Z"
                   "AS_DEPARTMENT")),
             StoreCall.searchEntities (orgCriteria "minister" "Ministry of Wellness"),
             StoreCall.getAllRelatedEntities "TX00002_min_2"] })
    ∧ entriesOf (applyUpdate worldE.entities "TX00001_min_1"
          (relationshipUpdate "TX00001_min_1"
            (newRelationship "TX00001_min_1" "TX00003_dep_1" "2024-03-01T00:00:00Z"
              "AS_DEPARTMENT"))) "TX00002_min_2"
        = entriesOf worldE.entities "TX00002_min_2" :=
  MoveDepartment_detached _ worldE "Ministry of Health" "Ministry of Wellness"
    "Health Planning" "2024-03-01" { year := 2024, month := 3, day := 1 }
    healthWithPlanning healthPlanning wellnessFormer
    (by decide) (by decide) (by decide) (by decide) (by decide) (by decide) (by decide)
    (by decide) (by decide) (by decide)

/-! ## MovePerson when the old minister does not hold the person -/

theorem upsert_keeps_entry (rels : List RelationshipEntry) (k : String) (v : Relationship)
    (hstart : v.startTime ≠ "") (hname : v.name ≠ "") :
    ∃ e ∈ upsertRelationship rels { key := k, value := v },
      e.key = k ∧ e.value.startTime = v.startTime ∧ e.value.name = v.name := by
  induction rels with
  | nil => exact ⟨{ key := k, value := v }, by simp [upsertRelationship], rfl, rfl, rfl⟩
  | cons a t ih =>
    by_cases ha : a.key = k
    · refine ⟨{ key := a.key, value := mergeRelationship a.value v }, ?_, ha, ?_, ?_⟩
      · simp [upsertRelationship, ha]
      · simp [mergeRelationship, hstart]
      · simp [mergeRelationship, hname]
    · obtain ⟨e, he, hk⟩ := ih
      exact ⟨e, by simp [upsertRelationship, ha, he], hk⟩

theorem run_TerminatePersonEntity_no_parent (tx : Transaction) (w : World)
    (parent child dateStr parentType childType relType : String) (d : Date)
    (hparent : tx.get "parent" = Value.str parent)
    (hchild : tx.get "child" = Value.str child)
    (hdate : tx.get "date" = Value.str dateStr)
    (hparentType : tx.get "parent_type" = Value.str parentType)
    (hchildType : tx.get "child_type" = Value.str childType)
    (hrelType : tx.get "rel_type" = Value.str relType)
    (hd : timeParse (TrimSpace dateStr) = some d)
    (hP : resolve w.entities (orgCriteria parentType parent) = none) :
    (TerminatePersonEntity tx).run w =
      (Result.error ("parent entity not found: " ++ parent),
        { w with calls := w.calls ++
            [StoreCall.searchEntities (orgCriteria parentType parent)] }) := by
  have hrest := searchResults_of_resolve_none hP
  unfold TerminatePersonEntity
  simp [hparent, hchild, hdate, hparentType, hchildType, hrelType, run_parseDate _ hd, hrest]

/-- C16 (amended): in a `MovePerson` call in which the new minister and the
citizen resolve to `N` and `C`, and the old minister either does not resolve or
resolves to an entity `O` other than `N` that owns no active `AS_APPOINTED`
relationship to `C`: the call returns the error of the termination, wrapped in
`failed to terminate old relationship`, and the store is left as the attach
left it: `N` owns the relationship keyed `N.ID_C.ID`, named `AS_APPOINTED`, started
at the date of the move. -/
theorem MovePerson_propagates_failure (tx : Transaction) (w : World)
    (newParent oldParent child dateStr : String) (d : Date) (N C : Entity)
    (hnew : tx.get "new_parent" = Value.str newParent)
    (hold : tx.get "old_parent" = Value.str oldParent)
    (hchild : tx.get "child" = Value.str child)
    (hdate : tx.get "date" = Value.str dateStr)
    (hd : timeParse (TrimSpace dateStr) = some d)
    (hN : resolve w.entities (orgCriteria "minister" newParent) = some N)
    (hC : resolve w.entities (personCriteria "citizen" child) = some C)
    (hO : resolve w.entities (orgCriteria "minister" oldParent) = none
      ∨ ∃ O, resolve w.entities (orgCriteria "minister" oldParent) = some O ∧ O.id ≠ N.id
        ∧ ∀ r ∈ relationshipsOf w.entities O.id,
            ¬ (r.relatedEntityID = C.id ∧ r.name = "AS_APPOINTED" ∧ r.endTime = "")) :
    let attach := relationshipUpdate N.id
      (newRelationship N.id C.id (formatRFC3339 d) "AS_APPOINTED")
    (∃ msg, ((MovePerson tx).run w).1
        = Result.error ("failed to terminate old relationship: " ++ msg))
    ∧ ((MovePerson tx).run w).2.entities = applyUpdate w.entities N.id attach
    ∧ ∃ e ∈ entriesOf ((MovePerson tx).run w).2.entities N.id,
        e.key = N.id ++ "_" ++ C.id ∧ e.value.startTime = formatRFC3339 d
          ∧ e.value.name = "AS_APPOINTED" := by
  dsimp only
  obtain ⟨restN, hrestN⟩ := searchResults_of_resolve hN
  obtain ⟨restC, hrestC⟩ := searchResults_of_resolve hC
  unfold personCriteria at hrestC
  have hNid := hasID_of_resolve hN
  have hentry : ∃ e ∈ entriesOf (applyUpdate w.entities N.id
      (relationshipUpdate N.id (newRelationship N.id C.id (formatRFC3339 d) "AS_APPOINTED")))
      N.id, e.key = N.id ++ "_" ++ C.id ∧ e.value.startTime = formatRFC3339 d
        ∧ e.value.name = "AS_APPOINTED" := by
    rw [entriesOf_applyUpdate_self _ _ _ hNid]
    exact upsert_keeps_entry _ _ _ (formatRFC3339_ne_empty d)
      (show "AS_APPOINTED" ≠ "" by decide)
  obtain ⟨p1, p2, p3, p4, p5, p6⟩ := terminateTransaction_get oldParent child dateStr
    "minister" "citizen" "AS_APPOINTED"
  have hrun : (MovePerson tx).run w =
      (wrapError "failed to terminate old relationship: "
        (TerminatePersonEntity
          (terminateTransaction oldParent child dateStr "minister" "citizen"
            "AS_APPOINTED"))).run
        { w with
          entities := applyUpdate w.entities N.id
            (relationshipUpdate N.id
              (newRelationship N.id C.id (formatRFC3339 d) "AS_APPOINTED"))
          calls := w.calls ++
            [StoreCall.searchEntities (orgCriteria "minister" newParent),
             StoreCall.searchEntities (personCriteria "citizen" child),
             StoreCall.updateEntity N.id
               (relationshipUpdate N.id
                 (newRelationship N.id C.id (formatRFC3339 d) "AS_APPOINTED"))] } := by
    unfold MovePerson
    simp [hnew, hold, hchild, hdate, run_parseDate _ hd, hrestN, hrestC, hNid, personCriteria]
  rw [hrun, run_wrapError]
  rcases hO with hO | ⟨O, hO, hne, hnone⟩
  · have hO1 : resolve (applyUpdate w.entities N.id
        (relationshipUpdate N.id (newRelationship N.id C.id (formatRFC3339 d) "AS_APPOINTED")))
        (orgCriteria "minister" oldParent) = none := by
      rw [resolve_applyUpdate_rel, hO]
      rfl
    rw [run_TerminatePersonEntity_no_parent _ _ oldParent child dateStr "minister" "citizen"
      "AS_APPOINTED" d p1 p2 p3 p4 p5 p6 hd hO1]
    exact ⟨⟨_, rfl⟩, rfl, hentry⟩
  · have hO1 : resolve (applyUpdate w.entities N.id
        (relationshipUpdate N.id (newRelationship N.id C.id (formatRFC3339 d) "AS_APPOINTED")))
        (orgCriteria "minister" oldParent) = some O := by
      rw [resolve_applyUpdate_rel, hO]
      simp [hne]
    obtain ⟨C1, hC1, hC1id⟩ := resolve_applyUpdate_rel_id (i := N.id)
      (r := newRelationship N.id C.id (formatRFC3339 d) "AS_APPOINTED") hC
    rw [run_TerminatePersonEntity _ _ oldParent child dateStr "minister" "citizen"
      "AS_APPOINTED" d O C1 p1 p2 p3 p4 p5 p6 hd hO1 hC1, run_terminateActive]
    have hsel : selectedRelationship
        { w with
          entities := applyUpdate w.entities N.id
            (relationshipUpdate N.id
              (newRelationship N.id C.id (formatRFC3339 d) "AS_APPOINTED"))
          calls := w.calls ++
            [StoreCall.searchEntities (orgCriteria "minister" newParent),
             StoreCall.searchEntities (personCriteria "citizen" child),
             StoreCall.updateEntity N.id
               (relationshipUpdate N.id
                 (newRelationship N.id C.id (formatRFC3339 d) "AS_APPOINTED"))] ++
            [StoreCall.searchEntities (orgCriteria "minister" oldParent),
             StoreCall.searchEntities (personCriteria "citizen" child)] }
        O.id C1.id "AS_APPOINTED" (formatRFC3339 d) = none := by
      unfold selectedRelationship
      rw [List.find?_eq_none]
      intro r hr
      rw [List.mem_filter] at hr
      obtain ⟨hmem, hq⟩ := hr
      have hmem' : r ∈ relationshipsOf w.entities O.id := by
        rw [← relationshipsOf_applyUpdate_ne w.entities
          (relationshipUpdate N.id (newRelationship N.id C.id (formatRFC3339 d) "AS_APPOINTED"))
          hne]
        exact hmem
      have := hnone r hmem'
      simp only [matchesQuery, terminateQuery, Bool.and_eq_true, Bool.or_eq_true,
        decide_eq_true_eq] at hq
      have hname : r.name = "AS_APPOINTED" := by
        rcases hq.1.2 with h | h
        · exact absurd h (by decide)
        · exact h
      simp only [activeTo, Bool.and_eq_true, decide_eq_true_eq, not_and]
      intro hrel hend
      exact this ⟨by rw [hrel, hC1id], hname, hend⟩
    rw [hsel]
    exact ⟨⟨_, rfl⟩, rfl, hentry⟩

/-- C16, counterexample: "Ministry of Health" owns no relationship to the
citizen; a move of the citizen from "Ministry of Health" to "Ministry of Health"
returns success: the termination finds the relationship that the call has
just attached and closes it, whether the store reads the start time filter as
"active at" or as an exact match. -/
theorem MovePerson_same_minister_succeeds :
    resolve worldPereraFree.entities (orgCriteria "minister" "Ministry of Health")
      = some ministryOfHealth
    ∧ resolve worldPereraFree.entities (personCriteria "citizen" "A. Perera")
      = some citizenPerera
    ∧ relationshipsOf worldPereraFree.entities "TX00001_min_1" = []
    ∧ ((MovePerson (movePersonTransaction "Ministry of Health" "Ministry of Health"
        "A. Perera" "2024-03-01")).run worldPereraFree).1 = Result.ok ()
    ∧ relationshipsOf ((MovePerson (movePersonTransaction "Ministry of Health"
        "Ministry of Health" "A. Perera" "2024-03-01")).run worldPereraFree).2.entities
        "TX00001_min_1"
      = [{ relatedEntityID := "TX00004_cit_1", startTime := "2024-03-01T00:00:00Z",
           endTime := "2024-03-01T00:00:00Z", id := "TX00001_min_1_TX00004_cit_1",
           name := "AS_APPOINTED" }]
    ∧ ((MovePerson (movePersonTransaction "Ministry of Health" "Ministry of Health"
        "A. Perera" "2024-03-01")).run
          { worldPereraFree with startTimeMatches := sameStart }).1 = Result.ok () := by
  decide!

/-- C16, witness: the citizen, appointed to no minister, is moved to "Ministry
of Health" from "Ministry of Wellness", and from a minister that does not exist. -/
theorem MovePerson_propagates_failure_witness :
    ((∃ msg, ((MovePerson (movePersonTransaction "Ministry of Wellness" "Ministry of Health"
          "A. Perera" "2024-03-01")).run worldPereraFree).1
        = Result.error ("failed to terminate old relationship: " ++ msg))
      ∧ ((MovePerson (movePersonTransaction "Ministry of Wellness" "Ministry of Health"
          "A. Perera" "2024-03-01")).run worldPereraFree).2.entities
        = applyUpdate worldPereraFree.entities "TX00001_min_1"
            (relationshipUpdate "TX00001_min_1"
              (newRelationship "TX00001_min_1" "TX00004_cit_1" "2024-03-01T00:00:00Z"
                "AS_APPOINTED"))
      ∧ ∃ e ∈ entriesOf ((MovePerson (movePersonTransaction "Ministry of Wellness"
          "Ministry of Health" "A. Perera" "2024-03-01")).run worldPereraFree).2.entities
          "TX00001_min_1",
          e.key = "TX00001_min_1" ++ "_" ++ "TX00004_cit_1"
            ∧ e.value.startTime = "2024-03-01T00:00:00Z" ∧ e.value.name = "AS_APPOINTED")
    ∧ ∃ msg, ((MovePerson (movePersonTransaction "Ministry of Nothing" "Ministry of Health"
          "A. Perera" "2024-03-01")).run worldPereraFree).1
        = Result.error ("failed to terminate old relationship: " ++ msg) :=
  ⟨MovePerson_propagates_failure _ worldPereraFree "Ministry of Health"
      "Ministry of Wellness" "A. Perera" "2024-03-01" { year := 2024, month := 3, day := 1 }
      ministryOfHealth citizenPerera
      (by decide) (by decide) (by decide) (by decide) (by decide) (by decide) (by decide)
      (Or.inr ⟨ministryOfWellness, by decide, by decide, by decide⟩),
   (MovePerson_propagates_failure _ worldPereraFree "Ministry of Health"
      "Ministry of Nothing" "A. Perera" "2024-03-01" { year := 2024, month := 3, day := 1 }
      ministryOfHealth citizenPerera
      (by decide) (by decide) (by decide) (by decide) (by decide) (by decide) (by decide)
      (Or.inl (by decide))).1⟩

/-! ## RenameDepartment and the people of the department -/

/-- C17, failing input: "Health Planning" owns an active `AS_APPOINTED`
relationship to a citizen and is renamed to "Health Strategy". The call succeeds
and creates `TX00008_dep_2`; the new department owns no relationship at all,
and the relationship to the citizen stays, active, with the old department,
next to the `RENAMED_TO` relationship. No request of the call names the citizen. -/
theorem RenameDepartment_leaves_people_behind :
    (relationshipsOf worldStaffed.entities "TX00003_dep_1").map
        (fun r => (r.relatedEntityID, r.name, r.endTime))
      = [("TX00004_cit_1", "AS_APPOINTED", "")]
    ∧ ((RenameDepartment (renameTransaction "Health Planning" "Health Strategy" "2024-04-01"
        "TX00008")).run worldStaffed).1 = Result.ok 2
    ∧ (((RenameDepartment (renameTransaction "Health Planning" "Health Strategy" "2024-04-01"
        "TX00008")).run worldStaffed).2.entities.map (fun e => (e.id, e.name.value)))
      = [("gov_01", "Government of Sri Lanka"), ("TX00001_min_1", "Ministry of Health"),
         ("TX00003_dep_1", "Health Planning"), ("TX00004_cit_1", "A. Perera"),
         ("TX00008_dep_2", "Health Strategy")]
    ∧ relationshipsOf ((RenameDepartment (renameTransaction "Health Planning"
        "Health Strategy" "2024-04-01" "TX00008")).run worldStaffed).2.entities "TX00008_dep_2"
      = []
    ∧ (relationshipsOf ((RenameDepartment (renameTransaction "Health Planning"
        "Health Strategy" "2024-04-01" "TX00008")).run worldStaffed).2.entities
        "TX00003_dep_1").map (fun r => (r.relatedEntityID, r.name, r.endTime))
      = [("TX00004_cit_1", "AS_APPOINTED", ""), ("TX00008_dep_2", "RENAMED_TO", "")]
    ∧ ((RenameDepartment (renameTransaction "Health Planning" "Health Strategy" "2024-04-01"
        "TX00008")).run worldStaffed).2.calls.all
        (fun c => match c with
          | StoreCall.updateEntity _ p =>
            p.relationships.all (fun r => r.value.relatedEntityID ≠ "TX00004_cit_1")
          | StoreCall.createEntity _ => true
          | StoreCall.searchEntities q => q.id ≠ "TX00004_cit_1" ∧ q.name ≠ "A. Perera"
          | StoreCall.getRelatedEntities _ q => q.relatedEntityID ≠ "TX00004_cit_1"
          | StoreCall.getAllRelatedEntities _ => true) = true := by
  decide!

/-! ## The list of old ministers of MergeMinisters -/

theorem dropWhile_of_head (p : Char → Bool) (l : List Char)
    (h : ∀ c, l.head? = some c → p c = false) : l.dropWhile p = l := by
  cases l with
  | nil => rfl
  | cons a t =>
    have := h a rfl
    simp [List.dropWhile, this]

theorem trim_of_clean (p : Char → Bool) (l : List Char)
    (hh : ∀ c, l.head? = some c → p c = false)
    (hl : ∀ c, l.getLast? = some c → p c = false) :
    ((l.dropWhile p).reverse.dropWhile p).reverse = l := by
  rw [dropWhile_of_head p l hh, dropWhile_of_head p l.reverse (by simpa using hl),
    List.reverse_reverse]

theorem head_append_clean (p : Char → Bool) (a b : List Char)
    (ha : ∀ c, a.head? = some c → p c = false) (hb : ∀ c, b.head? = some c → p c = false) :
    ∀ c, (a ++ b).head? = some c → p c = false := by
  intro c hc
  cases a with
  | nil => exact hb c hc
  | cons x t => exact ha c hc

theorem last_append_clean (p : Char → Bool) (a b : List Char)
    (ha : ∀ c, a.getLast? = some c → p c = false)
    (hb : ∀ c, b.getLast? = some c → p c = false) :
    ∀ c, (a ++ b).getLast? = some c → p c = false := by
  intro c hc
  rw [List.getLast?_append] at hc
  cases hbl : b.getLast? with
  | none =>
    rw [hbl] at hc
    exact ha c hc
  | some y =>
    rw [hbl] at hc
    simp only [Option.or_some, Option.some.injEq] at hc
    rw [← hc]
    exact hb y hbl

theorem clean_of_all (p : Char → Bool) (l : List Char) (h : ∀ c ∈ l, p c = false) :
    (∀ c, l.head? = some c → p c = false) ∧ (∀ c, l.getLast? = some c → p c = false) :=
  ⟨fun c hc => h c (List.mem_of_mem_head? hc), fun c hc => h c (List.mem_of_getLast?_eq_some hc)⟩

theorem splitChars_no_sep (sep : Char) (a : List Char) (h : sep ∉ a) :
    splitChars sep a = [a] := by
  induction a with
  | nil => rfl
  | cons x t ih =>
    simp only [List.mem_cons, not_or] at h
    have hx : x ≠ sep := fun e => h.1 e.symm
    simp [splitChars, hx, ih h.2]

theorem splitChars_append_sep (sep : Char) (a b : List Char) (h : sep ∉ a) :
    splitChars sep (a ++ sep :: b) = a :: splitChars sep b := by
  induction a with
  | nil => simp [splitChars]
  | cons x t ih =>
    simp only [List.mem_cons, not_or] at h
    have hx : x ≠ sep := fun e => h.1 e.symm
    simp [splitChars, hx, ih h.2]

theorem plainName_facts {n : String} (h : plainName n = true) :
    ',' ∉ n.data
    ∧ (∀ c, n.data.head? = some c → edgeChar c = false)
    ∧ (∀ c, n.data.getLast? = some c → edgeChar c = false) := by
  simp only [plainName, Bool.and_eq_true, Bool.not_eq_true', List.contains_eq_any_beq,
    List.any_eq_false, beq_iff_eq] at h
  obtain ⟨⟨h1, h2⟩, h3⟩ := h
  refine ⟨fun hm => h1 _ hm rfl, ?_, ?_⟩
  · intro c hc
    rw [hc] at h2
    simpa using h2
  · intro c hc
    rw [hc] at h3
    simpa using h3

theorem edgeChar_false {c : Char} (h : edgeChar c = false) :
    isSpace c = false ∧ (['[', ']'].contains c) = false := by
  simp only [edgeChar, Bool.or_eq_false_iff, decide_eq_false_iff_not] at h
  refine ⟨h.1.1, ?_⟩
  simp [h.1.2, h.2]

theorem joinTail_clean (rest : List (Nat × String))
    (h : ∀ p ∈ rest, plainName p.2 = true) :
    (∀ c, (joinTail rest).head? = some c → (['[', ']'].contains c) = false)
    ∧ (∀ c, (joinTail rest).getLast? = some c → (['[', ']'].contains c) = false) := by
  induction rest with
  | nil => simp [joinTail]
  | cons p t ih =>
    obtain ⟨k, n⟩ := p
    have ht := ih (fun q hq => h q (List.mem_cons_of_mem _ hq))
    have hn := plainName_facts (h (k, n) (List.mem_cons_self _ _))
    have hcomma := clean_of_all (fun c => ['[', ']'].contains c) [',']
      (by intro c hc; simp only [List.mem_singleton] at hc; subst hc; decide)
    have hpad := clean_of_all (fun c => ['[', ']'].contains c) (List.replicate k ' ')
      (by intro c hc; rw [List.eq_of_mem_replicate hc]; decide)
    have hname : (∀ c, n.data.head? = some c → (['[', ']'].contains c) = false)
        ∧ (∀ c, n.data.getLast? = some c → (['[', ']'].contains c) = false) :=
      ⟨fun c hc => (edgeChar_false (hn.2.1 c hc)).2,
       fun c hc => (edgeChar_false (hn.2.2 c hc)).2⟩
    unfold joinTail
    exact ⟨head_append_clean _ _ _ hcomma.1
        (head_append_clean _ _ _ hpad.1 (head_append_clean _ _ _ hname.1 ht.1)),
      last_append_clean _ _ _ hcomma.2
        (last_append_clean _ _ _ hpad.2 (last_append_clean _ _ _ hname.2 ht.2))⟩

theorem splitChars_joinTail (a : List Char) (rest : List (Nat × String))
    (ha : ',' ∉ a) (h : ∀ p ∈ rest, plainName p.2 = true) :
    splitChars ',' (a ++ joinTail rest)
      = a :: rest.map (fun p => List.replicate p.1 ' ' ++ p.2.data) := by
  induction rest generalizing a with
  | nil => simpa [joinTail] using splitChars_no_sep ',' a ha
  | cons p t ih =>
    obtain ⟨k, n⟩ := p
    have hn := plainName_facts (h (k, n) (List.mem_cons_self _ _))
    have hb : ',' ∉ List.replicate k ' ' ++ n.data := by
      intro hm
      rcases List.mem_append.mp hm with hm | hm
      · exact absurd (List.eq_of_mem_replicate hm) (by decide)
      · exact hn.1 hm
    have := ih (List.replicate k ' ' ++ n.data) hb
      (fun q hq => h q (List.mem_cons_of_mem _ hq))
    simp only [joinTail, List.singleton_append, List.map_cons]
    rw [splitChars_append_sep ',' a _ ha, ← List.append_assoc, this]

theorem TrimSpace_padded (k : Nat) (n : String) (h : plainName n = true) :
    TrimSpace (String.mk (List.replicate k ' ' ++ n.data)) = n := by
  have hn := plainName_facts h
  unfold TrimSpace
  rw [List.dropWhile_append_of_pos (by
    intro c hc
    rw [List.eq_of_mem_replicate hc]
    decide)]
  rw [trim_of_clean isSpace n.data (fun c hc => (edgeChar_false (hn.2.1 c hc)).1)
    (fun c hc => (edgeChar_false (hn.2.2 c hc)).1)]

theorem Trim_oldField (first : String) (rest : List (Nat × String))
    (hfirst : plainName first = true) (h : ∀ p ∈ rest, plainName p.2 = true) :
    Trim (oldField first rest) ['[', ']'] = String.mk (first.data ++ joinTail rest) := by
  have hf := plainName_facts hfirst
  have ht := joinTail_clean rest h
  have hhead := head_append_clean (fun c => ['[', ']'].contains c) first.data (joinTail rest)
    (fun c hc => (edgeChar_false (hf.2.1 c hc)).2) ht.1
  have hlast := last_append_clean (fun c => ['[', ']'].contains c) first.data (joinTail rest)
    (fun c hc => (edgeChar_false (hf.2.2 c hc)).2) ht.2
  unfold Trim oldField
  congr 1
  generalize first.data ++ joinTail rest = body at hhead hlast
  cases hb : body with
  | nil => decide
  | cons x t =>
    have hx : (['[', ']'].contains x) = false := hhead x (by rw [hb]; rfl)
    have hd : List.dropWhile (fun c => ['[', ']'].contains c) (['['] ++ x :: t ++ [']'])
        = x :: t ++ [']'] := by
      have h1 : (['['] ++ x :: t ++ [']'] : List Char) = '[' :: (x :: t ++ [']']) := rfl
      rw [h1, List.dropWhile_cons_of_pos (by decide)]
      exact dropWhile_of_head _ _ (fun c hc => by
        simp only [List.cons_append, List.head?_cons, Option.some.injEq] at hc
        rw [← hc]
        exact hx)
    rw [hd, List.reverse_append, List.reverse_singleton, List.singleton_append,
      List.dropWhile_cons_of_pos (by decide),
      dropWhile_of_head _ _ (by rw [← hb]; simpa using hlast), List.reverse_reverse]

theorem parseOldMinisters_oldField (first : String) (rest : List (Nat × String))
    (hfirst : plainName first = true) (h : ∀ p ∈ rest, plainName p.2 = true) :
    parseOldMinisters (oldField first rest) = first :: rest.map (fun p => p.2) := by
  have hf := plainName_facts hfirst
  unfold parseOldMinisters Split
  rw [Trim_oldField first rest hfirst h]
  simp only [splitChars_joinTail first.data rest hf.1 h, List.map_cons, List.map_map]
  congr 1
  · have := TrimSpace_padded 0 first hfirst
    simpa using this
  · apply List.map_congr_left
    intro p hp
    exact TrimSpace_padded p.1 p.2 (h p hp)

theorem mergeOldMinisters_cons (newMinister dateStr dateISO newMinisterID m : String)
    (rest : List String) :
    mergeOldMinisters newMinister dateStr dateISO newMinisterID (m :: rest)
      = (mergeOldMinister newMinister dateStr dateISO newMinisterID m >>= fun _ =>
          mergeOldMinisters newMinister dateStr dateISO newMinisterID rest) := by
  funext w
  show (mergeOldMinisters newMinister dateStr dateISO newMinisterID (m :: rest)).run w
    = (mergeOldMinister newMinister dateStr dateISO newMinisterID m >>= fun _ =>
          mergeOldMinisters newMinister dateStr dateISO newMinisterID rest).run w
  rw [mergeOldMinisters]
  unfold mergeOldMinister
  simp only [run_bind, run_wrapError, run_SearchEntities]
  cases searchResults w.entities (orgCriteria "minister" m) with
  | nil => rfl
  | cons firstOld tail =>
    simp only [run_bind, run_wrapError, run_GetAllRelatedEntities, run_pure]
    cases (moveDepartments m newMinister dateStr (relationshipsOf w.entities firstOld.id)).run
        { w with calls := w.calls ++ [StoreCall.searchEntities (orgCriteria "minister" m)]
            ++ [StoreCall.getAllRelatedEntities firstOld.id] } with
    | mk res1 w1 =>
      cases res1 with
      | error e => rfl
      | panic e => rfl
      | unmodelled e => rfl
      | ok u1 =>
        simp only []
        cases (TerminateOrgEntity (terminateTransaction "Government of Sri Lanka" m dateStr
            "government" "minister" "AS_MINISTER")).run w1 with
        | mk res2 w2 =>
          cases res2 with
          | error e => rfl
          | panic e => rfl
          | unmodelled e => rfl
          | ok u2 =>
            simp only []
            cases (UpdateEntity firstOld.id (relationshipUpdate firstOld.id
                (newRelationship firstOld.id newMinisterID dateISO "MERGED_INTO"))).run w2 with
            | mk res3 w3 =>
              cases res3 <;> rfl

theorem mergeOldMinisters_eq_foldr (newMinister dateStr dateISO newMinisterID : String)
    (names : List String) :
    mergeOldMinisters newMinister dateStr dateISO newMinisterID names
      = names.foldr
          (fun m k => mergeOldMinister newMinister dateStr dateISO newMinisterID m >>= fun _ => k)
          (pure ()) := by
  induction names with
  | nil => rfl
  | cons m rest ih => rw [mergeOldMinisters_cons, ih, List.foldr_cons]

/-- C18: for a non-empty list of minister names none of which contains a comma
or begins or ends with white space or a bracket, the `old` field made of an
opening bracket, the names joined by commas followed by optional spaces, and a
closing bracket is parsed by `MergeMinisters` to exactly that list, in the same
order; and `MergeMinisters` on such a field is the creation of the new minister
followed by the merge of the first name, then of the second, and so on. -/
theorem MergeMinisters_list_order (first : String) (rest : List (Nat × String))
    (hfirst : plainName first = true) (hrest : ∀ p ∈ rest, plainName p.2 = true) :
    parseOldMinisters (oldField first rest) = first :: rest.map (fun p => p.2)
    ∧ ∀ (tx : Transaction) (w : World) (newMinister dateStr transactionID : String),
        tx.get "old" = Value.str (oldField first rest) →
        tx.get "new" = Value.str newMinister →
        tx.get "date" = Value.str dateStr →
        tx.get "transaction_id" = Value.str transactionID →
        (MergeMinisters tx).run w =
          (do
            let dateISO ← parseDate dateStr
            let newMinisterCounter ← wrapError "failed to create new minister: "
              (AddOrgEntity
                (addEntityTransaction "Government of Sri Lanka" newMinister dateStr "government"
                  "minister" "AS_MINISTER" (Value.str transactionID)))
            let newMinisterResults ← wrapError "failed to search for new minister: "
              (SearchEntities (orgCriteria "minister" newMinister))
            match newMinisterResults with
            | [] => fail ("new minister not found: " ++ newMinister)
            | firstNew :: _ =>
              (first :: rest.map (fun p => p.2)).foldr
                (fun m k =>
                  mergeOldMinister newMinister dateStr dateISO firstNew.id m >>= fun _ => k)
                (pure ())
              pure newMinisterCounter : Op Int).run w := by
  have hparse := parseOldMinisters_oldField first rest hfirst hrest
  refine ⟨hparse, ?_⟩
  intro tx w newMinister dateStr transactionID hold hnew hdate htx
  unfold MergeMinisters
  simp only [run_bind, hold, hnew, hdate, htx, run_assertString]
  simp only [hparse]
  simp only [mergeOldMinisters_eq_foldr]

/-- C18, witness: the field `[Ministry of Health, Ministry of Wellness]`, and a
field of three names with irregular spacing and brackets inside a name. -/
theorem MergeMinisters_list_order_witness :
    parseOldMinisters (oldField "Ministry of Health" [(1, "Ministry of Wellness")])
      = ["Ministry of Health", "Ministry of Wellness"]
    ∧ oldField "Ministry of Health" [(1, "Ministry of Wellness")]
      = "[Ministry of Health, Ministry of Wellness]"
    ∧ parseOldMinisters (oldField "Health" [(0, "Wellness"), (3, "Sport [Youth] and Culture")])
      = ["Health", "Wellness", "Sport [Youth] and Culture"]
    ∧ oldField "Health" [(0, "Wellness"), (3, "Sport [Youth] and Culture")]
      = "[Health,Wellness,   Sport [Youth] and Culture]" :=
  ⟨(MergeMinisters_list_order "Ministry of Health" [(1, "Ministry of Wellness")]
      (by decide) (by decide)).1,
   by decide,
   (MergeMinisters_list_order "Health" [(0, "Wellness"), (3, "Sport [Youth] and Culture")]
      (by decide) (by decide)).1,
   by decide⟩

/-! ## AddDocumentEntity on validated input -/

/-- On validated input whose transaction ID is shorter than 7 bytes,
`AddDocumentEntity` panics whenever it has to allocate an ID: the parent resolves
and no document of that name and kind exists. -/
theorem AddDocumentEntity_panics_of_short_id (tx : Transaction) (w : World)
    (parent child dateStr parentType childType transactionID : String) (d : Date) (P : Entity)
    (hparent : tx.get "parent" = Value.str parent) (hparent' : parent ≠ "")
    (hchild : tx.get "child" = Value.str child) (hchild' : child ≠ "")
    (hdate : tx.get "date" = Value.str dateStr) (hdate' : dateStr ≠ "")
    (hparentType : tx.get "parent_type" = Value.str parentType) (hparentType' : parentType ≠ "")
    (hchildType : tx.get "child_type" = Value.str childType) (hchildType' : childType ≠ "")
    (htx : tx.get "transaction_id" = Value.str transactionID) (htx' : transactionID ≠ "")
    (hd : timeParse (TrimSpace dateStr) = some d)
    (hP : resolve w.entities (orgCriteria parentType parent) = some P)
    (hnew : searchResults w.entities (documentCriteria childType child) = [])
    (hshort : byteLen transactionID < 7) :
    (AddDocumentEntity tx).run w =
      (Result.panic "slice bounds out of range",
        { w with calls := w.calls ++
            [StoreCall.searchEntities (orgCriteria parentType parent),
             StoreCall.searchEntities (documentCriteria childType child)] }) := by
  obtain ⟨rest, hrest⟩ := searchResults_of_resolve hP
  have hslice : sliceTo transactionID 7 = Sliced.outOfRange := sliceTo_outOfRange hshort
  unfold documentCriteria at hnew
  unfold AddDocumentEntity
  simp [run_requireString _ hparent hparent', run_requireString _ hchild hchild',
    run_requireString _ hdate hdate', run_requireString _ hparentType hparentType',
    run_requireString _ hchildType hchildType', run_requireString _ htx htx',
    run_parseDate _ hd, hrest, hnew, run_slice, hslice, documentCriteria]

/-- C19, failing input: all six fields that `AddDocumentEntity` checks are
non-empty strings, the transaction ID has three characters, the parent exists
and no document of that name does. The call neither returns a counter nor an
error: the slice `transactionID[:7]` is out of range and the call ends in a
run-time panic, after the two searches. Where the document exists the same
transaction returns 0: only the allocation takes the slice. -/
theorem AddDocumentEntity_short_transaction_id_panics :
    ["parent", "child", "date", "parent_type", "child_type", "transaction_id"].all
        (fun k => match addPolicyShortID.get k with
          | Value.str s => s ≠ ""
          | _ => false) = true
    ∧ addPolicyShortID.get "transaction_id" = Value.str "TX9"
    ∧ ((AddDocumentEntity addPolicyShortID).run worldB).1
        = Result.panic "slice bounds out of range"
    ∧ ((AddDocumentEntity addPolicyShortID).run worldB).2.calls
        = [StoreCall.searchEntities (orgCriteria "minister" "Ministry of Health"),
           StoreCall.searchEntities (documentCriteria "policy" "Health Policy 2024")]
    ∧ ((AddDocumentEntity addPolicyShortID).run worldQ).1 = Result.ok 0 := by
  decide!

/-! ## MoveDepartment from a minister to that same minister -/

theorem relationship_to_child_unique {es : List Entity} {id childID : String}
    {r1 r2 : Relationship} (hwf : WellKeyedAt es id)
    (h1 : r1 ∈ relationshipsOf es id) (h2 : r2 ∈ relationshipsOf es id)
    (hc1 : r1.relatedEntityID = childID) (hc2 : r2.relatedEntityID = childID) : r1 = r2 := by
  rw [relationshipsOf_eq_map, List.mem_map] at h1 h2
  obtain ⟨e1, he1, hv1⟩ := h1
  obtain ⟨e2, he2, hv2⟩ := h2
  have k1 := mem_entriesOf_wellKeyed hwf he1
  have k2 := mem_entriesOf_wellKeyed hwf he2
  have hkey : e1.key = e2.key := by
    rw [k1.1, k1.2, k2.1, k2.2, hv1, hv2, hc1, hc2]
  have := List.inj_on_of_nodup_map (entriesOf_nodup hwf) he1 he2 hkey
  rw [← hv1, ← hv2, this]

theorem terminateActive_ok {w w' : World} {parentID childID relType dateISO : String}
    (hrun : (terminateActive parentID childID relType dateISO).run w = (Result.ok (), w')) :
    ∃ a, selectedRelationship w parentID childID relType dateISO = some a
      ∧ w'.entities = applyUpdate w.entities parentID
          (relationshipUpdate parentID (endRelationship a.id dateISO))
      ∧ w'.calls = w.calls ++
          [StoreCall.getRelatedEntities parentID (terminateQuery childID relType dateISO),
           StoreCall.updateEntity parentID
             (relationshipUpdate parentID (endRelationship a.id dateISO))] := by
  rw [run_terminateActive] at hrun
  cases hsel : selectedRelationship w parentID childID relType dateISO with
  | none => simp [hsel] at hrun
  | some a =>
    simp only [hsel, Prod.mk.injEq, true_and] at hrun
    subst hrun
    exact ⟨a, rfl, rfl, rfl⟩

/-- C20: in a store that follows the key discipline, let old_parent and
new_parent name the same minister, resolved to `M`, let the department resolve
to `D`, and let `M` own an active `AS_DEPARTMENT` relationship to `D`. The attach
and the terminate of `MoveDepartment` both address the key `M.ID_D.ID`: every
successful call sends the nine requests listed, two of them updates of `M` under
that key, and leaves exactly one relationship from `M` to `D` of type
`AS_DEPARTMENT`, keyed `M.ID_D.ID`, started and ended at the date of the move, so
none is active. The call succeeds whenever the store's start time filter lets
through a relationship that starts at the date queried. -/
theorem MoveDepartment_same_minister_ends_relationship (tx : Transaction) (w : World)
    (parent child dateStr : String) (d : Date) (M D : Entity)
    (hnew : tx.get "new_parent" = Value.str parent)
    (hold : tx.get "old_parent" = Value.str parent)
    (hchild : tx.get "child" = Value.str child)
    (hdate : tx.get "date" = Value.str dateStr)
    (hd : timeParse (TrimSpace dateStr) = some d)
    (hwf : WellFormed w.entities)
    (hM : resolve w.entities (orgCriteria "minister" parent) = some M)
    (hD : resolve w.entities (orgCriteria "department" child) = some D)
    (hactive : ∃ r ∈ relationshipsOf w.entities M.id,
      r.relatedEntityID = D.id ∧ r.name = "AS_DEPARTMENT" ∧ r.endTime = "") :
    let dateISO := TrimSpace dateStr ++ "T00:00:00Z"
    let key := M.id ++ "_" ++ D.id
    let attached : Relationship :=
      { relatedEntityID := D.id, startTime := dateISO, endTime := "", id := key,
        name := "AS_DEPARTMENT" }
    (∀ w', (MoveDepartment tx).run w = (Result.ok (), w') →
      w'.calls = w.calls ++
        [StoreCall.searchEntities (orgCriteria "minister" parent),
         StoreCall.searchEntities (orgCriteria "department" child),
         StoreCall.updateEntity M.id (relationshipUpdate M.id attached),
         StoreCall.searchEntities (orgCriteria "minister" parent),
         StoreCall.getAllRelatedEntities M.id,
         StoreCall.searchEntities (orgCriteria "minister" parent),
         StoreCall.searchEntities (orgCriteria "department" child),
         StoreCall.getRelatedEntities M.id (terminateQuery D.id "AS_DEPARTMENT" dateISO),
         StoreCall.updateEntity M.id (relationshipUpdate M.id (endRelationship key dateISO))]
      ∧ matchingRelationships w'.entities M.id D.id "AS_DEPARTMENT"
          = [{ attached with endTime := dateISO }]
      ∧ ∀ r ∈ relationshipsOf w'.entities M.id,
          r.relatedEntityID = D.id → r.name = "AS_DEPARTMENT" → r.endTime ≠ "")
    ∧ (w.startTimeMatches dateISO attached = true →
        ∃ w', (MoveDepartment tx).run w = (Result.ok (), w')) := by
  rw [← formatRFC3339_timeParse hd]
  dsimp only
  have hne := formatRFC3339_ne_empty d
  have hMid := hasID_of_resolve hM
  have hwfM := wellKeyedAt_of_wellFormed hwf M.id
  obtain ⟨r0, hr0, hr0c, hr0n, hr0e⟩ := hactive
  have hstale : ∀ r ∈ relationshipsOf w.entities M.id, r.relatedEntityID = D.id →
      r.endTime = "" := by
    intro r hr hc
    rw [relationship_to_child_unique hwfM hr hr0 hc hr0c]
    exact hr0e
  -- the state after the attach
  have hwf1 : WellFormed (applyUpdate w.entities M.id
      (relationshipUpdate M.id (newRelationship M.id D.id (formatRFC3339 d) "AS_DEPARTMENT"))) :=
    wellFormed_attach hwf _ _ _ _
  have hwfM1 := wellKeyedAt_of_wellFormed hwf1 M.id
  have hentry := @attach_mem w.entities M.id D.id (formatRFC3339 d) "AS_DEPARTMENT"
    hwfM hMid hne (by decide) hstale
  have hmem1 : newRelationship M.id D.id (formatRFC3339 d) "AS_DEPARTMENT" ∈
      relationshipsOf (applyUpdate w.entities M.id
        (relationshipUpdate M.id
          (newRelationship M.id D.id (formatRFC3339 d) "AS_DEPARTMENT"))) M.id := by
    rw [relationshipsOf_eq_map, List.mem_map]
    exact ⟨_, hentry, rfl⟩
  have hrun := run_MoveDepartment tx w parent parent child dateStr d M D M
    hnew hold hchild hdate hd hM hD hM
  cases hfind : (relationshipsOf (applyUpdate w.entities M.id
      (relationshipUpdate M.id (newRelationship M.id D.id (formatRFC3339 d) "AS_DEPARTMENT")))
      M.id).find? (activeDepartmentTo D.id) with
  | none =>
    rw [List.find?_eq_none] at hfind
    have := hfind _ hmem1
    simp [activeDepartmentTo, newRelationship] at this
  | some a0 =>
    rw [hfind] at hrun
    simp only [run_wrapError] at hrun
    obtain ⟨M1, hM1, hM1id⟩ := resolve_applyUpdate_rel_id (i := M.id)
      (r := newRelationship M.id D.id (formatRFC3339 d) "AS_DEPARTMENT") hM
    obtain ⟨D1, hD1, hD1id⟩ := resolve_applyUpdate_rel_id (i := M.id)
      (r := newRelationship M.id D.id (formatRFC3339 d) "AS_DEPARTMENT") hD
    obtain ⟨g1, g2, g3, g4, g5, g6⟩ := terminateTransaction_get parent child dateStr
      "minister" "department" "AS_DEPARTMENT"
    rw [run_TerminateOrgEntity _ _ parent child dateStr "minister" "department"
      "AS_DEPARTMENT" d M1 D1 g1 g2 g3 g4 g5 g6 hd hM1 hD1] at hrun
    have hdm : ("department" : String) ≠ "minister" := by decide
    simp only [hdm, if_false, hM1id, hD1id] at hrun
    constructor
    · intro w' hok
      rw [hrun] at hok
      cases hterm : (terminateActive M.id D.id "AS_DEPARTMENT" (formatRFC3339 d)).run
          { entities := applyUpdate w.entities M.id
              (relationshipUpdate M.id
                (newRelationship M.id D.id (formatRFC3339 d) "AS_DEPARTMENT")),
            startTimeMatches := w.startTimeMatches,
            calls := w.calls ++
                [StoreCall.searchEntities (orgCriteria "minister" parent),
                 StoreCall.searchEntities (orgCriteria "department" child),
                 StoreCall.updateEntity M.id
                   (relationshipUpdate M.id
                     (newRelationship M.id D.id (formatRFC3339 d) "AS_DEPARTMENT")),
                 StoreCall.searchEntities (orgCriteria "minister" parent),
                 StoreCall.getAllRelatedEntities M.id] ++
                [StoreCall.searchEntities (orgCriteria "minister" parent),
                 StoreCall.searchEntities (orgCriteria "department" child)],
            counters := w.counters } with
      | mk res w2 =>
        rw [hterm] at hok
        cases res with
        | error e => simp at hok
        | panic e => simp at hok
        | unmodelled e => simp at hok
        | ok u =>
          simp only [Prod.mk.injEq, true_and] at hok
          subst hok
          obtain ⟨a, ha, hac, -, -, haid, hent, hm⟩ := terminateActive_closes hwfM1 hne hterm
          have haeq : a = newRelationship M.id D.id (formatRFC3339 d) "AS_DEPARTMENT" :=
            relationship_to_child_unique hwfM1 ha hmem1 hac rfl
          subst haeq
          refine ⟨?_, ?_, ?_⟩
          · obtain ⟨a1, hsel, -, hcalls⟩ := terminateActive_ok hterm
            have ha1 := selectedRelationship_mem hsel
            have ha1eq : a1 = newRelationship M.id D.id (formatRFC3339 d) "AS_DEPARTMENT" :=
              relationship_to_child_unique hwfM1 ha1.1 hmem1 ha1.2.1 rfl
            rw [hcalls, ha1eq]
            simp [newRelationship]
          · rw [hm]
            rfl
          · intro r hr hc hn
            have hrm : r ∈ matchingRelationships w2.entities M.id D.id "AS_DEPARTMENT" := by
              unfold matchingRelationships
              rw [List.mem_filter]
              exact ⟨hr, by simp [hc, hn]⟩
            rw [hm, List.mem_singleton] at hrm
            rw [hrm]
            exact hne
    · intro hfilter
      rw [hrun, run_terminateActive]
      cases hsel : selectedRelationship
          { entities := applyUpdate w.entities M.id
              (relationshipUpdate M.id
                (newRelationship M.id D.id (formatRFC3339 d) "AS_DEPARTMENT")),
            startTimeMatches := w.startTimeMatches,
            calls := w.calls ++
                [StoreCall.searchEntities (orgCriteria "minister" parent),
                 StoreCall.searchEntities (orgCriteria "department" child),
                 StoreCall.updateEntity M.id
                   (relationshipUpdate M.id
                     (newRelationship M.id D.id (formatRFC3339 d) "AS_DEPARTMENT")),
                 StoreCall.searchEntities (orgCriteria "minister" parent),
                 StoreCall.getAllRelatedEntities M.id] ++
                [StoreCall.searchEntities (orgCriteria "minister" parent),
                 StoreCall.searchEntities (orgCriteria "department" child)],
            counters := w.counters } M.id D.id "AS_DEPARTMENT" (formatRFC3339 d) with
      | some a => exact ⟨_, rfl⟩
      | none =>
        exfalso
        unfold selectedRelationship at hsel
        rw [List.find?_eq_none] at hsel
        have := hsel _ (List.mem_filter.mpr ⟨hmem1, by
          simpa [matchesQuery, terminateQuery, newRelationship] using Or.inr hfilter⟩)
        simp [activeTo, newRelationship] at this

/-- C20, witness: "Health Planning", active under "Ministry of Health", is moved
from "Ministry of Health" to "Ministry of Health" on 2024-03-01. -/
theorem MoveDepartment_same_minister_ends_relationship_witness :
    (∃ w', (MoveDepartment moveWithinHealth).run worldD = (Result.ok (), w'))
    ∧ matchingRelationships ((MoveDepartment moveWithinHealth).run worldD).2.entities
        "TX00001_min_1" "TX00003_dep_1" "AS_DEPARTMENT"
      = [{ relatedEntityID := "TX00003_dep_1", startTime := "2024-03-01T00:00:00Z",
           endTime := "2024-03-01T00:00:00Z", id := "TX00001_min_1_TX00003_dep_1",
           name := "AS_DEPARTMENT" }] :=
  ⟨(MoveDepartment_same_minister_ends_relationship moveWithinHealth worldD
      "Ministry of Health" "Health Planning" "2024-03-01" { year := 2024, month := 3, day := 1 }
      healthWithPlanning healthPlanning
      (by decide) (by decide) (by decide) (by decide) (by decide) (by decide) (by decide)
      (by decide) (by decide)).2 (by decide),
   ((MoveDepartment_same_minister_ends_relationship moveWithinHealth worldD
      "Ministry of Health" "Health Planning" "2024-03-01" { year := 2024, month := 3, day := 1 }
      healthWithPlanning healthPlanning
      (by decide) (by decide) (by decide) (by decide) (by decide) (by decide) (by decide)
      (by decide) (by decide)).1 _ (Prod.ext (by decide!) rfl)).2.1⟩

end OrgChart
